import Mathlib

/-!
# RecuerdaMe client: service worker and location module

A shallow embedding of `src/service-worker.js` and `src/static/js/location.js`.
Event handlers become pure functions from the event and the part of the
platform state they read to the effects they perform (in program order) and
the state they leave.  Diagnostic `console.*` calls are not recorded.
-/

namespace Recuerdame

/-! ## JavaScript values -/

/-- The JavaScript values that reach the handlers: `undefined` and the JSON
values.  Numbers are rationals; an object is its list of own properties. -/
inductive JSVal where
  | undefined
  | null
  | bool (b : Bool)
  | num (q : ℚ)
  | str (s : String)
  | arr (items : List JSVal)
  | obj (fields : List (String × JSVal))

/-- A thrown JavaScript value.  `geo code message` is a
`GeolocationPositionError`, whose instances carry the constants
`PERMISSION_DENIED = 1`, `POSITION_UNAVAILABLE = 2` and `TIMEOUT = 3`;
`error message` is any other `Error` (TypeError, SyntaxError, `new Error`). -/
inductive JSError where
  | geo (code : Nat) (message : String)
  | error (message : String)
  deriving DecidableEq, Repr

namespace JSVal

/-- JavaScript truthiness (`ToBoolean`). -/
def truthy : JSVal → Bool
  | undefined => false
  | null => false
  | bool b => b
  | num q => q != 0
  | str s => s != ""
  | arr _ => true
  | obj _ => true

/-- The operator `a || b`. -/
def or (a b : JSVal) : JSVal :=
  if a.truthy then a else b

/-- Property read `v.key` for the keys used by the handlers (none of them is
defined on a primitive's or an array's prototype): a `TypeError` on
`undefined` and `null`, the own property of an object, `undefined` otherwise. -/
def getProp (v : JSVal) (key : String) : Except JSError JSVal :=
  match v with
  | undefined => .error (.error ("Cannot read properties of undefined (reading " ++ key ++ ")"))
  | null => .error (.error ("Cannot read properties of null (reading " ++ key ++ ")"))
  | obj fields => .ok ((fields.lookup key).getD undefined)
  | _ => .ok undefined

/-- Strict equality `v === s` against a string literal. -/
def strictEqStr (v : JSVal) (s : String) : Bool :=
  match v with
  | str t => t == s
  | _ => false

end JSVal

/-! ## Strings -/

/-- The pieces of a character list between occurrences of `sep`
(`String.prototype.split` with a one-character separator). -/
def splitChars (sep : Char) : List Char → List (List Char)
  | [] => [[]]
  | c :: cs =>
    if c = sep then [] :: splitChars sep cs
    else
      match splitChars sep cs with
      | [] => [[c]]
      | piece :: rest => (c :: piece) :: rest

/-- Whether `needle` occurs in `hay` as a contiguous run. -/
def includesChars (needle : List Char) : List Char → Bool
  | [] => needle.isEmpty
  | c :: cs => needle.isPrefixOf (c :: cs) || includesChars needle cs

/-- The method `s.includes(t)`. -/
def jsIncludes (s t : String) : Bool :=
  includesChars t.data s.data

/-- The method `s.startsWith(t)`. -/
def jsStartsWith (s t : String) : Bool :=
  t.data.isPrefixOf s.data

/-- The method `s.split(sep)` for a one-character separator. -/
def jsSplit (s : String) (sep : Char) : List String :=
  (splitChars sep s.data).map String.mk

/-! ## Service worker: notifications -/

/-- The constant `CACHE_NAME`. -/
def CACHE_NAME : String := "recuerdame-v1.0.0"

/-- The kinds of service-worker client. -/
inductive ClientType where
  | window
  | worker
  | sharedworker
  deriving DecidableEq, Repr

/-- A same-origin client of the service worker.  A client has the method
`focus` exactly when it is a window client. -/
structure Client where
  id : Nat
  url : String
  type : ClientType

/-- What the handlers read of `clients`: the same-origin clients and whether
`clients.openWindow` exists. -/
structure ClientsEnv where
  clients : List Client
  canOpenWindow : Bool

/-- The call `clients.matchAll` with `includeUncontrolled: true` and the given
`type`. -/
def matchAll (env : ClientsEnv) (type : ClientType) : List Client :=
  env.clients.filter (fun c => c.type == type)

/-- Effects of the service worker's handlers. -/
inductive SWEffect where
  | closeNotification
  | focusClient (id : Nat)
  | openWindow (url : JSVal)
  | postMessage (client : Nat) (message : JSVal)
  | showNotification (title : JSVal) (options : JSVal)

/-- What a handler did: its effects in order, and the error it threw or
rejected its `waitUntil` promise with, if any. -/
structure HandlerOutcome where
  effects : List SWEffect
  failure : Option JSError

/-- A `notificationclick` event: the clicked action (empty for the body of
the notification) and `event.notification.data`, which is `null` for a
notification shown without data. -/
structure NotificationClickEvent where
  action : String
  data : JSVal

/-- The target of the click, lines 250-261 of the handler. -/
def clickTarget (data : JSVal) : Except JSError JSVal :=
  if data.truthy then do
    let t1 ← data.getProp "type"
    if t1.strictEqStr "geofence" then pure (.str "/dashboard")
    else do
      let t2 ← data.getProp "type"
      if t2.strictEqStr "reminder" then pure (.str "/reminders")
      else do
        let t3 ← data.getProp "type"
        if t3.strictEqStr "alert" then pure (.str "/alerts")
        else do
          let u ← data.getProp "url"
          if u.truthy then data.getProp "url"
          else pure (.str "/dashboard")
  else pure (.str "/dashboard")

/-- The expression `url.split('/')[1] || 'dashboard'`; only a string has
`split`. -/
def firstSegment (url : JSVal) : Except JSError String :=
  match url with
  | .str s =>
    match (jsSplit s '/').get? 1 with
    | some seg => .ok (if seg != "" then seg else "dashboard")
    | none => .ok "dashboard"
  | _ => .error (.error "url.split is not a function")

/-- The `for` loop over the window clients: the first one whose URL contains
the segment and that can be focused. -/
def findFocus (url : JSVal) : List Client → Except JSError (Option Client)
  | [] => .ok none
  | c :: cs => do
    let seg ← firstSegment url
    if jsIncludes c.url seg && c.type == .window then pure (some c)
    else findFocus url cs

/-- The first `waitUntil` task: focus an existing window or open one. -/
def focusOrOpen (env : ClientsEnv) (url : JSVal) : Except JSError (List SWEffect) := do
  let found ← findFocus url (matchAll env .window)
  match found with
  | some c => pure [.focusClient c.id]
  | none => pure (if env.canOpenWindow then [.openWindow url] else [])

/-- The second `waitUntil` task: post `NOTIFICATION_CLICK` to every client
returned by `matchAll`, whose default type is `window`. -/
def broadcastClick (env : ClientsEnv) (data : JSVal) : List SWEffect :=
  (matchAll env .window).map fun c =>
    .postMessage c.id (.obj [("type", .str "NOTIFICATION_CLICK"), ("notification", data)])

/-- The `notificationclick` handler. -/
def notificationClick (env : ClientsEnv) (ev : NotificationClickEvent) : HandlerOutcome :=
  if ev.action == "dismiss" then ⟨[.closeNotification], none⟩
  else
    match clickTarget ev.data with
    | .error e => ⟨[.closeNotification], some e⟩
    | .ok url =>
      match focusOrOpen env url with
      | .ok nav => ⟨.closeNotification :: (nav ++ broadcastClick env ev.data), none⟩
      | .error e => ⟨.closeNotification :: broadcastClick env ev.data, some e⟩

/-- The payload of a push event: its text and what `json()` returns, the
parsed value or the `SyntaxError` thrown. -/
structure PushMessageData where
  text : String
  json : Except JSError JSVal

/-- A `push` event; `data` is absent when the push has no payload. -/
structure PushEvent where
  data : Option PushMessageData

/-- The path of the application icon. -/
def appIcon : JSVal := .str "/static/img/icon.png"

/-- The value of `notificationData` after lines 187-205. -/
def pushNotificationData (ev : PushEvent) : JSVal :=
  match ev.data with
  | some d =>
    match d.json with
    | .ok v => v
    | .error _ =>
      .obj [("title", .str "RecuerdaMe"),
            ("body", (JSVal.str d.text).or (.str "Nueva notificación")),
            ("icon", appIcon)]
  | none =>
    .obj [("title", .str "RecuerdaMe"), ("body", .str "Nueva notificación"), ("icon", appIcon)]

/-- The literal `actions` of the notification options. -/
def pushActions : JSVal :=
  .arr [.obj [("action", .str "view"), ("title", .str "Ver"), ("icon", appIcon)],
        .obj [("action", .str "dismiss"), ("title", .str "Cerrar")]]

/-- The object `options` of lines 208-227. -/
def pushOptions (nd : JSVal) : Except JSError JSVal := do
  let body ← nd.getProp "body"
  let icon ← nd.getProp "icon"
  let data ← nd.getProp "data"
  let requireInteraction ← nd.getProp "requireInteraction"
  let tag ← nd.getProp "tag"
  pure (.obj [("body", body.or (.str "Nueva notificación de RecuerdaMe")),
              ("icon", icon.or appIcon),
              ("badge", appIcon),
              ("vibrate", .arr [.num 200, .num 100, .num 200]),
              ("data", data.or (.obj [])),
              ("actions", pushActions),
              ("requireInteraction", requireInteraction.or (.bool false)),
              ("tag", tag.or (.str "recuerdame-notification"))])

/-- The `push` handler. -/
def pushHandler (ev : PushEvent) : HandlerOutcome :=
  let nd := pushNotificationData ev
  match pushOptions nd with
  | .error e => ⟨[], some e⟩
  | .ok options =>
    match nd.getProp "title" with
    | .error e => ⟨[], some e⟩
    | .ok title => ⟨[.showNotification (title.or (.str "RecuerdaMe")) options], none⟩

/-! ## Service worker: caches -/

/-- What the fetch handler reads of a request. -/
structure Request where
  url : String
  method : String
  destination : String

/-- A response: status, headers and body. -/
structure Response where
  status : Nat
  headers : List (String × String)
  body : String

/-- A cache: the stored responses by request URL. -/
abbrev Cache := List (String × Response)

/-- The origin's cache storage: the named caches in creation order. -/
abbrev CacheStorage := List (String × Cache)

/-- The call `cache.match(request)`: only a GET request matches. -/
def cacheMatch (c : Cache) (req : Request) : Option Response :=
  if req.method == "GET" then c.lookup req.url else none

/-- The call `caches.match(request)`: the first match over the caches in
creation order. -/
def cachesMatch : CacheStorage → Request → Option Response
  | [], _ => none
  | (_, c) :: rest, req =>
    match cacheMatch c req with
    | some r => some r
    | none => cachesMatch rest req

/-- The call `caches.keys()`. -/
def cachesKeys (s : CacheStorage) : List String :=
  s.map Prod.fst

/-- The call `caches.delete(name)`. -/
def cachesDelete (s : CacheStorage) (name : String) : CacheStorage :=
  s.filter (fun entry => entry.1 != name)

/-- The call `cache.put(request, response)`: the entry of the request's URL
is replaced. -/
def cachePut (c : Cache) (req : Request) (resp : Response) : Cache :=
  (req.url, resp) :: c.filter (fun entry => entry.1 != req.url)

/-- The statement `caches.open(name).then(cache => cache.put(request, response))`:
the cache is created when it does not exist; a request that is not a GET is
rejected by `put` and nothing is stored. -/
def openAndPut : CacheStorage → String → Request → Response → CacheStorage
  | [], name, req, resp =>
    [(name, if req.method == "GET" then cachePut [] req resp else [])]
  | (n, c) :: rest, name, req, resp =>
    if n == name then
      (n, if req.method == "GET" then cachePut c req resp else c) :: rest
    else (n, c) :: openAndPut rest name req resp

/-- Effects of the `activate` handler besides the cache storage. -/
inductive ActivateEffect where
  | clientsClaim
  deriving DecidableEq, Repr

/-- The `activate` handler: every key that differs from `CACHE_NAME` is
deleted, then the clients are claimed. -/
def activateHandler (s : CacheStorage) : CacheStorage × List ActivateEffect :=
  ((cachesKeys s).foldl
      (fun acc cacheName => if cacheName != CACHE_NAME then cachesDelete acc cacheName else acc) s,
    [.clientsClaim])

/-- The body of the offline page, the template literal of lines 123-172. -/
def offlinePageBody : String :=
  String.join [
    "\n",
    "                                <!DOCTYPE html>\n",
    "                                <html>\n",
    "                                <head>\n",
    "                                    <meta charset=\"UTF-8\">\n",
    "                                    <meta name=\"viewport\" content=\"width=device-width, initial-scale=1.0\">\n",
    "                                    <title>RecuerdaMe - Sin conexión</title>\n",
    "                                    <style>\n",
    "                                        body \x7b \n",
    "                                            font-family: Arial, sans-serif; \n",
    "                                            text-align: center; \n",
    "                                            padding: 50px; \n",
    "                                            background: #f8f9fa;\n",
    "                                        \x7d\n",
    "                                        .offline-container \x7b\n",
    "                                            max-width: 400px;\n",
    "                                            margin: 0 auto;\n",
    "                                            background: white;\n",
    "                                            padding: 40px;\n",
    "                                            border-radius: 10px;\n",
    "                                            box-shadow: 0 2px 10px rgba(0,0,0,0.1);\n",
    "                                        \x7d\n",
    "                                        .icon \x7b font-size: 64px; margin-bottom: 20px; \x7d\n",
    "                                        h1 \x7b color: #6c757d; margin-bottom: 20px; \x7d\n",
    "                                        p \x7b color: #6c757d; line-height: 1.6; \x7d\n",
    "                                        .btn \x7b\n",
    "                                            background: #007bff;\n",
    "                                            color: white;\n",
    "                                            padding: 12px 24px;\n",
    "                                            border: none;\n",
    "                                            border-radius: 5px;\n",
    "                                            cursor: pointer;\n",
    "                                            font-size: 16px;\n",
    "                                            margin-top: 20px;\n",
    "                                        \x7d\n",
    "                                    </style>\n",
    "                                </head>\n",
    "                                <body>\n",
    "                                    <div class=\"offline-container\">\n",
    "                                        <div class=\"icon\">📱</div>\n",
    "                                        <h1>Sin conexión a internet</h1>\n",
    "                                        <p>No hay conexión disponible en este momento. Algunas funciones pueden estar limitadas.</p>\n",
    "                                        <p>Por favor, verifica tu conexión e intenta de nuevo.</p>\n",
    "                                        <button class=\"btn\" onclick=\"window.location.reload()\">\n",
    "                                            Intentar de nuevo\n",
    "                                        </button>\n",
    "                                    </div>\n",
    "                                </body>\n",
    "                                </html>\n",
    "                            "]

/-- The response constructed with `new Response` of the offline page. -/
def offlinePage : Response :=
  ⟨200, [("Content-Type", "text/html")], offlinePageBody⟩

/-- What the fetch handler answered. -/
inductive FetchResult where
  | passthrough
  | respond (r : Except JSError Response)

/-- What the fetch handler did: its answer, whether it called `fetch`, and the
cache storage it leaves. -/
structure FetchOutcome where
  result : FetchResult
  networkFetched : Bool
  storage : CacheStorage

/-- The caching step `if (networkResponse.status === 200) ... cache.put`. -/
def cacheIfOk (s : CacheStorage) (req : Request) (resp : Response) : CacheStorage :=
  if resp.status == 200 then openAndPut s CACHE_NAME req resp else s

/-- The `fetch` handler; `network` is the outcome of `fetch(event.request)`. -/
def fetchHandler (s : CacheStorage) (req : Request) (network : Except JSError Response) :
    FetchOutcome :=
  if !jsStartsWith req.url "http" then ⟨.passthrough, false, s⟩
  else if jsIncludes req.url "maps.googleapis.com" || jsIncludes req.url "gstatic.com" then
    ⟨.passthrough, false, s⟩
  else
    match cachesMatch s req with
    | some cachedResponse =>
      if req.destination == "document" then
        match network with
        | .ok networkResponse =>
          ⟨.respond (.ok networkResponse), true, cacheIfOk s req networkResponse⟩
        | .error _ => ⟨.respond (.ok cachedResponse), true, s⟩
      else ⟨.respond (.ok cachedResponse), false, s⟩
    | none =>
      match network with
      | .ok networkResponse =>
        ⟨.respond (.ok networkResponse), true, cacheIfOk s req networkResponse⟩
      | .error error =>
        if req.destination == "document" then ⟨.respond (.ok offlinePage), true, s⟩
        else ⟨.respond (.error error), true, s⟩

/-! ## Location module -/

/-- The functions of `Math` used by the module, over a number type `α`. -/
structure MathOps (α : Type) where
  pi : α
  sin : α → α
  cos : α → α
  sqrt : α → α
  atan2 : α → α → α
  round : α → α

section Location

variable {α : Type} [LinearOrderedField α]

/-- The function `calculateDistance`: the haversine distance in meters. -/
def calculateDistance (M : MathOps α) (lat1 lon1 lat2 lon2 : α) : α :=
  let R : α := 6371000
  let toRad := fun x : α => x * M.pi / 180
  let dLat := toRad (lat2 - lat1)
  let dLon := toRad (lon2 - lon1)
  let a := M.sin (dLat / 2) * M.sin (dLat / 2) +
    M.cos (toRad lat1) * M.cos (toRad lat2) *
    M.sin (dLon / 2) * M.sin (dLon / 2)
  let c := 2 * M.atan2 (M.sqrt a) (M.sqrt (1 - a))
  R * c

/-- The fields `latitude`, `longitude` and `accuracy` of `position.coords`,
also the shape of `lastKnownPosition`. -/
structure Coords (α : Type) where
  latitude : α
  longitude : α
  accuracy : α

/-- The object `locationData` posted to `/api/location`. -/
structure LocationData (α : Type) where
  familyId : String
  uid : String
  latitude : α
  longitude : α
  accuracy : α
  outside : Bool
  timestamp : String

/-- A piece of a toast message: literal text or an interpolated number. -/
inductive MsgPart (α : Type) where
  | text (s : String)
  | number (x : α)

/-- Effects of the location module. -/
inductive LocEffect (α : Type) where
  | showToast (message : List (MsgPart α)) (type : String) (duration : Nat)
  | buttonLoading
  | buttonRestored
  | postLocation (data : LocationData α)
  | renderUserLocation (latitude longitude accuracy : α)
  | vibrate (pattern : List Nat)
  | playNotificationSound

/-- The expression `Math.round(accuracy || 0)`. -/
def roundedAccuracy (M : MathOps α) (accuracy : α) : α :=
  M.round (if accuracy = 0 then 0 else accuracy)

/-- The function `showGeofenceAlert`. -/
def showGeofenceAlert (M : MathOps α) (vibrateSupported : Bool) (distance radius : α) :
    List (LocEffect α) :=
  let overage := M.round (distance - radius)
  [.showToast [.text "⚠️ Fuera del área segura por ", .number overage,
      .text "m. La familia ha sido notificada."] "warning" 8000] ++
  (if vibrateSupported then [.vibrate [200, 100, 200]] else []) ++
  [.playNotificationSound]

/-- What `handleLocationUpdate` reads of the page: the clock, the outcome of
the POST (a rejection, or `response.ok`), whether `renderUserLocation` is
defined and whether `navigator` has `vibrate`. -/
structure UpdateEnv where
  timestamp : String
  response : Except JSError Bool
  hasRenderer : Bool
  vibrateSupported : Bool

/-- The value of `shouldUpdate` in `handleLocationUpdate`. -/
def shouldUpdate (M : MathOps α) (lastKnownPosition : Option (Coords α))
    (latitude longitude : α) (isOutside : Bool) : Bool :=
  (match lastKnownPosition with
    | none => true
    | some last =>
      decide (calculateDistance M latitude longitude last.latitude last.longitude > 50)) ||
  isOutside

/-- The function `handleLocationUpdate`: the new `lastKnownPosition` and the
effects. -/
def handleLocationUpdate (M : MathOps α) (env : UpdateEnv)
    (lastKnownPosition : Option (Coords α)) (coords : Coords α)
    (homeLat homeLng radiusMeters : α) (familyId uid : String) :
    Option (Coords α) × List (LocEffect α) :=
  let distance := calculateDistance M coords.latitude coords.longitude homeLat homeLng
  let isOutside := decide (distance > radiusMeters)
  if shouldUpdate M lastKnownPosition coords.latitude coords.longitude isOutside then
    let locationData : LocationData α :=
      ⟨familyId, uid, coords.latitude, coords.longitude, roundedAccuracy M coords.accuracy,
        isOutside, env.timestamp⟩
    match env.response with
    | .ok true =>
      (some coords,
        [.postLocation locationData] ++
        (if env.hasRenderer then
          [.renderUserLocation coords.latitude coords.longitude coords.accuracy] else []) ++
        (if isOutside then showGeofenceAlert M env.vibrateSupported distance radiusMeters
          else []))
    | .ok false => (lastKnownPosition, [.postLocation locationData])
    | .error _ => (lastKnownPosition, [.postLocation locationData])
  else (lastKnownPosition, [])

/-- What `shareLocation` reads of the page: whether `navigator.geolocation`
exists, whether the share button is found, the outcome of
`getCurrentPosition`, the clock, the outcome of the POST and of
`response.json()`, the platform's conversion of a value to a string, and
whether `renderUserLocation` is defined. -/
structure ShareEnv (α : Type) where
  geolocationSupported : Bool
  hasShareBtn : Bool
  position : Except JSError (Coords α)
  timestamp : String
  server : Except JSError JSVal
  toStr : JSVal → String
  hasRenderer : Bool

/-- The toast of the `catch` block of `shareLocation`.  The comparisons are
`error.code === error.PERMISSION_DENIED` and so on: on an error that is not a
`GeolocationPositionError` both sides of the first one are `undefined`. -/
def shareErrorToast (error : JSError) : LocEffect α :=
  match error with
  | .geo code message =>
    if code = 1 then
      .showToast [.text "Acceso a ubicación denegado. Por favor permite el acceso en la configuración del navegador."] "error" 8000
    else if code = 3 then
      .showToast [.text "Tiempo de espera agotado. Intenta nuevamente."] "warning" 4000
    else if code = 2 then
      .showToast [.text "Ubicación no disponible. Verifica que el GPS esté activado."] "warning" 4000
    else .showToast [.text ("Error compartiendo ubicación: " ++ message)] "error" 4000
  | .error _ =>
    .showToast [.text "Acceso a ubicación denegado. Por favor permite el acceso en la configuración del navegador."] "error" 8000

/-- The message of `new Error(result.error || 'Error guardando ubicación')`. -/
def serverErrorMessage (toStr : JSVal → String) (error : JSVal) : String :=
  match error.or (.str "Error guardando ubicación") with
  | .str m => m
  | v => toStr v

/-- The body of the `try` block of `shareLocation` after the position is
known: the new `lastKnownPosition`, the effects, and the error thrown. -/
def shareTry (M : MathOps α) (env : ShareEnv α) (lastKnownPosition : Option (Coords α))
    (coords : Coords α) (homeLat homeLng radiusMeters : α) (familyId uid : String) :
    Option (Coords α) × List (LocEffect α) × Option JSError :=
  let distance := calculateDistance M coords.latitude coords.longitude homeLat homeLng
  let isOutside := decide (distance > radiusMeters)
  let locationData : LocationData α :=
    ⟨familyId, uid, coords.latitude, coords.longitude, roundedAccuracy M coords.accuracy,
      isOutside, env.timestamp⟩
  match env.server with
  | .error e => (lastKnownPosition, [.postLocation locationData], some e)
  | .ok result =>
    match result.getProp "success" with
    | .error e => (lastKnownPosition, [.postLocation locationData], some e)
    | .ok success =>
      if success.truthy then
        (some coords,
          [.postLocation locationData] ++
          [if isOutside then
            .showToast [.text "Ubicación compartida - Fuera del área segura (",
              .number (M.round distance), .text "m)"] "warning" 5000
          else .showToast [.text "Ubicación compartida dentro del área segura"] "success" 3000] ++
          (if env.hasRenderer then
            [.renderUserLocation coords.latitude coords.longitude coords.accuracy] else []),
          none)
      else
        match result.getProp "error" with
        | .error e => (lastKnownPosition, [.postLocation locationData], some e)
        | .ok err =>
          (lastKnownPosition, [.postLocation locationData],
            some (.error (serverErrorMessage env.toStr err)))

/-- The function `shareLocation`: the new `lastKnownPosition` and the
effects. -/
def shareLocation (M : MathOps α) (env : ShareEnv α) (lastKnownPosition : Option (Coords α))
    (homeLat homeLng radiusMeters : α) (familyId uid : String) :
    Option (Coords α) × List (LocEffect α) :=
  if !env.geolocationSupported then
    (lastKnownPosition,
      [.showToast [.text "Geolocalización no soportada en este navegador"] "error" 4000])
  else
    let before : List (LocEffect α) := if env.hasShareBtn then [.buttonLoading] else []
    let after : List (LocEffect α) := if env.hasShareBtn then [.buttonRestored] else []
    match env.position with
    | .error e => (lastKnownPosition, before ++ [shareErrorToast e] ++ after)
    | .ok coords =>
      match shareTry M env lastKnownPosition coords homeLat homeLng radiusMeters familyId uid with
      | (last, effects, none) => (last, before ++ effects ++ after)
      | (last, effects, some e) => (last, before ++ effects ++ [shareErrorToast e] ++ after)

end Location

/-! ## Continuous tracking -/

/-- The variables `locationWatchId` and `isTrackingLocation` together with what
`navigator.geolocation` holds for the page: the watches that are registered
and not cleared, the identifier the next watch will get, and the number of
`getCurrentPosition` requests of `startLocationTracking` still unanswered. -/
structure TrackState where
  locationWatchId : Option Nat
  isTrackingLocation : Bool
  activeWatches : List Nat
  nextWatchId : Nat
  pendingFixes : Nat
  deriving DecidableEq, Repr

/-- The events of continuous tracking: the two calls and the two callbacks of
the initial `getCurrentPosition`. -/
inductive TrackEvent where
  | startLocationTracking
  | stopLocationTracking
  | fixSuccess
  | fixFailure
  deriving DecidableEq, Repr

/-- The state when the module is loaded. -/
def TrackState.init : TrackState :=
  ⟨none, false, [], 0, 0⟩

/-- The function `stopLocationTracking`. -/
def stopLocationTracking (s : TrackState) : TrackState :=
  match s.locationWatchId with
  | some id =>
    { s with activeWatches := s.activeWatches.filter (fun w => w != id),
             locationWatchId := none, isTrackingLocation := false }
  | none => { s with isTrackingLocation := false }

/-- The function `startLocationTracking` up to the request of the initial
fix; `supported` is whether `navigator.geolocation` exists. -/
def startLocationTracking (supported : Bool) (s : TrackState) : TrackState :=
  if !supported then s
  else if s.isTrackingLocation then stopLocationTracking s
  else { s with isTrackingLocation := true, pendingFixes := s.pendingFixes + 1 }

/-- The success callback of the initial fix: `watchPosition` registers a
watch and its identifier is stored. -/
def fixSuccess (s : TrackState) : TrackState :=
  { s with locationWatchId := some s.nextWatchId,
           activeWatches := s.nextWatchId :: s.activeWatches,
           nextWatchId := s.nextWatchId + 1,
           pendingFixes := s.pendingFixes - 1 }

/-- The error callback of the initial fix. -/
def fixFailure (s : TrackState) : TrackState :=
  { s with isTrackingLocation := false, pendingFixes := s.pendingFixes - 1 }

/-- One event of the machine; a callback without an unanswered request does
not occur. -/
def trackStep (supported : Bool) (s : TrackState) : TrackEvent → Option TrackState
  | .startLocationTracking => some (startLocationTracking supported s)
  | .stopLocationTracking => some (stopLocationTracking s)
  | .fixSuccess => if 0 < s.pendingFixes then some (fixSuccess s) else none
  | .fixFailure => if 0 < s.pendingFixes then some (fixFailure s) else none

/-- A run of events from a state; `none` when the run cannot occur. -/
def trackRun (supported : Bool) : TrackState → List TrackEvent → Option TrackState
  | s, [] => some s
  | s, e :: es =>
    match trackStep supported s e with
    | some t => trackRun supported t es
    | none => none


/-! ## Observations used by the statements -/

/-- Whether the fetch handler answers the request itself: the URL starts
with `http` and names neither of the two map domains. -/
def intercepts (req : Request) : Bool :=
  jsStartsWith req.url "http" &&
    !(jsIncludes req.url "maps.googleapis.com" || jsIncludes req.url "gstatic.com")

/-- The property `key` of the object with the given own properties. -/
def field (fields : List (String × JSVal)) (key : String) : JSVal :=
  (fields.lookup key).getD .undefined

/-- The reports posted to the server among the effects, in order. -/
def postedData {α : Type} : List (LocEffect α) → List (LocationData α)
  | [] => []
  | .postLocation d :: rest => d :: postedData rest
  | _ :: rest => postedData rest

/-- The functions of `Math` over the reals: `atan2 y x` is the argument of
`x + y i`, and `round` is the nearest integer, halves going up. -/
noncomputable def realMath : MathOps ℝ where
  pi := Real.pi
  sin := Real.sin
  cos := Real.cos
  sqrt := Real.sqrt
  atan2 := fun y x => Complex.arg ⟨x, y⟩
  round := fun x => (⌊x + 1 / 2⌋ : ℤ)

/-- A reading `m` meters due north of the point (0, 0), accuracy 10 m. -/
noncomputable def sampleNorth (m : ℝ) : Coords ℝ :=
  ⟨m * 180 / (Real.pi * 6371000), 0, 10⟩

/-- One event of a run in which the page calls `startLocationTracking` or
`stopLocationTracking` only when no initial fix is unanswered. -/
def answeredStep (supported : Bool) (s : TrackState) (e : TrackEvent) : Option TrackState :=
  match e with
  | .startLocationTracking =>
    if s.pendingFixes = 0 then trackStep supported s .startLocationTracking else none
  | .stopLocationTracking =>
    if s.pendingFixes = 0 then trackStep supported s .stopLocationTracking else none
  | .fixSuccess => trackStep supported s .fixSuccess
  | .fixFailure => trackStep supported s .fixFailure

/-- A run of such events from a state. -/
def answeredRun (supported : Bool) : TrackState → List TrackEvent → Option TrackState
  | s, [] => some s
  | s, e :: es =>
    match answeredStep supported s e with
    | some t => answeredRun supported t es
    | none => none

/-- The invariant of the runs without overlapping requests: the registered
watches are exactly the stored identifier, at most one fix is unanswered and
then tracking is on without a watch, and with no fix unanswered tracking is on
exactly when a watch is stored. -/
def TrackInv (s : TrackState) : Prop :=
  s.activeWatches = s.locationWatchId.toList ∧
  (s.pendingFixes = 0 ∨
    (s.pendingFixes = 1 ∧ s.isTrackingLocation = true ∧ s.locationWatchId = none)) ∧
  (s.pendingFixes = 0 → (s.isTrackingLocation = true ↔ s.locationWatchId.isSome = true))

/-! ## Double-precision numbers

A finite double is represented by its exact rational value.  An arithmetic
operator of the language returns the double nearest to the exact result, the
one with the even significand on a tie.  Results of magnitude 2^1024 and
more, which the platform turns into an infinity, and the sign of zero are not
represented. -/

/-- The integer nearest to `x`, the even one of the two on a tie. -/
def roundHalfEven (x : ℚ) : ℤ :=
  if x - ⌊x⌋ < 1 / 2 then ⌊x⌋
  else if 1 / 2 < x - ⌊x⌋ then ⌊x⌋ + 1
  else if ⌊x⌋ % 2 = 0 then ⌊x⌋ else ⌊x⌋ + 1

/-- The binary exponent of the spacing of the doubles around `x`: 52 below the
exponent of `x`, and that of the subnormal numbers below 2^-1022. -/
def ulpExponent (x : ℚ) : ℤ :=
  max (Int.log 2 |x|) (-1022) - 52

/-- The double nearest to `x`: the nearest multiple of the spacing at `x`, the
one with the even significand on a tie. -/
def roundDouble (x : ℚ) : ℚ :=
  roundHalfEven (x / 2 ^ ulpExponent x) * 2 ^ ulpExponent x

/-- The constant `Math.PI`: the double nearest to π, 3.141592653589793. -/
def doublePi : ℚ := 884279719003555 / 281474976710656

/-! ## Location module: formatting -/

/-- The function `Math.round` on exact numbers: the nearest integer, halves
going up. -/
def mathRound {α : Type} [LinearOrderedField α] [FloorRing α] (x : α) : ℤ :=
  ⌊x + 1 / 2⌋

/-- The digits of `toFixed(1)` for the integer `n` of tenths: the whole part,
a point and one digit. -/
def fixedDigits (n : ℕ) : String :=
  toString (n / 10) ++ "." ++ toString (n % 10)

/-- The method `x.toFixed(1)` on exact numbers of magnitude below 10^21, where
the platform writes fixed notation: the number of tenths nearest to `x`, the
larger one on a tie, with the sign in front. -/
def toFixed1 {α : Type} [LinearOrderedField α] [FloorRing α] (x : α) : String :=
  if x < 0 then "-" ++ fixedDigits ⌊-x * 10 + 1 / 2⌋₊
  else fixedDigits ⌊x * 10 + 1 / 2⌋₊

/-- The function `formatDistance` on a double `meters`, given by its exact
value: the comparison and `Math.round` are exact, the quotient
`meters / 1000` is the double that the division returns, and `toFixed(1)`
writes the exact value of that double. -/
def formatDistance (meters : ℚ) : String :=
  if meters < 1000 then toString (mathRound meters) ++ "m"
  else toFixed1 (roundDouble (meters / 1000)) ++ "km"

/-- The function `getAccuracyDescription`. -/
def getAccuracyDescription {α : Type} [LinearOrderedField α] (accuracy : α) : String :=
  if accuracy ≤ 10 then "Muy precisa"
  else if accuracy ≤ 50 then "Precisa"
  else if accuracy ≤ 100 then "Moderada"
  else "Aproximada"

/-! ## UI utilities: form validation -/

/-- The characters matched by `\s` and removed by `trim`: ECMAScript white
space and line terminators, by code point. -/
def isJsWhitespace (c : Char) : Bool :=
  [9, 10, 11, 12, 13, 32, 160, 5760, 8232, 8233, 8239, 8287, 12288, 65279].contains c.toNat ||
    (8192 ≤ c.toNat && c.toNat ≤ 8202)

/-- The classes of characters the pattern of `isValidEmail` tells apart. -/
inductive CharClass where
  | atSign
  | dot
  | space
  | other
  deriving DecidableEq, Repr

/-- The class of a character. -/
def classify (c : Char) : CharClass :=
  if c = '@' then .atSign
  else if c = '.' then .dot
  else if isJsWhitespace c then .space
  else .other

/-- The character class `[^\s@]`. -/
def wordClass : RegularExpression CharClass :=
  .char .dot + .char .other

/-- The pattern `^[^\s@]+@[^\s@]+\.[^\s@]+$` over character classes; the
anchors make `test` a match of the whole string. -/
def emailRegex : RegularExpression CharClass :=
  wordClass * .star wordClass * .char .atSign * (wordClass * .star wordClass) * .char .dot *
    (wordClass * .star wordClass)

/-- The function `isValidEmail`. -/
def isValidEmail (email : String) : Bool :=
  emailRegex.rmatch (email.data.map classify)

/-- A run of characters of the class `[^\s@]`: neither white space nor `@`. -/
def IsWord (x : List Char) : Prop :=
  x ≠ [] ∧ ∀ c ∈ x, isJsWhitespace c = false ∧ c ≠ '@'

/-- The method `trim`: white space is removed at both ends. -/
def jsTrim (s : String) : String :=
  String.mk ((s.data.dropWhile isJsWhitespace).reverse.dropWhile isJsWhitespace).reverse

/-- What `validateForm` reads of a form control: whether it matches
`[required]`, whether it matches `input[type="email"]`, and its value. -/
structure FormField where
  name : String
  required : Bool
  isEmailInput : Bool
  value : String
  deriving DecidableEq, Repr

/-- What `validateForm` did: the value returned, the messages attached by
`addFieldError` in order (the ones of an earlier validation are removed
first), the field that got the focus, and the arguments of the toast. -/
structure ValidationOutcome where
  isValid : Bool
  fieldErrors : List (FormField × String)
  focused : Option FormField
  toast : Option (String × String × Nat)
  deriving DecidableEq, Repr

/-- The test of the first loop: a required field whose trimmed value is
empty. -/
def failsRequired (f : FormField) : Bool :=
  f.required && jsTrim f.value == ""

/-- The test of the second loop: an email input with a value that
`isValidEmail` rejects. -/
def failsEmail (f : FormField) : Bool :=
  f.isEmailInput && f.value != "" && !isValidEmail f.value

/-- The function `validateForm` on the controls of the form in document
order; `none` is a missing form. -/
def validateForm (form : Option (List FormField)) : ValidationOutcome :=
  match form with
  | none => ⟨false, [], none, none⟩
  | some fields =>
    let requiredErrors := (fields.filter failsRequired).map
      fun f => (f, "Este campo es obligatorio")
    let emailErrors := (fields.filter failsEmail).map
      fun f => (f, "Por favor ingresa un email válido")
    let errors := requiredErrors ++ emailErrors
    ⟨errors.isEmpty, errors, errors.head?.map Prod.fst,
      if errors.length > 0 then
        some ("Se encontraron " ++ toString errors.length ++ " errores en el formulario",
          "error", 4000)
      else none⟩

/-- The first field in document order that fails one of the two tests. -/
def firstInvalid (fields : List FormField) : Option FormField :=
  fields.find? fun f => failsRequired f || failsEmail f

/-! ## UI utilities: toasts -/

/-- The non-breaking space U+00A0. -/
def nbsp : Char := Char.ofNat 160

/-- How the HTML serialisation of a text node writes one character. -/
def escapeChar (c : Char) : List Char :=
  if c = '&' then "&amp;".data
  else if c = nbsp then "&nbsp;".data
  else if c = '<' then "&lt;".data
  else if c = '>' then "&gt;".data
  else [c]

/-- The function `escapeHtml`: the `innerHTML` of an element whose
`textContent` is the text. -/
def escapeHtml (text : String) : String :=
  String.mk (text.data.flatMap escapeChar)

/-- The character reference at the start of the input after an `&`, among
`amp;`, `lt;`, `gt;` and `nbsp;`: its character and its length. -/
def charRef (s : List Char) : Option (Char × Nat) :=
  if "amp;".data.isPrefixOf s then some ('&', 4)
  else if "lt;".data.isPrefixOf s then some ('<', 3)
  else if "gt;".data.isPrefixOf s then some ('>', 3)
  else if "nbsp;".data.isPrefixOf s then some (nbsp, 5)
  else none

/-- The tokenizer in the data state after skipping the given number of
characters, which belong to a reference already read. -/
def dataTextFrom : Nat → List Char → List Char × List Char
  | _, [] => ([], [])
  | skip + 1, _ :: rest => dataTextFrom skip rest
  | 0, c :: rest =>
    if c = '<' then ([], c :: rest)
    else if c = '&' then
      match charRef rest with
      | some (ch, n) => (ch :: (dataTextFrom n rest).1, (dataTextFrom n rest).2)
      | none => ('&' :: (dataTextFrom 0 rest).1, (dataTextFrom 0 rest).2)
    else (c :: (dataTextFrom 0 rest).1, (dataTextFrom 0 rest).2)

/-- The text the HTML tokenizer reads in the data state, from the start of
the input to the first `<`, with the character references `&amp;`, `&lt;`,
`&gt;` and `&nbsp;` replaced by their characters, and the input left from
that `<` on. -/
def dataText (input : List Char) : List Char × List Char :=
  dataTextFrom 0 input

/-- The function `getToastIcon`: the entry of the type, or the one of
`info`. -/
def getToastIcon (type : String) : String :=
  if type = "success" then "bi-check-circle-fill"
  else if type = "error" then "bi-exclamation-triangle-fill"
  else if type = "warning" then "bi-exclamation-circle-fill"
  else "bi-info-circle-fill"

/-- The function `getToastBackground`: the entry of the type, or the one of
`info`. -/
def getToastBackground (type : String) : String :=
  if type = "success" then "bg-success"
  else if type = "error" then "bg-danger"
  else if type = "warning" then "bg-warning"
  else "bg-primary"

/-- The template of `toastHTML` before the `span` of the message: lines
114-121 with the interpolated values. -/
def toastOpen (toastId bgClass duration iconClass : String) : String :=
  String.join [
    "\n",
    "        <div id=\"",
    toastId,
    "\" class=\"toast align-items-center ",
    bgClass,
    " border-0 mb-2\" \n",
    "             role=\"alert\" aria-live=\"assertive\" aria-atomic=\"true\" \n",
    "             data-bs-delay=\"",
    duration,
    "\">\n",
    "            <div class=\"d-flex\">\n",
    "                <div class=\"toast-body d-flex align-items-center text-white\">\n",
    "                    <i class=\"bi ",
    iconClass,
    " me-2\"></i>\n",
    "                    "]

/-- The template of `toastHTML` after the `span` of the message: lines
121-127. -/
def toastClose : String :=
  String.join [
    "\n",
    "                </div>\n",
    "                <button type=\"button\" class=\"btn-close btn-close-white me-2 m-auto\" \n",
    "                        data-bs-dismiss=\"toast\" aria-label=\"Cerrar\"></button>\n",
    "            </div>\n",
    "        </div>\n",
    "    "]

/-- The template literal `toastHTML` with `body` inside the `span`. -/
def toastHTML (toastId bgClass duration iconClass body : String) : String :=
  toastOpen toastId bgClass duration iconClass ++ "<span>" ++ body ++ "</span>" ++ toastClose

/-- The function `showToast` of the UI library: nothing for an empty message,
otherwise the markup inserted at the end of the toast container; `now` is
`Date.now()`. -/
def showToast (now : Nat) (message type : String) (duration : Nat) : Option String :=
  if message = "" then none
  else
    some (toastHTML ("toast-" ++ toString now) (getToastBackground type) (toString duration)
      (getToastIcon type) (escapeHtml message))

/-! ## UI utilities: theme -/

/-- The entries of `localStorage`. -/
abbrev LocalStorage := List (String × String)

/-- The call `localStorage.getItem(key)`. -/
def getItem (s : LocalStorage) (key : String) : Option String :=
  s.lookup key

/-- The call `localStorage.setItem(key, value)`. -/
def setItem (s : LocalStorage) (key value : String) : LocalStorage :=
  (key, value) :: s.filter (fun entry => entry.1 != key)

/-- What the theme functions read of the page: whether the element
`toggleContrast` exists. -/
structure ThemePage where
  hasToggleBtn : Bool

/-- The state the theme functions act on: `RecuerdaMe.isHighContrast`, the
local storage, the attribute `data-bs-theme` of the body, the custom
properties set on the root element, the title of the toggle button, the
toasts shown, and whether the click listener is registered. -/
structure ThemeState where
  isHighContrast : Bool
  storage : LocalStorage
  bodyTheme : Option String
  rootStyle : List (String × String)
  toggleTitle : Option String
  toasts : List (String × String × Nat)
  listening : Bool
  deriving DecidableEq, Repr

/-- The state of a freshly loaded page over the given storage. -/
def ThemeState.fresh (storage : LocalStorage) : ThemeState :=
  ⟨false, storage, none, [], none, [], false⟩

/-- The function `enableHighContrast`. -/
def enableHighContrast (page : ThemePage) (st : ThemeState) : ThemeState :=
  { st with
    bodyTheme := some "high-contrast",
    rootStyle := setItem (setItem (setItem st.rootStyle "--bs-primary" "#0066cc")
      "--bs-body-bg" "#ffffff") "--bs-body-color" "#000000",
    isHighContrast := true,
    storage := setItem st.storage "recuerdame-theme" "high-contrast",
    toggleTitle := if page.hasToggleBtn then some "Desactivar alto contraste" else st.toggleTitle,
    toasts := st.toasts ++ [("Modo alto contraste activado", "info", 2000)] }

/-- The function `disableHighContrast`. -/
def disableHighContrast (page : ThemePage) (st : ThemeState) : ThemeState :=
  { st with
    bodyTheme := some "light",
    rootStyle := st.rootStyle.filter fun entry =>
      entry.1 != "--bs-primary" && entry.1 != "--bs-body-bg" && entry.1 != "--bs-body-color",
    isHighContrast := false,
    storage := setItem st.storage "recuerdame-theme" "light",
    toggleTitle := if page.hasToggleBtn then some "Activar alto contraste" else st.toggleTitle,
    toasts := st.toasts ++ [("Modo normal activado", "info", 2000)] }

/-- The function `initializeThemeToggle`. -/
def initializeThemeToggle (page : ThemePage) (st : ThemeState) : ThemeState :=
  if !page.hasToggleBtn then st
  else
    let loaded :=
      if getItem st.storage "recuerdame-theme" = some "high-contrast" then
        enableHighContrast page st
      else st
    { loaded with listening := true }

/-- The click listener of the toggle button. -/
def toggleContrastClick (page : ThemePage) (st : ThemeState) : ThemeState :=
  if st.isHighContrast then disableHighContrast page st else enableHighContrast page st

/-! ## Push registration -/

/-- The variables `isNotificationsEnabled` and `currentToken`. -/
structure FcmState where
  isNotificationsEnabled : Bool
  currentToken : Option String
  deriving DecidableEq, Repr

/-- The body of the POST to `/api/fcm-token`. -/
structure TokenPost where
  token : String
  userId : String
  familyId : String
  deriving DecidableEq, Repr

/-- The function `sendTokenToServer`; `post` is the outcome of the `fetch`, a
rejection or `response.ok`.  Its own `catch` takes every rejection. -/
def sendTokenToServer (post : Except JSError Bool) (token : String) :
    Except JSError (List TokenPost) :=
  tryCatch (post.map fun _ => [⟨token, "demo-user-123", "demo-family-456"⟩])
    (fun _ => .ok [⟨token, "demo-user-123", "demo-family-456"⟩])

/-- What `getFCMToken` did: the value it resolved with (`none` is `null`) or
the error it rejected with, the state it leaves, and the requests sent. -/
structure FcmOutcome where
  result : Except JSError (Option String)
  state : FcmState
  posted : List TokenPost

/-- The function `getFCMToken`; `now` is `Date.now()`. -/
def getFCMToken (now : Nat) (post : Except JSError Bool) (s : FcmState) : FcmOutcome :=
  let mockToken := "mock_fcm_token_" ++ toString now
  let s1 : FcmState := { s with currentToken := some mockToken }
  match sendTokenToServer post mockToken with
  | .ok posted => ⟨.ok (some mockToken), s1, posted⟩
  | .error _ => ⟨.ok none, s1, []⟩


/-! ## Service worker: messages from the page -/

/-- The own enumerable properties that a spread `...v` copies into an object
literal: those of an object, the indexed elements of an array or of a string,
none for every other value. -/
def spreadFields : JSVal → List (String × JSVal)
  | .obj fields => fields
  | .arr items => items.enum.map fun p => (toString p.1, p.2)
  | .str s => s.data.enum.map fun p => (toString p.1, .str (String.singleton p.2))
  | _ => []

/-- The attribute `data` of the notification displayed by
`showNotification(title, options)`: the member `data` of the options, and
`null` when the options have none. -/
def notificationData (options : JSVal) : JSVal :=
  match options with
  | .obj fields =>
    match fields.lookup "data" with
    | some .undefined => .null
    | some v => v
    | none => .null
  | _ => .null

/-- Effects of the `message` handler. -/
inductive MessageEffect where
  | showNotification (title : JSVal) (options : JSVal)
  | skipWaiting

/-- The `message` handler; `data` is `event.data`.  The literal
`{ body: event.data.body, ...event.data.options }` lists the spread
properties first, so that a property read finds them before `body`. -/
def messageHandler (data : JSVal) : Except JSError (List MessageEffect) :=
  if data.truthy then do
    let t1 ← data.getProp "type"
    if t1.strictEqStr "SHOW_NOTIFICATION" then do
      let title ← data.getProp "title"
      let body ← data.getProp "body"
      let options ← data.getProp "options"
      pure [.showNotification title (.obj (spreadFields options ++ [("body", body)]))]
    else do
      let t2 ← data.getProp "type"
      if t2.strictEqStr "SKIP_WAITING" then pure [.skipWaiting] else pure []
  else pure []

/-! ## Push registration: notifications on the page -/

/-- The function `handleNotificationClick` of the page: the path assigned to
`window.location.href`, or the `TypeError` of reading `type`. -/
def handleNotificationClick (notificationData : JSVal) : Except JSError String := do
  let t1 ← notificationData.getProp "type"
  if t1.strictEqStr "geofence" then pure "/dashboard"
  else do
    let t2 ← notificationData.getProp "type"
    if t2.strictEqStr "reminder" then pure "/reminders"
    else pure "/alerts"

/-- The listener of the service worker's messages on the page; `data` is
`event.data`.  The result is the navigation made, if any. -/
def onServiceWorkerMessage (data : JSVal) : Except JSError (Option String) :=
  if data.truthy then do
    let t ← data.getProp "type"
    if t.strictEqStr "NOTIFICATION_CLICK" then do
      let notification ← data.getProp "notification"
      let href ← handleNotificationClick notification
      pure (some href)
    else pure none
  else pure none

/-- The object `defaultOptions` of `showLocalNotification`; the properties of
`options` come first, so that a property read finds them before the defaults. -/
def defaultOptions (options : JSVal) : JSVal :=
  .obj (spreadFields options ++
    [("icon", .str "/static/img/icon.png"),
     ("badge", .str "/static/img/icon.png"),
     ("vibrate", .arr [.num 200, .num 100, .num 200]),
     ("tag", .str "recuerdame-notification"),
     ("requireInteraction", .bool false)])

/-- What `showLocalNotification` did. -/
inductive LocalNotification where
  | notEnabled
  | posted (message : JSVal)
  | shownDirectly (title : JSVal) (options : JSVal)

/-- The function `showLocalNotification`; an `options` argument that is
`undefined` takes the default `{}`. -/
def showLocalNotification (isNotificationsEnabled hasController : Bool)
    (title body options : JSVal) : LocalNotification :=
  if !isNotificationsEnabled then .notEnabled
  else
    let opts := defaultOptions (match options with | .undefined => .obj [] | v => v)
    if hasController then
      .posted (.obj [("type", .str "SHOW_NOTIFICATION"), ("title", title), ("body", body),
        ("options", opts)])
    else .shownDirectly title (.obj (spreadFields opts ++ [("body", body)]))

/-- The options that `testNotification` passes to `showLocalNotification`. -/
def testNotificationOptions : JSVal :=
  .obj [("tag", .str "test-notification"), ("icon", .str "/static/img/icon.png")]

/-! ## UI utilities: debounce -/

/-- A timer set by `setTimeout(later, wait)`: its identifier, the time from
which it may fire, and the arguments captured by its `later`. -/
structure Timer (A : Type) where
  id : Nat
  due : Nat
  args : A

/-- The state of one debounced function: the clock, the variable `timeout`,
the timers of the function that are pending, the next timer identifier, and
the invocations of `func` so far with their times. -/
structure DebounceState (A : Type) where
  now : Nat
  timeout : Option Nat
  timers : List (Timer A)
  nextId : Nat
  invoked : List (Nat × A)

/-- The state right after `debounce(func, wait)` returned. -/
def DebounceState.init (A : Type) : DebounceState A :=
  ⟨0, none, [], 1, []⟩

/-- The call `clearTimeout(id)`; an identifier that names no pending timer
changes nothing. -/
def clearTimeout {A : Type} (id : Option Nat) (timers : List (Timer A)) : List (Timer A) :=
  timers.filter fun t => some t.id != id

/-- A call of `executedFunction(...args)` at time `t`. -/
def executedFunction {A : Type} (wait : Nat) (s : DebounceState A) (t : Nat) (args : A) :
    DebounceState A :=
  { now := t
    timeout := some s.nextId
    timers := clearTimeout s.timeout s.timers ++ [⟨s.nextId, t + wait, args⟩]
    nextId := s.nextId + 1
    invoked := s.invoked }

/-- The timer `tm` fires at time `t`: it leaves the pending timers and its
`later` runs. -/
def later {A : Type} (s : DebounceState A) (t : Nat) (tm : Timer A) : DebounceState A :=
  { now := t
    timeout := s.timeout
    timers := clearTimeout s.timeout (s.timers.filter fun u => u.id != tm.id)
    nextId := s.nextId
    invoked := s.invoked ++ [(t, tm.args)] }

/-- What happens to a debounced function: it is called, or one of its timers
fires. -/
inductive DebounceEvent (A : Type) where
  | call (time : Nat) (args : A)
  | fire (time : Nat) (id : Nat)

/-- One event.  Time does not go back, and a timer fires only when it is
pending and its delay has elapsed. -/
def debounceStep {A : Type} (wait : Nat) (s : DebounceState A) :
    DebounceEvent A → Option (DebounceState A)
  | .call t args => if s.now ≤ t then some (executedFunction wait s t args) else none
  | .fire t id =>
    if s.now ≤ t then
      match s.timers.find? fun u => u.id == id with
      | some tm => if tm.due ≤ t then some (later s t tm) else none
      | none => none
    else none

/-! ## Maps module -/

/-- The accuracy circle: its centre and its radius. -/
structure Circle (α : Type) where
  center : α × α
  radius : α

/-- The module variables `userMarker` (its position) and `accuracyCircle`. -/
structure MapObjects (α : Type) where
  userMarker : Option (α × α)
  accuracyCircle : Option (Circle α)

/-- The constant `accuracyRadius` of `renderUserLocation`,
`Math.max(accuracy || 30, 10)`; an `accuracy` that is `undefined` or `null`
is `none`. -/
def accuracyRadius {α : Type} [LinearOrderedField α] (accuracy : Option α) : α :=
  max (match accuracy with
    | some a => if a = 0 then 30 else a
    | none => 30) 10

/-- The function `renderUserLocation` up to the accuracy circle; the panning
and fitting that follow change neither object.  The marker and the circle are
taken to have the methods that the function calls; `hasMarkerClass` says
whether `AdvancedMarkerElement` is set and `hasFamilyData` whether
`familyData` is. -/
def renderUserLocation {α : Type} [LinearOrderedField α] (hasMarkerClass hasFamilyData : Bool)
    (objs : MapObjects α) (lat lng : α) (accuracy : Option α) :
    Except JSError (MapObjects α) := do
  let position := (lat, lng)
  let marker ←
    if objs.userMarker.isNone && hasMarkerClass then
      if hasFamilyData then pure position
      else throw (.error "Cannot read properties of undefined (reading userName)")
    else
      match objs.userMarker with
      | some _ => pure position
      | none => throw (.error "Cannot read properties of undefined (reading setPosition)")
  let circle : Circle α :=
    match objs.accuracyCircle with
    | none => ⟨position, accuracyRadius accuracy⟩
    | some c => { c with center := position, radius := accuracyRadius accuracy }
  pure ⟨some marker, some circle⟩

/-- The elements `statusBadge` and `lastUpdate` of the page: whether each is
found, the badge's `className`, its markup, whether it carries
`animate-pulse`, and the text of `lastUpdate`. -/
structure StatusPage where
  hasStatusBadge : Bool
  hasLastUpdate : Bool
  className : String
  innerHTML : String
  pulse : Bool
  lastUpdate : String

/-- The function `updateLocationStatus`: the page it leaves and the error
thrown, if any.  `formatTime` is the function of the UI utilities, which
throws on a truthy value that is neither a string nor a `Date`. -/
def updateLocationStatus (formatTime : JSVal → Except JSError String) (page : StatusPage)
    (isOutside timestamp : JSVal) : StatusPage × Option JSError :=
  if !page.hasStatusBadge || !page.hasLastUpdate then (page, none)
  else
    match isOutside with
    | .null =>
      ({ page with
          className := "badge text-bg-secondary"
          innerHTML := "<i class=\"bi bi-question-circle me-1\"></i>Sin ubicación"
          pulse := false
          lastUpdate := "Actualizado: --:--" }, none)
    | _ =>
      if isOutside.truthy then
        let badge : StatusPage :=
          { page with
              className := "badge text-bg-warning"
              innerHTML := "<i class=\"bi bi-exclamation-triangle me-1\"></i>Fuera del área segura"
              pulse := false }
        match formatTime timestamp with
        | .ok time => ({ badge with lastUpdate := "Actualizado: " ++ time, pulse := true }, none)
        | .error e => (badge, some e)
      else
        let badge : StatusPage :=
          { page with
              className := "badge text-bg-success"
              innerHTML := "<i class=\"bi bi-shield-check me-1\"></i>Dentro del área segura"
              pulse := false }
        match formatTime timestamp with
        | .ok time => ({ badge with lastUpdate := "Actualizado: " ++ time }, none)
        | .error e => (badge, some e)

/-- Effects of `refreshUserLocation` besides the status badge. -/
inductive MapEffect where
  | refreshLoading
  | refreshRestored
  | renderUserLocation (latitude longitude accuracy : JSVal)
  | showToast (message type : String) (duration : Option Nat)

/-- The `try` block of `refreshUserLocation`: the page it leaves, its effects
and the error it threw, if any.  `server` is the outcome of the request and of
`response.json()`, `rendered` the rejection of `renderUserLocation`. -/
def refreshTry (formatTime : JSVal → Except JSError String) (page : StatusPage)
    (server : Except JSError JSVal) (rendered : Option JSError) :
    StatusPage × List MapEffect × Option JSError :=
  match server with
  | .error e => (page, [], some e)
  | .ok data =>
    match data.getProp "success" with
    | .error e => (page, [], some e)
    | .ok success =>
      match (if success.truthy then data.getProp "location" else .ok success) with
      | .error e => (page, [], some e)
      | .ok location =>
        if location.truthy then
          match location.getProp "latitude", location.getProp "longitude",
            location.getProp "accuracy", location.getProp "timestamp",
            location.getProp "isOutsideSafeRadius" with
          | .ok latitude, .ok longitude, .ok accuracy, .ok timestamp, .ok isOutsideSafeRadius =>
            match rendered with
            | some e => (page, [.renderUserLocation latitude longitude accuracy], some e)
            | none =>
              match updateLocationStatus formatTime page isOutsideSafeRadius timestamp with
              | (page1, some e) =>
                (page1, [.renderUserLocation latitude longitude accuracy], some e)
              | (page1, none) =>
                (page1, [.renderUserLocation latitude longitude accuracy,
                  .showToast "Ubicación actualizada" "success" (some 2000)], none)
          | _, _, _, _, _ => (page, [], some (.error "Cannot destructure the location"))
        else
          match updateLocationStatus formatTime page .null .null with
          | (page1, some e) => (page1, [], some e)
          | (page1, none) =>
            (page1, [.showToast "No hay ubicación disponible" "info" none], none)

/-- The function `refreshUserLocation`: the page it leaves and its effects. -/
def refreshUserLocation (formatTime : JSVal → Except JSError String) (page : StatusPage)
    (hasFamilyData hasRefreshBtn : Bool) (server : Except JSError JSVal)
    (rendered : Option JSError) : StatusPage × List MapEffect :=
  if !hasFamilyData then (page, [])
  else
    let (page1, effects, failure) := refreshTry formatTime page server rendered
    (page1,
      (if hasRefreshBtn then [.refreshLoading] else []) ++ effects ++
      (match failure with
        | some _ => [.showToast "Error actualizando ubicación" "error" none]
        | none => []) ++
      (if hasRefreshBtn then [.refreshRestored] else []))

/-! ## Observations used by the later statements -/

/-- The haversine term `a` of `calculateDistance`. -/
def haversineTerm {α : Type} [LinearOrderedField α] (M : MathOps α)
    (lat1 lon1 lat2 lon2 : α) : α :=
  M.sin ((lat2 - lat1) * M.pi / 180 / 2) * M.sin ((lat2 - lat1) * M.pi / 180 / 2) +
    M.cos (lat1 * M.pi / 180) * M.cos (lat2 * M.pi / 180) *
    M.sin ((lon2 - lon1) * M.pi / 180 / 2) * M.sin ((lon2 - lon1) * M.pi / 180 / 2)

/-- The function `Math.sqrt` on a double: `NaN`, written `none`, below zero. -/
def sqrtDouble (M : MathOps ℚ) (x : ℚ) : Option ℚ :=
  if x < 0 then none else some (M.sqrt x)

/-- The helper `toRad` of `calculateDistance` in double arithmetic: the
product and the quotient are each rounded. -/
def toRadDouble (M : MathOps ℚ) (x : ℚ) : ℚ :=
  roundDouble (roundDouble (x * M.pi) / 180)

/-- The haversine term `a` of `calculateDistance` in double arithmetic: every
operator returns the nearest double, in the order in which the expression is
evaluated; `M` gives the values that `Math.sin` and `Math.cos` return. -/
def haversineTermDouble (M : MathOps ℚ) (lat1 lon1 lat2 lon2 : ℚ) : ℚ :=
  let dLat := toRadDouble M (roundDouble (lat2 - lat1))
  let dLon := toRadDouble M (roundDouble (lon2 - lon1))
  roundDouble
    (roundDouble (M.sin (roundDouble (dLat / 2)) * M.sin (roundDouble (dLat / 2))) +
      roundDouble (roundDouble (roundDouble
        (M.cos (toRadDouble M lat1) * M.cos (toRadDouble M lat2)) *
          M.sin (roundDouble (dLon / 2))) * M.sin (roundDouble (dLon / 2))))

/-- The function `calculateDistance` in double arithmetic; the result `none`
is `NaN`, which a `NaN` square root passes on through `Math.atan2` and the
two products. -/
def calculateDistanceDouble (M : MathOps ℚ) (lat1 lon1 lat2 lon2 : ℚ) : Option ℚ :=
  let R : ℚ := 6371000
  let a := haversineTermDouble M lat1 lon1 lat2 lon2
  match sqrtDouble M a, sqrtDouble M (roundDouble (1 - a)) with
  | some y, some x => some (roundDouble (R * roundDouble (2 * M.atan2 y x)))
  | _, _ => none

/-- A table of `Math` for the points (81.71, 0) and (-81.71, 180): at the
three arguments met there the sine and the cosine are the doubles nearest to
the exact values, which is what the platform returns; the other entries are
not read. -/
def antipodalMath : MathOps ℚ where
  pi := doublePi
  sin := fun x =>
    if x = -1605655463106233 / 1125899906842624 then -8913082749672161 / 9007199254740992
    else if x = 884279719003555 / 562949953421312 then 1
    else 0
  cos := fun x =>
    if x = 1605655463106233 / 1125899906842624 then 5194757837825723 / 36028797018963968
    else if x = -1605655463106233 / 1125899906842624 then
      5194757837825723 / 36028797018963968
    else 0
  sqrt := fun x => x
  atan2 := fun _ _ => 0
  round := fun x => x

/-- A burst of calls: a debounced function together with its latest call. -/
structure Burst (A : Type) where
  state : DebounceState A
  lastCall : Option (Nat × A)

/-- The burst before any call. -/
def Burst.init (A : Type) : Burst A :=
  ⟨DebounceState.init A, none⟩

/-- One event of a run in which each call comes less than `wait` after the
call before it. -/
def burstStep {A : Type} (wait : Nat) (b : Burst A) (e : DebounceEvent A) : Option (Burst A) :=
  match e with
  | .call t args =>
    if (match b.lastCall with
        | some (t0, _) => decide (t < t0 + wait)
        | none => true) then
      (debounceStep wait b.state (.call t args)).map fun s => ⟨s, some (t, args)⟩
    else none
  | .fire t id => (debounceStep wait b.state (.fire t id)).map fun s => ⟨s, b.lastCall⟩

/-- A run of such events from a burst. -/
def burstRun {A : Type} (wait : Nat) : Burst A → List (DebounceEvent A) → Option (Burst A)
  | b, [] => some b
  | b, e :: es =>
    match burstStep wait b e with
    | some c => burstRun wait c es
    | none => none

/-- The invariant of a burst: before any call nothing is pending and nothing
was invoked; afterwards either the timer of the latest call is the only one
pending and `func` was not invoked, or no timer is pending and `func` was
invoked once, with the arguments of the latest call and no sooner than `wait`
after it. -/
def BurstInv {A : Type} (wait : Nat) (b : Burst A) : Prop :=
  match b.lastCall with
  | none => b.state.timers = [] ∧ b.state.invoked = [] ∧ b.state.timeout = none
  | some (tc, a) =>
    tc ≤ b.state.now ∧
    ((∃ id, b.state.timers = [⟨id, tc + wait, a⟩] ∧ b.state.timeout = some id ∧
        b.state.invoked = []) ∨
     (b.state.timers = [] ∧
        ∃ t, b.state.invoked = [(t, a)] ∧ tc + wait ≤ t ∧ t ≤ b.state.now))

/-! ## Lemmas -/

theorem foldl_delete_eq_filter (names : List String) (acc : CacheStorage) :
    names.foldl
      (fun acc cacheName => if cacheName != CACHE_NAME then cachesDelete acc cacheName else acc)
      acc
    = acc.filter (fun entry => entry.1 == CACHE_NAME || !names.contains entry.1) := by
  induction names generalizing acc with
  | nil => simp
  | cons n ns ih =>
    rw [List.foldl_cons, ih]
    by_cases hn : n = CACHE_NAME
    · subst hn
      simp only [bne_self_eq_false, Bool.false_eq_true, ↓reduceIte]
      apply List.filter_congr
      intro e _
      by_cases he : e.1 = CACHE_NAME <;> simp [he]
    · have hn' : (n != CACHE_NAME) = true := by simpa using hn
      simp only [hn', ↓reduceIte, cachesDelete, List.filter_filter]
      apply List.filter_congr
      intro e _
      by_cases he : e.1 = CACHE_NAME
      · simp [he]; intro h; exact hn h.symm
      · by_cases hen : e.1 = n
        · simp [he, hen, hn]
        · simp [he, hen]

theorem activate_eq_filter (s : CacheStorage) :
    (activateHandler s).1 = s.filter (fun entry => entry.1 == CACHE_NAME) := by
  simp only [activateHandler, foldl_delete_eq_filter]
  apply List.filter_congr
  intro e he
  have : e.1 ∈ cachesKeys s := List.mem_map_of_mem Prod.fst he
  simp [this]

theorem filter_current_eq (s : CacheStorage) (hkeys : (cachesKeys s).Nodup) :
    s.filter (fun entry => entry.1 == CACHE_NAME) =
      match s.lookup CACHE_NAME with
      | some c => [(CACHE_NAME, c)]
      | none => [] := by
  induction s with
  | nil => rfl
  | cons e rest ih =>
    obtain ⟨n, c⟩ := e
    simp only [cachesKeys, List.map_cons, List.nodup_cons] at hkeys
    obtain ⟨hn, hrest⟩ := hkeys
    by_cases h : n = CACHE_NAME
    · subst h
      have hnone : rest.filter (fun entry => entry.1 == CACHE_NAME) = [] := by
        rw [List.filter_eq_nil_iff]
        intro e he
        have : e.1 ∈ rest.map Prod.fst := List.mem_map_of_mem Prod.fst he
        intro hc
        have hc' : e.1 = CACHE_NAME := by simpa using hc
        exact hn (hc' ▸ this)
      simp [List.lookup, hnone]
    · have h' : (CACHE_NAME == n) = false := by
        simpa using fun hc => h hc.symm
      have ih' := ih hrest
      simp only [List.lookup, h']
      rw [List.filter_cons_of_neg (by simpa using h)]
      exact ih'

theorem atan2_sin_cos (φ : ℝ) (h1 : -Real.pi < φ) (h2 : φ ≤ Real.pi) :
    realMath.atan2 (Real.sin φ) (Real.cos φ) = φ := by
  show Complex.arg ⟨Real.cos φ, Real.sin φ⟩ = φ
  have h : (⟨Real.cos φ, Real.sin φ⟩ : ℂ) = Complex.cos φ + Complex.sin φ * Complex.I := by
    apply Complex.ext <;> simp [Complex.cos_ofReal_re, Complex.sin_ofReal_re]
  rw [h]
  exact Complex.arg_cos_add_sin_mul_I ⟨h1, h2⟩

/-- Along a meridian the distance is the arc `R·|Δlat|`, the difference in
radians. -/
theorem calculateDistance_meridian (lat1 lat2 lon : ℝ)
    (h : |(lat2 - lat1) * Real.pi / 180| ≤ Real.pi) :
    calculateDistance realMath lat1 lon lat2 lon = 6371000 * |(lat2 - lat1) * Real.pi / 180| := by
  set d := (lat2 - lat1) * Real.pi / 180 with hd
  have hpi := Real.pi_pos
  have hφ0 : 0 ≤ |d| / 2 := by positivity
  have hφ1 : |d| / 2 ≤ Real.pi / 2 := by linarith
  have hsin : 0 ≤ Real.sin (|d| / 2) :=
    Real.sin_nonneg_of_nonneg_of_le_pi hφ0 (by linarith)
  have hcos : 0 ≤ Real.cos (|d| / 2) :=
    Real.cos_nonneg_of_neg_pi_div_two_le_of_le (by linarith) hφ1
  have ha : Real.sin (d / 2) * Real.sin (d / 2) = Real.sin (|d| / 2) ^ 2 := by
    rcases abs_cases d with ⟨h', _⟩ | ⟨h', _⟩
    · rw [h']; ring
    · rw [h', neg_div, Real.sin_neg]; ring
  have h1a : 1 - Real.sin (|d| / 2) ^ 2 = Real.cos (|d| / 2) ^ 2 := by
    have := Real.sin_sq_add_cos_sq (|d| / 2)
    linarith
  simp only [calculateDistance]
  have hz : (lon - lon) * realMath.pi / 180 / 2 = 0 := by simp
  rw [hz]
  show 6371000 * (2 * realMath.atan2
      (Real.sqrt (Real.sin (d / 2) * Real.sin (d / 2) +
        Real.cos (lat1 * Real.pi / 180) * Real.cos (lat2 * Real.pi / 180) * Real.sin 0 *
          Real.sin 0))
      (Real.sqrt (1 - (Real.sin (d / 2) * Real.sin (d / 2) +
        Real.cos (lat1 * Real.pi / 180) * Real.cos (lat2 * Real.pi / 180) * Real.sin 0 *
          Real.sin 0)))) = 6371000 * |d|
  rw [Real.sin_zero, mul_zero, add_zero, ha, h1a, Real.sqrt_sq hsin, Real.sqrt_sq hcos,
    atan2_sin_cos _ (by linarith) (by linarith)]
  ring

theorem calculateDistance_sampleNorth (m : ℝ) (h0 : 0 ≤ m) (h1 : m ≤ 6371000 * Real.pi) :
    calculateDistance realMath (sampleNorth m).latitude (sampleNorth m).longitude 0 0 = m := by
  have hpi := Real.pi_pos
  have hd : (0 - (sampleNorth m).latitude) * Real.pi / 180 = -(m / 6371000) := by
    simp only [sampleNorth]
    field_simp
    ring
  have habs : |(0 - (sampleNorth m).latitude) * Real.pi / 180| = m / 6371000 := by
    rw [hd, abs_neg, abs_of_nonneg (by positivity)]
  have hlon : (sampleNorth m).longitude = 0 := rfl
  rw [hlon, calculateDistance_meridian _ _ _ (by rw [habs]; rw [div_le_iff₀ (by norm_num)]; linarith),
    habs]
  field_simp

theorem postedData_append {α : Type}
    (xs ys : List (LocEffect α)) :
    postedData (xs ++ ys) = postedData xs ++ postedData ys := by
  induction xs with
  | nil => rfl
  | cons x xs ih => cases x <;> simp [postedData, ih]

theorem postedData_showGeofenceAlert {α : Type} [LinearOrderedField α]
    (M : MathOps α) (v : Bool) (distance radius : α) :
    postedData (showGeofenceAlert M v distance radius) = [] := by
  cases v <;> simp [showGeofenceAlert, postedData]

theorem postedData_shareErrorToast {α : Type}
    (e : JSError) (rest : List (LocEffect α)) :
    postedData (shareErrorToast e :: rest) = postedData rest := by
  unfold shareErrorToast
  cases e with
  | geo code message => simp only []; split_ifs <;> rfl
  | error m => rfl

theorem postedData_handleLocationUpdate {α : Type} [LinearOrderedField α]
    (M : MathOps α) (env : UpdateEnv)
    (last : Option (Coords α)) (coords : Coords α) (homeLat homeLng radiusMeters : α)
    (familyId uid : String) :
    postedData (handleLocationUpdate M env last coords homeLat homeLng radiusMeters familyId uid).2 =
      if shouldUpdate M last coords.latitude coords.longitude
          (decide (calculateDistance M coords.latitude coords.longitude homeLat homeLng
            > radiusMeters)) then
        [⟨familyId, uid, coords.latitude, coords.longitude, roundedAccuracy M coords.accuracy,
          decide (calculateDistance M coords.latitude coords.longitude homeLat homeLng
            > radiusMeters), env.timestamp⟩]
      else [] := by
  unfold handleLocationUpdate
  simp only []
  by_cases h : shouldUpdate M last coords.latitude coords.longitude
      (decide (calculateDistance M coords.latitude coords.longitude homeLat homeLng
        > radiusMeters)) = true
  · simp only [h, ↓reduceIte]
    rcases env.response with e | b
    · simp [postedData]
    · cases b
      · simp [postedData]
      · simp only [postedData_append]
        split_ifs <;> (try simp only [postedData_showGeofenceAlert]) <;> simp [postedData]
  · simp only [h, Bool.false_eq_true, ↓reduceIte]
    rfl

theorem postedData_shareLocation {α : Type} [LinearOrderedField α]
    (M : MathOps α) (env : ShareEnv α)
    (last : Option (Coords α)) (coords : Coords α) (homeLat homeLng radiusMeters : α)
    (familyId uid : String) (hpos : env.position = .ok coords) :
    postedData (shareLocation M env last homeLat homeLng radiusMeters familyId uid).2 =
      if env.geolocationSupported then
        [⟨familyId, uid, coords.latitude, coords.longitude, roundedAccuracy M coords.accuracy,
          decide (calculateDistance M coords.latitude coords.longitude homeLat homeLng
            > radiusMeters), env.timestamp⟩]
      else [] := by
  unfold shareLocation
  cases hs : env.geolocationSupported
  · simp [postedData]
  · simp only [hpos, Bool.not_true, Bool.false_eq_true, ↓reduceIte]
    have hbefore : postedData (if env.hasShareBtn then [LocEffect.buttonLoading] else
        ([] : List (LocEffect α))) = [] := by split_ifs <;> rfl
    have hafter : postedData (if env.hasShareBtn then [LocEffect.buttonRestored] else
        ([] : List (LocEffect α))) = [] := by split_ifs <;> rfl
    unfold shareTry
    simp only []
    rcases env.server with e | result
    · simp [postedData_append, hbefore, hafter, postedData, postedData_shareErrorToast]
    · simp only []
      rcases result.getProp "success" with e | success
      · simp [postedData_append, hbefore, hafter, postedData, postedData_shareErrorToast]
      · simp only []
        by_cases hsucc : success.truthy = true
        · simp only [hsucc, ↓reduceIte, postedData_append, hbefore, hafter]
          have hr : postedData (if env.hasRenderer then
              [LocEffect.renderUserLocation coords.latitude coords.longitude coords.accuracy]
              else ([] : List (LocEffect α))) = [] := by split_ifs <;> rfl
          rw [hr]
          split_ifs <;> simp [postedData]
        · simp only [hsucc, Bool.false_eq_true, ↓reduceIte]
          rcases result.getProp "error" with e | err
          · simp [postedData_append, hbefore, hafter, postedData, postedData_shareErrorToast]
          · simp [postedData_append, hbefore, hafter, postedData, postedData_shareErrorToast]

theorem trackInv_init : TrackInv .init := by
  simp [TrackInv, TrackState.init]

theorem trackInv_stop (s : TrackState) (h : TrackInv s) (hp : s.pendingFixes = 0) :
    TrackInv (stopLocationTracking s) ∧
    (stopLocationTracking s).isTrackingLocation = false ∧
    (stopLocationTracking s).activeWatches = [] := by
  obtain ⟨h1, _, h3⟩ := h
  unfold stopLocationTracking
  cases hw : s.locationWatchId with
  | none =>
    simp only [TrackInv]
    rw [hw] at h1
    simp [h1, hw, hp]
  | some id =>
    simp only [TrackInv]
    rw [hw] at h1
    simp [h1, hp]

theorem trackInv_step (supported : Bool) (s t : TrackState) (e : TrackEvent)
    (h : TrackInv s) (hstep : answeredStep supported s e = some t) : TrackInv t := by
  cases e with
  | startLocationTracking =>
    simp only [answeredStep, trackStep] at hstep
    split_ifs at hstep with hp
    simp only [Option.some.injEq] at hstep
    subst hstep
    unfold startLocationTracking
    cases supported
    · simpa using h
    · simp only [Bool.not_true, Bool.false_eq_true, ↓reduceIte]
      by_cases ht : s.isTrackingLocation = true
      · simp only [ht, ↓reduceIte]
        exact (trackInv_stop s h hp).1
      · simp only [ht, Bool.false_eq_true, ↓reduceIte]
        obtain ⟨h1, _, h3⟩ := h
        have hnone : s.locationWatchId = none := by
          have := (h3 hp).not.mp ht
          simpa using this
        simp [TrackInv, h1, hnone, hp]
  | stopLocationTracking =>
    simp only [answeredStep, trackStep] at hstep
    split_ifs at hstep with hp
    simp only [Option.some.injEq] at hstep
    subst hstep
    exact (trackInv_stop s h hp).1
  | fixSuccess =>
    simp only [answeredStep, trackStep] at hstep
    split_ifs at hstep with hp
    simp only [Option.some.injEq] at hstep
    subst hstep
    obtain ⟨h1, h2, _⟩ := h
    rcases h2 with h2 | ⟨h2, ht, hw⟩
    · omega
    · rw [hw] at h1
      simp [TrackInv, fixSuccess, h1, h2, ht]
  | fixFailure =>
    simp only [answeredStep, trackStep] at hstep
    split_ifs at hstep with hp
    simp only [Option.some.injEq] at hstep
    subst hstep
    obtain ⟨h1, h2, _⟩ := h
    rcases h2 with h2 | ⟨h2, ht, hw⟩
    · omega
    · rw [hw] at h1
      simp [TrackInv, fixFailure, h1, h2, hw]

theorem trackInv_run (supported : Bool) (events : List TrackEvent) (s t : TrackState)
    (h : TrackInv s) (hrun : answeredRun supported s events = some t) : TrackInv t := by
  induction events generalizing s with
  | nil =>
    simp only [answeredRun, Option.some.injEq] at hrun
    exact hrun ▸ h
  | cons e es ih =>
    simp only [answeredRun] at hrun
    cases hstep : answeredStep supported s e with
    | none => rw [hstep] at hrun; cases hrun
    | some u =>
      rw [hstep] at hrun
      exact ih u (trackInv_step supported s u e h hstep) hrun


/-! ## Geofence and significance gate -/

/-- C1: the `outside` flag of every report posted by `shareLocation` and by
`handleLocationUpdate` is true exactly when the distance to home is strictly
greater than the radius; at a distance equal to the radius it is false; with
radius 100 it is false at distance 99 and true at distance 101. -/
theorem outside_iff_distance_gt {α : Type} [LinearOrderedField α]
    (M : MathOps α) (senv : ShareEnv α) (uenv : UpdateEnv)
    (last : Option (Coords α)) (coords : Coords α) (homeLat homeLng radiusMeters : α)
    (familyId uid : String) (d : LocationData α)
    (hd : (senv.position = .ok coords ∧
        d ∈ postedData
          (shareLocation M senv last homeLat homeLng radiusMeters familyId uid).2) ∨
      d ∈ postedData
        (handleLocationUpdate M uenv last coords homeLat homeLng radiusMeters familyId uid).2) :
    (d.outside = true ↔
      calculateDistance M coords.latitude coords.longitude homeLat homeLng > radiusMeters) ∧
    (calculateDistance M coords.latitude coords.longitude homeLat homeLng = radiusMeters →
      d.outside = false) ∧
    (radiusMeters = 100 →
      calculateDistance M coords.latitude coords.longitude homeLat homeLng = 99 →
      d.outside = false) ∧
    (radiusMeters = 100 →
      calculateDistance M coords.latitude coords.longitude homeLat homeLng = 101 →
      d.outside = true) := by
  have hout : d.outside =
      decide (calculateDistance M coords.latitude coords.longitude homeLat homeLng
        > radiusMeters) := by
    rcases hd with ⟨hpos, hmem⟩ | hmem
    · rw [postedData_shareLocation M senv last coords homeLat homeLng radiusMeters familyId uid
        hpos] at hmem
      split_ifs at hmem
      · rw [List.mem_singleton] at hmem
        rw [hmem]
      · simp at hmem
    · rw [postedData_handleLocationUpdate] at hmem
      split_ifs at hmem
      · rw [List.mem_singleton] at hmem
        rw [hmem]
      · simp at hmem
  refine ⟨?_, ?_, ?_, ?_⟩
  · rw [hout, decide_eq_true_iff]
  · intro h
    rw [hout, h]
    simp
  · intro hr h
    rw [hout, h, hr]
    simp
    norm_num
  · intro hr h
    rw [hout, h, hr]
    simp
    norm_num

/-- C1, over the reals with radius 100: the report of `handleLocationUpdate`
for a reading 99 m north of home has the flag false, and the report of
`shareLocation` for a reading 101 m north of home has it true. -/
theorem outside_iff_distance_gt_witness :
    (calculateDistance realMath (sampleNorth 99).latitude (sampleNorth 99).longitude 0 0 = 99 ∧
      (⟨"family", "user", (sampleNorth 99).latitude, (sampleNorth 99).longitude,
          roundedAccuracy realMath (sampleNorth 99).accuracy,
          decide (calculateDistance realMath (sampleNorth 99).latitude
            (sampleNorth 99).longitude 0 0 > 100),
          "2024-05-01T10:00:00.000Z"⟩ : LocationData ℝ) ∈
        postedData (handleLocationUpdate realMath
          ⟨"2024-05-01T10:00:00.000Z", .ok true, false, false⟩
          none (sampleNorth 99) 0 0 100 "family" "user").2 ∧
      decide (calculateDistance realMath (sampleNorth 99).latitude
        (sampleNorth 99).longitude 0 0 > 100) = false) ∧
    (calculateDistance realMath (sampleNorth 101).latitude (sampleNorth 101).longitude 0 0
        = 101 ∧
      (⟨"family", "user", (sampleNorth 101).latitude, (sampleNorth 101).longitude,
          roundedAccuracy realMath (sampleNorth 101).accuracy,
          decide (calculateDistance realMath (sampleNorth 101).latitude
            (sampleNorth 101).longitude 0 0 > 100),
          "2024-05-01T10:00:00.000Z"⟩ : LocationData ℝ) ∈
        postedData (shareLocation realMath
          ⟨true, true, .ok (sampleNorth 101), "2024-05-01T10:00:00.000Z",
            .ok (.obj [("success", .bool true)]), fun _ => "", false⟩
          none 0 0 100 "family" "user").2 ∧
      decide (calculateDistance realMath (sampleNorth 101).latitude
        (sampleNorth 101).longitude 0 0 > 100) = true) := by
  have hpi : (101 : ℝ) ≤ 6371000 * Real.pi := by have := Real.pi_gt_three; linarith
  have h99 := calculateDistance_sampleNorth 99 (by norm_num) (by linarith)
  have h101 := calculateDistance_sampleNorth 101 (by norm_num) hpi
  have hmem : (⟨"family", "user", (sampleNorth 99).latitude, (sampleNorth 99).longitude,
        roundedAccuracy realMath (sampleNorth 99).accuracy,
        decide (calculateDistance realMath (sampleNorth 99).latitude
          (sampleNorth 99).longitude 0 0 > 100),
        "2024-05-01T10:00:00.000Z"⟩ : LocationData ℝ) ∈
      postedData (handleLocationUpdate realMath
        ⟨"2024-05-01T10:00:00.000Z", .ok true, false, false⟩
        none (sampleNorth 99) 0 0 100 "family" "user").2 := by
    rw [postedData_handleLocationUpdate]
    simp [shouldUpdate]
  have hmem2 : (⟨"family", "user", (sampleNorth 101).latitude, (sampleNorth 101).longitude,
        roundedAccuracy realMath (sampleNorth 101).accuracy,
        decide (calculateDistance realMath (sampleNorth 101).latitude
          (sampleNorth 101).longitude 0 0 > 100),
        "2024-05-01T10:00:00.000Z"⟩ : LocationData ℝ) ∈
      postedData (shareLocation realMath
        ⟨true, true, .ok (sampleNorth 101), "2024-05-01T10:00:00.000Z",
          .ok (.obj [("success", .bool true)]), fun _ => "", false⟩
        none 0 0 100 "family" "user").2 := by
    rw [postedData_shareLocation realMath _ none (sampleNorth 101) 0 0 100 "family" "user" rfl]
    simp
  exact ⟨⟨h99, hmem,
      (outside_iff_distance_gt realMath
        ⟨true, true, .ok (sampleNorth 99), "", .ok .null, fun _ => "", false⟩
        ⟨"2024-05-01T10:00:00.000Z", .ok true, false, false⟩ none (sampleNorth 99) 0 0 100
        "family" "user" _ (Or.inr hmem)).2.2.1 rfl h99⟩,
    ⟨h101, hmem2,
      (outside_iff_distance_gt realMath
        ⟨true, true, .ok (sampleNorth 101), "2024-05-01T10:00:00.000Z",
          .ok (.obj [("success", .bool true)]), fun _ => "", false⟩
        ⟨"2024-05-01T10:00:00.000Z", .ok true, false, false⟩ none (sampleNorth 101) 0 0 100
        "family" "user" _ (Or.inl ⟨rfl, hmem2⟩)).2.2.2 rfl h101⟩⟩

/-- C2: `handleLocationUpdate` posts a report exactly when there is no
`lastKnownPosition`, or the sample is more than 50 m from it, or the sample is
outside the radius; inside the radius a sample 49 m from the prior position
posts nothing and one 51 m away posts a report; outside the radius a report
is always posted. -/
theorem report_iff_significant {α : Type} [LinearOrderedField α]
    (M : MathOps α) (env : UpdateEnv)
    (last : Option (Coords α)) (coords : Coords α) (homeLat homeLng radiusMeters : α)
    (familyId uid : String) :
    (postedData
        (handleLocationUpdate M env last coords homeLat homeLng radiusMeters familyId uid).2 ≠ []
      ↔ (last = none ∨
        (∃ p, last = some p ∧
          calculateDistance M coords.latitude coords.longitude p.latitude p.longitude > 50) ∨
        calculateDistance M coords.latitude coords.longitude homeLat homeLng > radiusMeters)) ∧
    (∀ p, last = some p →
      ¬ calculateDistance M coords.latitude coords.longitude homeLat homeLng > radiusMeters →
      (calculateDistance M coords.latitude coords.longitude p.latitude p.longitude = 49 →
        postedData
          (handleLocationUpdate M env last coords homeLat homeLng radiusMeters familyId uid).2
          = []) ∧
      (calculateDistance M coords.latitude coords.longitude p.latitude p.longitude = 51 →
        postedData
          (handleLocationUpdate M env last coords homeLat homeLng radiusMeters familyId uid).2
          ≠ [])) ∧
    (calculateDistance M coords.latitude coords.longitude homeLat homeLng > radiusMeters →
      postedData
        (handleLocationUpdate M env last coords homeLat homeLng radiusMeters familyId uid).2
        ≠ []) := by
  have key : postedData
        (handleLocationUpdate M env last coords homeLat homeLng radiusMeters familyId uid).2 ≠ []
      ↔ (last = none ∨
        (∃ p, last = some p ∧
          calculateDistance M coords.latitude coords.longitude p.latitude p.longitude > 50) ∨
        calculateDistance M coords.latitude coords.longitude homeLat homeLng > radiusMeters) := by
    rw [postedData_handleLocationUpdate]
    cases last with
    | none => simp [shouldUpdate]
    | some p =>
      by_cases h1 : calculateDistance M coords.latitude coords.longitude p.latitude p.longitude > 50
      · simp [shouldUpdate, h1]
      · by_cases h2 : calculateDistance M coords.latitude coords.longitude homeLat homeLng
            > radiusMeters
        · simp [shouldUpdate, h2]
        · simp [shouldUpdate, h1, h2]
  refine ⟨key, ?_, ?_⟩
  · intro p hp hin
    constructor
    · intro h49
      by_contra hne
      rcases key.mp hne with h | ⟨q, hq, hgt⟩ | h
      · rw [hp] at h; cases h
      · rw [hp] at hq
        cases hq
        rw [h49] at hgt
        norm_num at hgt
      · exact hin h
    · intro h51
      exact key.mpr (Or.inr (Or.inl ⟨p, hp, by rw [h51]; norm_num⟩))
  · intro h
    exact key.mpr (Or.inr (Or.inr h))

/-- C2, over the reals with the prior position at (0, 0): 49 m away inside a
radius of 1000 posts nothing, 51 m away posts, and 49 m away outside a radius
of 10 posts. -/
theorem report_iff_significant_witness :
    (calculateDistance realMath (sampleNorth 49).latitude (sampleNorth 49).longitude 0 0 = 49 ∧
      postedData (handleLocationUpdate realMath ⟨"2024-05-01T10:00:00.000Z", .ok true, false, false⟩
        (some ⟨0, 0, 10⟩) (sampleNorth 49) 0 0 1000 "family" "user").2 = []) ∧
    (calculateDistance realMath (sampleNorth 51).latitude (sampleNorth 51).longitude 0 0 = 51 ∧
      postedData (handleLocationUpdate realMath ⟨"2024-05-01T10:00:00.000Z", .ok true, false, false⟩
        (some ⟨0, 0, 10⟩) (sampleNorth 51) 0 0 1000 "family" "user").2 ≠ []) ∧
    (calculateDistance realMath (sampleNorth 49).latitude (sampleNorth 49).longitude 0 0 > 10 ∧
      postedData (handleLocationUpdate realMath ⟨"2024-05-01T10:00:00.000Z", .ok true, false, false⟩
        (some ⟨0, 0, 10⟩) (sampleNorth 49) 0 0 10 "family" "user").2 ≠ []) := by
  have hpi : (51 : ℝ) ≤ 6371000 * Real.pi := by have := Real.pi_gt_three; linarith
  have h49 := calculateDistance_sampleNorth 49 (by norm_num) (by linarith)
  have h51 := calculateDistance_sampleNorth 51 (by norm_num) hpi
  refine ⟨⟨h49, ?_⟩, ⟨h51, ?_⟩, ⟨by rw [h49]; norm_num, ?_⟩⟩
  · exact ((report_iff_significant realMath _ (some ⟨0, 0, 10⟩) (sampleNorth 49) 0 0 1000
      "family" "user").2.1 ⟨0, 0, 10⟩ rfl (by rw [h49]; norm_num)).1 h49
  · exact ((report_iff_significant realMath _ (some ⟨0, 0, 10⟩) (sampleNorth 51) 0 0 1000
      "family" "user").2.1 ⟨0, 0, 10⟩ rfl (by rw [h51]; norm_num)).2 h51
  · exact (report_iff_significant realMath _ (some ⟨0, 0, 10⟩) (sampleNorth 49) 0 0 10
      "family" "user").2.2 (by rw [h49]; norm_num)


/-! ## Continuous tracking -/

/-- C3 fails as stated: with the first fix failing between the two calls the
second call starts tracking again; with the fix succeeding after two calls a
watch is registered while `isTrackingLocation` is false; and after three
calls and two successes two watches are registered. -/
theorem tracking_start_twice_counterexample :
    (trackRun true .init [.startLocationTracking, .fixFailure, .startLocationTracking]).map
        (fun s => s.isTrackingLocation) = some true ∧
    trackRun true .init [.startLocationTracking, .startLocationTracking, .fixSuccess]
      = some ⟨some 0, false, [0], 1, 0⟩ ∧
    (trackRun true .init [.startLocationTracking, .startLocationTracking,
        .startLocationTracking, .fixSuccess, .fixSuccess]).map
        (fun s => s.activeWatches.length) = some 2 := by
  decide

/-- C3 amended: in every state reached by a run in which no call is made
while an initial fix is unanswered, at most one watch is registered; a call
of `startLocationTracking` while tracking leaves tracking stopped with no
watch, so do two calls with the fix succeeding in between, and with the fix
failing in between the second call starts tracking again. -/
theorem tracking_single_watch_when_answered (supported : Bool) (events : List TrackEvent)
    (s : TrackState) (hrun : answeredRun supported .init events = some s) :
    s.activeWatches.length ≤ 1 ∧
    (s.pendingFixes = 0 → s.isTrackingLocation = true →
      (startLocationTracking true s).isTrackingLocation = false ∧
      (startLocationTracking true s).activeWatches = []) ∧
    (s.pendingFixes = 0 → s.isTrackingLocation = false →
      (startLocationTracking true (fixSuccess (startLocationTracking true s))).isTrackingLocation
        = false ∧
      (startLocationTracking true (fixSuccess (startLocationTracking true s))).activeWatches
        = [] ∧
      (startLocationTracking true (fixFailure (startLocationTracking true s))).isTrackingLocation
        = true) := by
  have hinv := trackInv_run supported events .init s trackInv_init hrun
  refine ⟨?_, ?_, ?_⟩
  · rw [hinv.1]
    cases s.locationWatchId <;> simp
  · intro hp ht
    have := trackInv_stop s hinv hp
    simp only [startLocationTracking, ht, Bool.not_true, Bool.false_eq_true, ↓reduceIte]
    exact this.2
  · intro hp ht
    obtain ⟨h1, _, h3⟩ := hinv
    have hnone : s.locationWatchId = none := by
      have := (h3 hp).not.mp (by simp [ht])
      simpa using this
    rw [hnone] at h1
    simp [startLocationTracking, fixSuccess, fixFailure, stopLocationTracking, ht, h1]

/-- C3 amended, at the run start, success, start from the initial state. -/
theorem tracking_single_watch_when_answered_witness :
    answeredRun true .init [.startLocationTracking, .fixSuccess, .startLocationTracking]
      = some ⟨none, false, [], 1, 0⟩ ∧
    (⟨none, false, [], 1, 0⟩ : TrackState).activeWatches.length ≤ 1 ∧
    (startLocationTracking true (fixSuccess (startLocationTracking true
      ⟨none, false, [], 1, 0⟩))).activeWatches = [] :=
  ⟨by decide,
    (tracking_single_watch_when_answered true
      [.startLocationTracking, .fixSuccess, .startLocationTracking] _ (by decide)).1,
    ((tracking_single_watch_when_answered true
      [.startLocationTracking, .fixSuccess, .startLocationTracking] ⟨none, false, [], 1, 0⟩
      (by decide)).2.2 rfl rfl).2.1⟩


/-! ## Notification click -/

section ServiceWorker

open JSVal

/-- C4: the click target is `/dashboard` for type `geofence`, `/reminders`
for `reminder`, `/alerts` for `alert`, and `/dashboard` when the data has none
of these types and no truthy `url`, or when there is no data. -/
theorem clickTarget_by_type (data t u : JSVal)
    (ht : data.getProp "type" = .ok t) (hu : data.getProp "url" = .ok u) :
    (t = .str "geofence" → clickTarget data = .ok (.str "/dashboard")) ∧
    (t = .str "reminder" → clickTarget data = .ok (.str "/reminders")) ∧
    (t = .str "alert" → clickTarget data = .ok (.str "/alerts")) ∧
    (t.strictEqStr "geofence" = false → t.strictEqStr "reminder" = false →
      t.strictEqStr "alert" = false → u.truthy = false →
      clickTarget data = .ok (.str "/dashboard")) ∧
    clickTarget .null = .ok (.str "/dashboard") := by
  refine ⟨?_, ?_, ?_, ?_, rfl⟩
  · intro h
    subst h
    cases data <;> simp [getProp] at ht
    simp [clickTarget, truthy, getProp, ht, strictEqStr, bind, Except.bind, pure, Except.pure]
  · intro h
    subst h
    cases data <;> simp [getProp] at ht
    simp [clickTarget, truthy, getProp, ht, strictEqStr, bind, Except.bind, pure, Except.pure]
  · intro h
    subst h
    cases data <;> simp [getProp] at ht
    simp [clickTarget, truthy, getProp, ht, strictEqStr, bind, Except.bind, pure, Except.pure]
  · intro h1 h2 h3 h4
    unfold clickTarget
    split
    · simp [ht, hu, h1, h2, h3, h4, bind, Except.bind, pure, Except.pure]
    · rfl

/-- C4, at the data with type `reminder` and no `url`. -/
theorem clickTarget_by_type_witness :
    JSVal.getProp (.obj [("type", .str "reminder")]) "type" = .ok (.str "reminder") ∧
    JSVal.getProp (.obj [("type", .str "reminder")]) "url" = .ok .undefined ∧
    clickTarget (.obj [("type", .str "reminder")]) = .ok (.str "/reminders") :=
  ⟨rfl, rfl,
    (clickTarget_by_type (.obj [("type", .str "reminder")]) (.str "reminder") .undefined
      rfl rfl).2.1 rfl⟩

/-- C5 fails as stated: with type `reminder` and `url` `/custom` the target
is `/reminders`, not `/custom`. -/
theorem clickTarget_url_not_override :
    JSVal.getProp (.obj [("type", .str "reminder"), ("url", .str "/custom")]) "url"
      = .ok (.str "/custom") ∧
    clickTarget (.obj [("type", .str "reminder"), ("url", .str "/custom")])
      = .ok (.str "/reminders") ∧
    clickTarget (.obj [("type", .str "reminder"), ("url", .str "/custom")])
      ≠ .ok (.str "/custom") := by
  refine ⟨rfl, rfl, ?_⟩
  intro h
  have h2 : clickTarget (.obj [("type", .str "reminder"), ("url", .str "/custom")])
      = .ok (.str "/reminders") := rfl
  rw [h2] at h
  simp at h

/-- C5 amended: a truthy `data.url` is the target when `data.type` is none
of `geofence`, `reminder` and `alert`; with one of these types the target is
the path of the type, whatever `data.url` is. -/
theorem clickTarget_url_fallback (data t u : JSVal)
    (ht : data.getProp "type" = .ok t) (hu : data.getProp "url" = .ok u)
    (hpresent : u.truthy = true) :
    (t.strictEqStr "geofence" = false → t.strictEqStr "reminder" = false →
      t.strictEqStr "alert" = false → clickTarget data = .ok u) ∧
    (t.strictEqStr "geofence" = true → clickTarget data = .ok (.str "/dashboard")) ∧
    (t.strictEqStr "reminder" = true → clickTarget data = .ok (.str "/reminders")) ∧
    (t.strictEqStr "alert" = true → clickTarget data = .ok (.str "/alerts")) := by
  have hd : data.truthy = true := by
    cases data <;> simp [getProp] at hu <;> first | rfl | (subst hu; simp [truthy] at hpresent)
  refine ⟨?_, ?_, ?_, ?_⟩
  · intro h1 h2 h3
    simp [clickTarget, hd, ht, hu, h1, h2, h3, hpresent, bind, Except.bind, pure, Except.pure]
  · intro h1
    simp [clickTarget, hd, ht, h1, bind, Except.bind, pure, Except.pure]
  · intro h2
    have h1 : t.strictEqStr "geofence" = false := by
      cases t <;> simp [strictEqStr] at h2 ⊢
      subst h2; decide
    simp [clickTarget, hd, ht, h1, h2, bind, Except.bind, pure, Except.pure]
  · intro h3
    have h1 : t.strictEqStr "geofence" = false := by
      cases t <;> simp [strictEqStr] at h3 ⊢
      subst h3; decide
    have h2 : t.strictEqStr "reminder" = false := by
      cases t <;> simp [strictEqStr] at h3 ⊢
      subst h3; decide
    simp [clickTarget, hd, ht, h1, h2, h3, bind, Except.bind, pure, Except.pure]

/-- C5 amended, at the data with type `promo` and `url` `/custom`. -/
theorem clickTarget_url_fallback_witness :
    JSVal.getProp (.obj [("type", .str "promo"), ("url", .str "/custom")]) "url"
      = .ok (.str "/custom") ∧
    (JSVal.str "/custom").truthy = true ∧
    clickTarget (.obj [("type", .str "promo"), ("url", .str "/custom")])
      = .ok (.str "/custom") :=
  ⟨rfl, rfl,
    (clickTarget_url_fallback (.obj [("type", .str "promo"), ("url", .str "/custom")])
      (.str "promo") (.str "/custom") rfl rfl rfl).1 rfl rfl rfl⟩

/-- C6: on the action `dismiss` the handler closes the notification and does
nothing else, whatever the data and the clients: nothing is focused, opened
or posted, and nothing fails. -/
theorem dismiss_only_closes (env : ClientsEnv) (ev : NotificationClickEvent)
    (h : ev.action = "dismiss") :
    notificationClick env ev = ⟨[.closeNotification], none⟩ := by
  simp [notificationClick, h]

/-- C6, at a dismissed reminder notification with one open window. -/
theorem dismiss_only_closes_witness :
    (⟨"dismiss", .obj [("type", .str "reminder")]⟩ : NotificationClickEvent).action
      = "dismiss" ∧
    notificationClick ⟨[⟨1, "https://recuerdame.example/reminders", .window⟩], true⟩
      ⟨"dismiss", .obj [("type", .str "reminder")]⟩ = ⟨[.closeNotification], none⟩ :=
  ⟨rfl, dismiss_only_closes _ _ rfl⟩


/-! ## Fetch and activate -/

/-- The handler leaves a request to the browser exactly when `intercepts` is
false. -/
theorem fetchHandler_passthrough_iff (s : CacheStorage) (req : Request)
    (network : Except JSError Response) :
    (fetchHandler s req network).result = .passthrough ↔ intercepts req = false := by
  unfold fetchHandler intercepts
  cases h1 : jsStartsWith req.url "http"
  · simp
  · cases h2 : (jsIncludes req.url "maps.googleapis.com" || jsIncludes req.url "gstatic.com")
    · simp only [Bool.not_true, Bool.false_eq_true, ↓reduceIte, Bool.not_false, Bool.and_self]
      cases cachesMatch s req <;> cases network <;> simp only [] <;>
        (try split_ifs) <;> simp
    · simp

/-- C7: for an intercepted request that is not cached and whose network
fetch fails, a `document` request is answered with the offline page, whose
`Content-Type` is `text/html`, and any other request is answered with the
network failure. -/
theorem fetch_miss_network_failure (s : CacheStorage) (req : Request) (error : JSError)
    (hint : intercepts req = true) (hmiss : cachesMatch s req = none) :
    (req.destination = "document" →
      (fetchHandler s req (.error error)).result = .respond (.ok offlinePage) ∧
      offlinePage.headers.lookup "Content-Type" = some "text/html") ∧
    (req.destination ≠ "document" →
      (fetchHandler s req (.error error)).result = .respond (.error error)) := by
  simp only [intercepts, Bool.and_eq_true, Bool.not_eq_true', Bool.or_eq_false_iff] at hint
  obtain ⟨h1, h2, h3⟩ := hint
  constructor
  · intro hd
    refine ⟨?_, rfl⟩
    simp [fetchHandler, h1, h2, h3, hmiss, hd]
  · intro hd
    simp [fetchHandler, h1, h2, h3, hmiss, hd]

/-- C7, at a navigation and at a script request with an empty cache
storage. -/
theorem fetch_miss_network_failure_witness :
    intercepts ⟨"https://recuerdame.example/reminders", "GET", "document"⟩ = true ∧
    cachesMatch [] ⟨"https://recuerdame.example/reminders", "GET", "document"⟩ = none ∧
    (fetchHandler [] ⟨"https://recuerdame.example/reminders", "GET", "document"⟩
      (.error (.error "Failed to fetch"))).result = .respond (.ok offlinePage) ∧
    (fetchHandler [] ⟨"https://recuerdame.example/static/js/ui.js", "GET", "script"⟩
      (.error (.error "Failed to fetch"))).result
      = .respond (.error (.error "Failed to fetch")) :=
  ⟨rfl, rfl,
    ((fetch_miss_network_failure [] ⟨"https://recuerdame.example/reminders", "GET", "document"⟩
      (.error "Failed to fetch") rfl rfl).1 rfl).1,
    (fetch_miss_network_failure [] ⟨"https://recuerdame.example/static/js/ui.js", "GET", "script"⟩
      (.error "Failed to fetch") rfl rfl).2 (by decide)⟩

/-- C8: after the `activate` handler no cache with a name other than
`CACHE_NAME` remains, a cache named `CACHE_NAME` that was present is still
present, at most one cache remains, and `caches.match` finds exactly what the
cache named `CACHE_NAME` holds. -/
theorem activate_keeps_only_current (s : CacheStorage) (hkeys : (cachesKeys s).Nodup) :
    (∀ name ∈ cachesKeys s, name ≠ CACHE_NAME → name ∉ cachesKeys (activateHandler s).1) ∧
    (∀ c, (CACHE_NAME, c) ∈ s → (CACHE_NAME, c) ∈ (activateHandler s).1) ∧
    (∀ name ∈ cachesKeys (activateHandler s).1, name = CACHE_NAME) ∧
    (cachesKeys (activateHandler s).1).length ≤ 1 ∧
    (∀ req, cachesMatch (activateHandler s).1 req =
      (s.lookup CACHE_NAME).bind fun c => cacheMatch c req) := by
  have hall : ∀ name ∈ cachesKeys (activateHandler s).1, name = CACHE_NAME := by
    intro name hname
    rw [activate_eq_filter, cachesKeys, List.mem_map] at hname
    obtain ⟨e, he, rfl⟩ := hname
    simpa using (List.mem_filter.mp he).2
  refine ⟨?_, ?_, hall, ?_, ?_⟩
  · intro name _ hne hmem
    exact hne (hall name hmem)
  · intro c hc
    rw [activate_eq_filter]
    exact List.mem_filter.mpr ⟨hc, by simp⟩
  · rw [activate_eq_filter, filter_current_eq s hkeys]
    cases s.lookup CACHE_NAME <;> simp [cachesKeys]
  · intro req
    rw [activate_eq_filter, filter_current_eq s hkeys]
    cases hl : s.lookup CACHE_NAME with
    | none => rfl
    | some c =>
      simp only [cachesMatch, Option.bind]
      cases cacheMatch c req <;> rfl

/-- C8, at a storage holding an old generation and the current one. -/
theorem activate_keeps_only_current_witness :
    (cachesKeys [("recuerdame-v0.9.0", [("/", ⟨200, [], "old"⟩)]),
        ("recuerdame-v1.0.0", [("/", ⟨200, [], "new"⟩)])]).Nodup ∧
    (activateHandler [("recuerdame-v0.9.0", [("/", ⟨200, [], "old"⟩)]),
        ("recuerdame-v1.0.0", [("/", ⟨200, [], "new"⟩)])]).1
      = [("recuerdame-v1.0.0", [("/", ⟨200, [], "new"⟩)])] ∧
    (cachesKeys (activateHandler [("recuerdame-v0.9.0", [("/", ⟨200, [], "old"⟩)]),
        ("recuerdame-v1.0.0", [("/", ⟨200, [], "new"⟩)])]).1).length ≤ 1 :=
  ⟨by decide, rfl,
    (activate_keeps_only_current _ (by decide)).2.2.2.1⟩


/-! ## Push -/

/-- A push whose payload does not parse to `null` shows exactly one
notification and does not fail. -/
theorem pushHandler_shows_once (ev : PushEvent)
    (hnull : ∀ d, ev.data = some d → d.json ≠ .ok .null)
    (hundef : ∀ d, ev.data = some d → d.json ≠ .ok .undefined) :
    ∃ title options, pushHandler ev = ⟨[.showNotification title options], none⟩ := by
  have hnd : ∃ v, pushNotificationData ev = v ∧ v ≠ .null ∧ v ≠ .undefined := by
    refine ⟨_, rfl, ?_, ?_⟩
    · unfold pushNotificationData
      cases hd : ev.data with
      | none => simp
      | some d =>
        simp only []
        cases hj : d.json with
        | error e => simp
        | ok v =>
          simp only []
          intro hv
          exact hnull d hd (by rw [hj, hv])
    · unfold pushNotificationData
      cases hd : ev.data with
      | none => simp
      | some d =>
        simp only []
        cases hj : d.json with
        | error e => simp
        | ok v =>
          simp only []
          intro hv
          exact hundef d hd (by rw [hj, hv])
  obtain ⟨v, hv, h1, h2⟩ := hnd
  unfold pushHandler
  simp only [hv]
  cases v <;> first | exact absurd rfl h1 | exact absurd rfl h2 | exact ⟨_, _, rfl⟩

/-- C9 at the payload `null`: `json()` returns `null`, reading `body` of it
throws, and no notification is shown. -/
theorem push_null_payload_throws :
    pushHandler ⟨some ⟨"null", .ok .null⟩⟩ =
      ⟨[], some (.error "Cannot read properties of null (reading body)")⟩ := by
  rfl

/-- C10 fails as stated: a payload with a `badge` and an empty `body` is
shown with the application icon as badge and the default body. -/
theorem push_badge_not_overlaid :
    ∃ title options,
      pushHandler ⟨some ⟨"\x7b\"badge\":\"/static/img/badge.png\",\"body\":\"\"\x7d",
          .ok (.obj [("badge", .str "/static/img/badge.png"), ("body", .str "")])⟩⟩
        = ⟨[.showNotification title options], none⟩ ∧
      options.getProp "badge" = .ok (.str "/static/img/icon.png") ∧
      options.getProp "badge" ≠ .ok (.str "/static/img/badge.png") ∧
      options.getProp "body" = .ok (.str "Nueva notificación de RecuerdaMe") ∧
      options.getProp "body" ≠ .ok (.str "") := by
  refine ⟨_, _, rfl, rfl, ?_, rfl, ?_⟩
  · intro h
    have h3 := h.symm.trans (show _ = Except.ok (JSVal.str "/static/img/icon.png") from rfl)
    simp at h3
  · intro h
    have h3 := h.symm.trans
      (show _ = Except.ok (JSVal.str "Nueva notificación de RecuerdaMe") from rfl)
    simp at h3

/-- C10 amended: for a payload object, `title`, `body`, `icon`, `tag` and
`requireInteraction` are the payload's values when these are truthy and the
defaults otherwise; `badge` is always the application icon; `vibrate` is
[200, 100, 200] and the actions are `view` and `dismiss`. -/
theorem push_options_overlay (text : String) (fields : List (String × JSVal)) :
    ∃ title options,
      pushHandler ⟨some ⟨text, .ok (.obj fields)⟩⟩ = ⟨[.showNotification title options], none⟩ ∧
      title = (if (field fields "title").truthy then field fields "title"
        else .str "RecuerdaMe") ∧
      options.getProp "body" = .ok (if (field fields "body").truthy then field fields "body"
        else .str "Nueva notificación de RecuerdaMe") ∧
      options.getProp "icon" = .ok (if (field fields "icon").truthy then field fields "icon"
        else .str "/static/img/icon.png") ∧
      options.getProp "badge" = .ok (.str "/static/img/icon.png") ∧
      options.getProp "tag" = .ok (if (field fields "tag").truthy then field fields "tag"
        else .str "recuerdame-notification") ∧
      options.getProp "requireInteraction" =
        .ok (if (field fields "requireInteraction").truthy then field fields "requireInteraction"
          else .bool false) ∧
      options.getProp "vibrate" = .ok (.arr [.num 200, .num 100, .num 200]) ∧
      options.getProp "actions" =
        .ok (.arr [.obj [("action", .str "view"), ("title", .str "Ver"),
                         ("icon", .str "/static/img/icon.png")],
                   .obj [("action", .str "dismiss"), ("title", .str "Cerrar")]]) := by
  refine ⟨_, _, rfl, rfl, rfl, rfl, rfl, rfl, rfl, rfl, rfl⟩


end ServiceWorker

/-! ## Haversine distance -/

theorem calculateDistance_same_point {α : Type} [LinearOrderedField α] (M : MathOps α)
    (lat lon : α) (hsin : M.sin 0 = 0) (hsqrt0 : M.sqrt 0 = 0) (hsqrt1 : M.sqrt 1 = 1)
    (hatan : M.atan2 0 1 = 0) :
    calculateDistance M lat lon lat lon = 0 := by
  simp [calculateDistance, hsin, hsqrt0, hsqrt1, hatan]

/-- C11: over the reals the distance from a point to itself is 0, for every
latitude and longitude. -/
theorem calculateDistance_self (lat lon : ℝ) :
    calculateDistance realMath lat lon lat lon = 0 := by
  apply calculateDistance_same_point
  · exact Real.sin_zero
  · exact Real.sqrt_zero
  · exact Real.sqrt_one
  · show Complex.arg ⟨1, 0⟩ = 0
    have h : (⟨1, 0⟩ : ℂ) = 1 := rfl
    rw [h, Complex.arg_one]

/-- C12: over the reals the distance between two points one degree of
latitude apart on a meridian is `R·π/180` with `R = 6371000`, which is within
1% of 111195 m, for every latitude and longitude. -/
theorem calculateDistance_one_degree (lat lon : ℝ) :
    calculateDistance realMath lat lon (lat + 1) lon = 6371000 * Real.pi / 180 ∧
    |calculateDistance realMath lat lon (lat + 1) lon - 111195| ≤ 111195 / 100 := by
  have hpos := Real.pi_pos
  have hd : (lat + 1 - lat) * Real.pi / 180 = Real.pi / 180 := by ring
  have habs : |(lat + 1 - lat) * Real.pi / 180| = Real.pi / 180 := by
    rw [hd, abs_of_pos (by positivity)]
  have heq : calculateDistance realMath lat lon (lat + 1) lon = 6371000 * Real.pi / 180 := by
    rw [calculateDistance_meridian lat (lat + 1) lon (by rw [habs]; linarith), habs]
    ring
  refine ⟨heq, ?_⟩
  rw [heq, abs_le]
  have h1 := Real.pi_gt_d6
  have h2 := Real.pi_lt_d6
  constructor <;> linarith

/-! ## Errors of `shareLocation` -/

/-- C13 at a server-reported failure and at a rejected request: the error
thrown is a plain `Error`, whose `code` and `PERMISSION_DENIED` are both
`undefined`, and the toast shown is the one for a denied permission, not the
generic one. -/
theorem shareLocation_plain_error_toast {α : Type} [LinearOrderedField α] (M : MathOps α)
    (last : Option (Coords α)) (coords : Coords α) (homeLat homeLng radiusMeters : α)
    (familyId uid timestamp m : String) (toStr : JSVal → String) :
    (shareLocation M
        ⟨true, false, .ok coords, timestamp,
          .ok (.obj [("success", .bool false), ("error", .str m)]), toStr, false⟩
        last homeLat homeLng radiusMeters familyId uid).2 =
      [.postLocation ⟨familyId, uid, coords.latitude, coords.longitude,
          roundedAccuracy M coords.accuracy,
          decide (calculateDistance M coords.latitude coords.longitude homeLat homeLng
            > radiusMeters), timestamp⟩,
        .showToast [.text "Acceso a ubicación denegado. Por favor permite el acceso en la configuración del navegador."]
          "error" 8000] ∧
    (shareLocation M
        ⟨true, false, .ok coords, timestamp, .error (.error m), toStr, false⟩
        last homeLat homeLng radiusMeters familyId uid).2 =
      [.postLocation ⟨familyId, uid, coords.latitude, coords.longitude,
          roundedAccuracy M coords.accuracy,
          decide (calculateDistance M coords.latitude coords.longitude homeLat homeLng
            > radiusMeters), timestamp⟩,
        .showToast [.text "Acceso a ubicación denegado. Por favor permite el acceso en la configuración del navegador."]
          "error" 8000] := by
  constructor
  · simp [shareLocation, shareTry, shareErrorToast, JSVal.getProp, JSVal.truthy, List.lookup]
  · simp [shareLocation, shareTry, shareErrorToast]

/-! ## Push registration -/

/-- C14 fails as stated: when the POST rejects `getFCMToken` resolves with
the token, not with `null`. -/
theorem getFCMToken_post_rejected :
    (getFCMToken 1700000000000 (.error (.error "Failed to fetch")) ⟨true, none⟩).result
      = .ok (some "mock_fcm_token_1700000000000") ∧
    (getFCMToken 1700000000000 (.error (.error "Failed to fetch")) ⟨true, none⟩).result
      ≠ .ok none := by
  refine ⟨rfl, ?_⟩
  intro h
  have h2 := h.symm.trans
    (show _ = Except.ok (some "mock_fcm_token_1700000000000") from rfl)
  simp at h2

/-- C14 amended: `getFCMToken` never rejects; whatever the outcome of the
POST it resolves with `mock_fcm_token_` followed by the epoch milliseconds,
`currentToken` is that token, and the token was posted with the demo
identifiers. -/
theorem getFCMToken_returns_token (now : Nat) (post : Except JSError Bool) (s : FcmState) :
    (getFCMToken now post s).result = .ok (some ("mock_fcm_token_" ++ toString now)) ∧
    (getFCMToken now post s).state.currentToken = some ("mock_fcm_token_" ++ toString now) ∧
    (getFCMToken now post s).posted =
      [⟨"mock_fcm_token_" ++ toString now, "demo-user-123", "demo-family-456"⟩] := by
  cases post <;> exact ⟨rfl, rfl, rfl⟩

/-! ## Double rounding -/

theorem roundHalfEven_of_near (y : ℚ) (k : ℤ) (h : |y - k| < 1 / 2) : roundHalfEven y = k := by
  rw [abs_lt] at h
  obtain ⟨h1, h2⟩ := h
  unfold roundHalfEven
  by_cases hk : (k : ℚ) ≤ y
  · have hf : ⌊y⌋ = k := by
      rw [Int.floor_eq_iff]
      constructor <;> linarith
    rw [hf, if_pos (by linarith)]
  · push_neg at hk
    have hf : ⌊y⌋ = k - 1 := by
      rw [Int.floor_eq_iff]
      push_cast
      constructor <;> linarith
    rw [hf]
    push_cast
    rw [if_neg (by linarith), if_pos (by linarith)]
    ring

theorem ulpExponent_of_bounds (x : ℚ) (e : ℤ) (he : -1022 ≤ e)
    (h1 : (2 : ℚ) ^ e ≤ |x|) (h2 : |x| < (2 : ℚ) ^ (e + 1)) : ulpExponent x = e - 52 := by
  have hpos : 0 < |x| := lt_of_lt_of_le (by positivity) h1
  have hl : Int.log 2 |x| = e := by
    have a1 : e ≤ Int.log 2 |x| := (Int.zpow_le_iff_le_log (by norm_num) hpos).mp h1
    have a2 : Int.log 2 |x| < e + 1 := (Int.lt_zpow_iff_log_lt (by norm_num) hpos).mp h2
    omega
  unfold ulpExponent
  rw [hl, max_eq_left he]

theorem roundDouble_of_bounds (x v : ℚ) (e k : ℤ) (he : -1022 ≤ e)
    (h1 : (2 : ℚ) ^ e ≤ |x|) (h2 : |x| < (2 : ℚ) ^ (e + 1))
    (hk : |x / 2 ^ (e - 52) - k| < 1 / 2) (hv : v = k * 2 ^ (e - 52)) : roundDouble x = v := by
  unfold roundDouble
  rw [ulpExponent_of_bounds x e he h1 h2, roundHalfEven_of_near _ k hk, hv]

theorem roundHalfEven_near (y : ℚ) : |(roundHalfEven y : ℚ) - y| ≤ 1 / 2 := by
  have h1 := Int.floor_le y
  have h2 := Int.lt_floor_add_one y
  unfold roundHalfEven
  rw [abs_le]
  split_ifs with ha hb hc
  · constructor <;> linarith
  · push_cast; constructor <;> linarith
  · constructor <;> linarith
  · push_cast; constructor <;> linarith

theorem ulpExponent_of_one_le (x : ℚ) (hx : 1 ≤ x) :
    ulpExponent x = Int.log 2 x - 52 ∧ 0 ≤ Int.log 2 x := by
  have hlog : 0 ≤ Int.log 2 x := by
    rw [Int.log_of_one_le_right _ hx]
    exact Int.natCast_nonneg _
  refine ⟨?_, hlog⟩
  unfold ulpExponent
  rw [abs_of_pos (by linarith), max_eq_left (by omega)]

theorem roundDouble_error (x : ℚ) (hx : 1 ≤ x) : |roundDouble x - x| ≤ x / 2 ^ 53 := by
  have hpos : 0 < x := by linarith
  obtain ⟨hu, -⟩ := ulpExponent_of_one_le x hx
  have hle : (2 : ℚ) ^ Int.log 2 x ≤ x := Int.zpow_log_le_self (by norm_num) hpos
  have hupos : (0 : ℚ) < 2 ^ (Int.log 2 x - 52) := by positivity
  have hsplit : (2 : ℚ) ^ Int.log 2 x = 2 ^ (Int.log 2 x - 52) * 2 ^ 52 := by
    rw [zpow_sub₀ (by norm_num)]
    norm_num
  have hr := roundHalfEven_near (x / 2 ^ (Int.log 2 x - 52))
  unfold roundDouble
  rw [hu]
  have heq : (roundHalfEven (x / 2 ^ (Int.log 2 x - 52)) : ℚ) * 2 ^ (Int.log 2 x - 52) - x =
      ((roundHalfEven (x / 2 ^ (Int.log 2 x - 52)) : ℚ) - x / 2 ^ (Int.log 2 x - 52)) *
        2 ^ (Int.log 2 x - 52) := by
    field_simp
  rw [heq, abs_mul, abs_of_pos hupos]
  have h1 := mul_le_mul_of_nonneg_right hr hupos.le
  rw [le_div_iff₀ (by norm_num)]
  nlinarith

theorem double_int_gap (m : ℚ) (hd : roundDouble m = m) (h1 : 1 ≤ m) (hb : m < 2 ^ 53)
    (T : ℤ) (hne : m ≠ T) : m / 2 ^ 53 < |m - T| := by
  have hpos : 0 < m := by linarith
  obtain ⟨hu, hlog⟩ := ulpExponent_of_one_le m h1
  have hle : (2 : ℚ) ^ Int.log 2 m ≤ m := Int.zpow_log_le_self (by norm_num) hpos
  have hlt : m < (2 : ℚ) ^ (Int.log 2 m + 1) := Int.lt_zpow_succ_log_self (by norm_num) m
  have hj : Int.log 2 m < 53 := by
    have h2 : Int.log 2 m < Int.log 2 m + 1 := by omega
    by_contra hcon
    push_neg at hcon
    have : (2 : ℚ) ^ (53 : ℤ) ≤ 2 ^ Int.log 2 m := zpow_le_zpow_right₀ (by norm_num) hcon
    have h53 : (2 : ℚ) ^ (53 : ℤ) = 2 ^ 53 := by norm_num
    linarith
  unfold roundDouble at hd
  rw [hu] at hd
  obtain ⟨p, hp⟩ : ∃ p : ℕ, (p : ℤ) = 52 - Int.log 2 m := ⟨(52 - Int.log 2 m).toNat, by omega⟩
  have hup : (2 : ℚ) ^ (Int.log 2 m - 52) * 2 ^ p = 1 := by
    rw [← zpow_natCast, hp, ← zpow_add₀ (by norm_num)]
    simp
  have hu53 : (2 : ℚ) ^ (Int.log 2 m + 1) = 2 ^ (Int.log 2 m - 52) * 2 ^ 53 := by
    rw [show Int.log 2 m + 1 = (Int.log 2 m - 52) + 53 by ring, zpow_add₀ (by norm_num)]
    norm_num
  have hppos : (0 : ℚ) < 2 ^ p := by positivity
  have hupos : (0 : ℚ) < 2 ^ (Int.log 2 m - 52) := by positivity
  have hL : (m - T) * 2 ^ p =
      ((roundHalfEven (m / 2 ^ (Int.log 2 m - 52)) - T * 2 ^ p : ℤ) : ℚ) := by
    push_cast
    rw [sub_mul]
    congr 1
    rw [← hd, mul_assoc, hup, mul_one]
    rw [hd]
  have hLne : (roundHalfEven (m / 2 ^ (Int.log 2 m - 52)) - T * 2 ^ p : ℤ) ≠ 0 := by
    intro h0
    rw [h0] at hL
    have : m - T = 0 := by simpa using hL
    exact hne (by linarith)
  have habs : (1 : ℚ) ≤ |m - T| * 2 ^ p := by
    rw [← abs_of_pos hppos, ← abs_mul, hL, ← Int.cast_abs]
    exact_mod_cast Int.one_le_abs hLne
  rw [div_lt_iff₀ (by norm_num)]
  rw [hu53] at hlt
  have hge : (2 : ℚ) ^ (Int.log 2 m - 52) ≤ |m - T| := by
    have := mul_le_mul_of_nonneg_left habs hupos.le
    nlinarith [abs_nonneg (m - T)]
  nlinarith

/-! ## Formatting -/

theorem toString_digit_length (k : ℕ) (hk : k < 10) : (toString k).length = 1 := by
  interval_cases k <;> rfl

theorem mathRound_natCast {α : Type} [LinearOrderedField α] [FloorRing α] (n : ℕ) :
    mathRound (n : α) = n := by
  unfold mathRound
  rw [Int.floor_eq_iff]
  constructor
  · push_cast; linarith
  · push_cast; linarith

theorem roundDouble_same_side (m : ℚ) (hd : roundDouble m = m) (h1 : 1000 ≤ m)
    (hb : m < 2 ^ 53) (T : ℤ) :
    (m / 1000 < (T : ℚ) / 1000 → roundDouble (m / 1000) < (T : ℚ) / 1000) ∧
    ((T : ℚ) / 1000 < m / 1000 → (T : ℚ) / 1000 < roundDouble (m / 1000)) := by
  have herr := roundDouble_error (m / 1000) (by rw [le_div_iff₀ (by norm_num)]; linarith)
  rw [abs_le] at herr
  obtain ⟨e1, e2⟩ := herr
  constructor
  · intro hlt
    have hne : m ≠ T := by
      intro h
      rw [h] at hlt
      exact lt_irrefl _ hlt
    have hgap := double_int_gap m hd (by linarith) hb T hne
    have hneg : m - T < 0 := by
      rw [div_lt_div_iff_of_pos_right (by norm_num)] at hlt
      linarith
    rw [abs_of_neg hneg] at hgap
    have e3 : m / 1000 / 2 ^ 53 < (T : ℚ) / 1000 - m / 1000 := by
      rw [← sub_div, div_right_comm]
      rw [div_lt_div_iff_of_pos_right (by norm_num)]
      linarith
    linarith
  · intro hlt
    have hne : m ≠ T := by
      intro h
      rw [h] at hlt
      exact lt_irrefl _ hlt
    have hgap := double_int_gap m hd (by linarith) hb T hne
    have hposd : 0 < m - T := by
      rw [div_lt_div_iff_of_pos_right (by norm_num)] at hlt
      linarith
    rw [abs_of_pos hposd] at hgap
    have e3 : m / 1000 / 2 ^ 53 < m / 1000 - (T : ℚ) / 1000 := by
      rw [← sub_div, div_right_comm]
      rw [div_lt_div_iff_of_pos_right (by norm_num)]
      linarith
    linarith

/-- C15: for a double `m ≥ 0` below 1000 the result is `Math.round(m)`, a
nearest whole number, in decimal followed by `m`; from 1000 on (and below
2^53) it is the number of tenths nearest to the double quotient `m / 1000`,
which is also a number of tenths nearest to the exact `m/1000`, written with
one digit after the point followed by `km`; 850 gives `850m` and 1500 gives
`1.5km`. -/
theorem formatDistance_spec (m : ℚ) (hd : roundDouble m = m) (h0 : 0 ≤ m) :
    (m < 1000 →
      formatDistance m = toString (mathRound m) ++ "m" ∧ 0 ≤ mathRound m ∧
      |(mathRound m : ℚ) - m| ≤ 1 / 2) ∧
    (1000 ≤ m → m < 2 ^ 53 →
      ∃ n : ℕ, n = ⌊roundDouble (m / 1000) * 10 + 1 / 2⌋₊ ∧
        |(n : ℚ) / 10 - m / 1000| ≤ 1 / 20 ∧
        formatDistance m = toString (n / 10) ++ "." ++ toString (n % 10) ++ "km" ∧
        (toString (n % 10)).length = 1) ∧
    formatDistance 850 = "850m" ∧
    formatDistance 1500 = "1.5km" := by
  refine ⟨?_, ?_, ?_, ?_⟩
  · intro hlt
    refine ⟨by simp [formatDistance, hlt], ?_, ?_⟩
    · unfold mathRound
      exact Int.floor_nonneg.mpr (by linarith)
    · unfold mathRound
      have h1 := Int.floor_le (m + 1 / 2)
      have h2 := Int.lt_floor_add_one (m + 1 / 2)
      rw [abs_le]
      constructor <;> linarith
  · intro hge hb
    have hx : (1 : ℚ) ≤ m / 1000 := by rw [le_div_iff₀ (by norm_num)]; linarith
    have herr := roundDouble_error (m / 1000) hx
    rw [abs_le] at herr
    obtain ⟨e1, e2⟩ := herr
    have hsmall : m / 1000 / 2 ^ 53 < m / 1000 := by
      rw [div_lt_iff₀ (by norm_num)]
      nlinarith
    have hq : 0 ≤ roundDouble (m / 1000) := by linarith
    have hnot : ¬ m < 1000 := not_lt.mpr hge
    have hnn : ¬ roundDouble (m / 1000) < 0 := not_lt.mpr hq
    have f1 := Nat.floor_le (show (0 : ℚ) ≤ roundDouble (m / 1000) * 10 + 1 / 2 by positivity)
    have f2 := Nat.lt_floor_add_one (roundDouble (m / 1000) * 10 + 1 / 2)
    refine ⟨⌊roundDouble (m / 1000) * 10 + 1 / 2⌋₊, rfl, ?_, ?_, ?_⟩
    · rw [abs_le]
      constructor
      · by_contra hcon
        push_neg at hcon
        have hs := (roundDouble_same_side m hd hge hb
          (100 * (⌊roundDouble (m / 1000) * 10 + 1 / 2⌋₊ : ℤ) + 50)).2
          (by push_cast; linarith)
        push_cast at hs
        linarith
      · by_contra hcon
        push_neg at hcon
        have hs := (roundDouble_same_side m hd hge hb
          (100 * (⌊roundDouble (m / 1000) * 10 + 1 / 2⌋₊ : ℤ) - 50)).1
          (by push_cast; linarith)
        push_cast at hs
        linarith
    · simp [formatDistance, toFixed1, fixedDigits, hnot, hnn]
    · exact toString_digit_length _ (Nat.mod_lt _ (by norm_num))
  · have h : mathRound (850 : ℚ) = 850 := by
      have := mathRound_natCast (α := ℚ) 850
      simpa using this
    have hlt : (850 : ℚ) < 1000 := by norm_num
    simp only [formatDistance, hlt, ↓reduceIte, h]
    rfl
  · have hnot : ¬ (1500 : ℚ) < 1000 := by norm_num
    have hr : roundDouble (1500 / 1000) = 3 / 2 :=
      roundDouble_of_bounds _ _ 0 6755399441055744 (by norm_num) (by norm_num [abs_of_pos])
        (by norm_num [abs_of_pos]) (by norm_num [abs_lt]) (by norm_num)
    have hnn : ¬ (3 / 2 : ℚ) < 0 := by norm_num
    have hfl : ⌊(3 / 2 : ℚ) * 10 + 1 / 2⌋₊ = 15 := by
      rw [Nat.floor_eq_iff (by norm_num)]
      constructor <;> norm_num
    simp only [formatDistance, toFixed1, hnot, hr, hnn, ↓reduceIte, hfl]
    rfl

/-- C15, at 1450 meters: the double quotient lies just below 1.45, the result
is the digits of 14 tenths, within 1/20 of the exact 1.45. -/
theorem formatDistance_spec_witness :
    roundDouble 1450 = 1450 ∧ (0 : ℚ) ≤ 1450 ∧ (1000 : ℚ) ≤ 1450 ∧ (1450 : ℚ) < 2 ^ 53 ∧
    ∃ n : ℕ, n = ⌊roundDouble (1450 / 1000) * 10 + 1 / 2⌋₊ ∧
      |(n : ℚ) / 10 - 1450 / 1000| ≤ 1 / 20 ∧
      formatDistance 1450 = toString (n / 10) ++ "." ++ toString (n % 10) ++ "km" ∧
      (toString (n % 10)).length = 1 :=
  ⟨roundDouble_of_bounds _ _ 10 6377167441100800 (by norm_num) (by norm_num [abs_of_pos])
      (by norm_num [abs_of_pos]) (by norm_num [abs_lt]) (by norm_num),
    by norm_num, by norm_num, by norm_num,
    (formatDistance_spec 1450
      (roundDouble_of_bounds _ _ 10 6377167441100800 (by norm_num) (by norm_num [abs_of_pos])
        (by norm_num [abs_of_pos]) (by norm_num [abs_lt]) (by norm_num))
      (by norm_num)).2.1 (by norm_num) (by norm_num)⟩

/-- The quotient 1450 / 1000 is the double just below 1.45, so 1450 meters are
written `1.4km`; 1550 / 1000 is the double just above 1.55 and 1550 meters
are written `1.6km`. -/
theorem formatDistance_near_tie :
    roundDouble (1450 / 1000) = 6530219459687219 / 4503599627370496 ∧
    formatDistance 1450 = "1.4km" ∧ formatDistance 1550 = "1.6km" := by
  have hr : roundDouble (1450 / 1000) = 6530219459687219 / 4503599627370496 :=
    roundDouble_of_bounds _ _ 0 6530219459687219 (by norm_num) (by norm_num [abs_of_pos])
      (by norm_num [abs_of_pos]) (by norm_num [abs_lt]) (by norm_num)
  have hr2 : roundDouble (1550 / 1000) = 6980579422424269 / 4503599627370496 :=
    roundDouble_of_bounds _ _ 0 6980579422424269 (by norm_num) (by norm_num [abs_of_pos])
      (by norm_num [abs_of_pos]) (by norm_num [abs_lt]) (by norm_num)
  refine ⟨hr, ?_, ?_⟩
  · have hnot : ¬ (1450 : ℚ) < 1000 := by norm_num
    have hnn : ¬ (6530219459687219 / 4503599627370496 : ℚ) < 0 := by norm_num
    have hfl : ⌊(6530219459687219 / 4503599627370496 : ℚ) * 10 + 1 / 2⌋₊ = 14 := by
      rw [Nat.floor_eq_iff (by norm_num)]
      constructor <;> norm_num
    simp only [formatDistance, toFixed1, hnot, hr, hnn, ↓reduceIte, hfl]
    rfl
  · have hnot : ¬ (1550 : ℚ) < 1000 := by norm_num
    have hnn : ¬ (6980579422424269 / 4503599627370496 : ℚ) < 0 := by norm_num
    have hfl : ⌊(6980579422424269 / 4503599627370496 : ℚ) * 10 + 1 / 2⌋₊ = 16 := by
      rw [Nat.floor_eq_iff (by norm_num)]
      constructor <;> norm_num
    simp only [formatDistance, toFixed1, hnot, hr2, hnn, ↓reduceIte, hfl]
    rfl

/-- C16: the description is `Muy precisa` exactly for `x ≤ 10`, `Precisa`
exactly for `10 < x ≤ 50`, `Moderada` exactly for `50 < x ≤ 100` and
`Aproximada` exactly for `x > 100`; the values 5, 30, 80, 500 and the
boundaries 10, 50, 100 fall as stated. -/
theorem getAccuracyDescription_buckets {α : Type} [LinearOrderedField α] (x : α) :
    (getAccuracyDescription x = "Muy precisa" ↔ x ≤ 10) ∧
    (getAccuracyDescription x = "Precisa" ↔ 10 < x ∧ x ≤ 50) ∧
    (getAccuracyDescription x = "Moderada" ↔ 50 < x ∧ x ≤ 100) ∧
    (getAccuracyDescription x = "Aproximada" ↔ 100 < x) ∧
    getAccuracyDescription (5 : α) = "Muy precisa" ∧
    getAccuracyDescription (30 : α) = "Precisa" ∧
    getAccuracyDescription (80 : α) = "Moderada" ∧
    getAccuracyDescription (500 : α) = "Aproximada" ∧
    getAccuracyDescription (10 : α) = "Muy precisa" ∧
    getAccuracyDescription (50 : α) = "Precisa" ∧
    getAccuracyDescription (100 : α) = "Moderada" := by
  refine ⟨?_, ?_, ?_, ?_, ?_, ?_, ?_, ?_, ?_, ?_, ?_⟩
  · unfold getAccuracyDescription
    split_ifs with h1 h2 h3 <;> simp [h1]
  · unfold getAccuracyDescription
    split_ifs with h1 h2 h3
    · simp only [(by decide : "Muy precisa" ≠ "Precisa"), false_iff]
      intro h; exact absurd h1 (not_le.mpr h.1)
    · simp only [true_iff]; exact ⟨not_le.mp h1, h2⟩
    · simp only [(by decide : "Moderada" ≠ "Precisa"), false_iff]
      intro h; exact h2 h.2
    · simp only [(by decide : "Aproximada" ≠ "Precisa"), false_iff]
      intro h; exact h2 h.2
  · unfold getAccuracyDescription
    split_ifs with h1 h2 h3
    · simp only [(by decide : "Muy precisa" ≠ "Moderada"), false_iff]
      intro h; exact absurd (le_trans h1 (by norm_num)) (not_le.mpr h.1)
    · simp only [(by decide : "Precisa" ≠ "Moderada"), false_iff]
      intro h; exact absurd h2 (not_le.mpr h.1)
    · simp only [true_iff]; exact ⟨not_le.mp h2, h3⟩
    · simp only [(by decide : "Aproximada" ≠ "Moderada"), false_iff]
      intro h; exact h3 h.2
  · unfold getAccuracyDescription
    split_ifs with h1 h2 h3
    · simp only [(by decide : "Muy precisa" ≠ "Aproximada"), false_iff]
      intro h; exact absurd (le_trans h1 (by norm_num)) (not_le.mpr h)
    · simp only [(by decide : "Precisa" ≠ "Aproximada"), false_iff]
      intro h; exact absurd (le_trans h2 (by norm_num)) (not_le.mpr h)
    · simp only [(by decide : "Moderada" ≠ "Aproximada"), false_iff]
      intro h; exact absurd h3 (not_le.mpr h)
    · simp only [true_iff]; exact not_le.mp h3
  all_goals (unfold getAccuracyDescription; norm_num)

/-! ## Form validation -/

theorem flatten_map_singleton {β : Type} (l : List β) :
    (l.map (fun c => [c])).flatten = l := by
  induction l with
  | nil => rfl
  | cons a as ih => simp [ih]

theorem wordClass_rmatch_iff (x : List CharClass) :
    wordClass.rmatch x = true ↔ x = [.dot] ∨ x = [.other] := by
  unfold wordClass
  rw [RegularExpression.add_rmatch_iff, RegularExpression.char_rmatch_iff,
    RegularExpression.char_rmatch_iff]

theorem wordPlus_rmatch_iff (x : List CharClass) :
    (wordClass * .star wordClass).rmatch x = true ↔
      x ≠ [] ∧ ∀ k ∈ x, k = CharClass.dot ∨ k = CharClass.other := by
  rw [RegularExpression.mul_rmatch_iff]
  constructor
  · rintro ⟨t, u, rfl, ht, hu⟩
    rw [wordClass_rmatch_iff] at ht
    rw [RegularExpression.star_rmatch_iff] at hu
    obtain ⟨S, rfl, hS⟩ := hu
    have hflat : ∀ k ∈ S.flatten, k = CharClass.dot ∨ k = CharClass.other := by
      intro k hk
      rw [List.mem_flatten] at hk
      obtain ⟨y, hy, hky⟩ := hk
      have := (wordClass_rmatch_iff y).mp (hS y hy).2
      rcases this with rfl | rfl <;> simp at hky <;> simp [hky]
    constructor
    · rcases ht with rfl | rfl <;> simp
    · intro k hk
      rw [List.mem_append] at hk
      rcases hk with hk | hk
      · rcases ht with rfl | rfl <;> simp at hk <;> simp [hk]
      · exact hflat k hk
  · rintro ⟨hne, hall⟩
    cases x with
    | nil => exact absurd rfl hne
    | cons k ks =>
      refine ⟨[k], ks, rfl, ?_, ?_⟩
      · rw [wordClass_rmatch_iff]
        rcases hall k (List.mem_cons_self _ _) with rfl | rfl <;> simp
      · rw [RegularExpression.star_rmatch_iff]
        refine ⟨ks.map (fun c => [c]), ?_, ?_⟩
        · exact (flatten_map_singleton ks).symm
        · intro t ht
          rw [List.mem_map] at ht
          obtain ⟨c, hc, rfl⟩ := ht
          refine ⟨by simp, ?_⟩
          rw [wordClass_rmatch_iff]
          rcases hall c (List.mem_cons_of_mem _ hc) with rfl | rfl <;> simp

theorem classify_eq_atSign (c : Char) : classify c = .atSign ↔ c = '@' := by
  unfold classify
  split_ifs <;> simp [*]

theorem classify_eq_dot (c : Char) : classify c = .dot ↔ c = '.' := by
  unfold classify
  split_ifs with h1 h2 h3 <;> simp [*]

theorem classify_word (c : Char) :
    (classify c = .dot ∨ classify c = .other) ↔ isJsWhitespace c = false ∧ c ≠ '@' := by
  unfold classify
  split_ifs with h1 h2 h3
  · simp [h1]
  · simp [h1, h2]; decide
  · simp [h1, h3]
  · simp [h1, h3]

theorem wordPlus_map_iff (x : List Char) :
    (wordClass * .star wordClass).rmatch (x.map classify) = true ↔ IsWord x := by
  rw [wordPlus_rmatch_iff]
  unfold IsWord
  constructor
  · rintro ⟨hne, hall⟩
    refine ⟨by simpa using hne, ?_⟩
    intro c hc
    exact (classify_word c).mp (hall _ (List.mem_map_of_mem _ hc))
  · rintro ⟨hne, hall⟩
    refine ⟨by simpa using hne, ?_⟩
    intro k hk
    rw [List.mem_map] at hk
    obtain ⟨c, hc, rfl⟩ := hk
    exact (classify_word c).mpr (hall c hc)

theorem isValidEmail_iff_split (s : String) :
    isValidEmail s = true ↔
      ∃ a b c, s.data = a ++ '@' :: (b ++ '.' :: c) ∧ IsWord a ∧ IsWord b ∧ IsWord c := by
  unfold isValidEmail emailRegex
  simp only [RegularExpression.mul_rmatch_iff, RegularExpression.char_rmatch_iff]
  constructor
  · rintro ⟨t5, u5, h5, ⟨t4, u4, rfl, ⟨t3, u3, rfl, ⟨t2, u2, rfl, ⟨t1, u1, rfl, h1a, h1b⟩, rfl⟩,
      ⟨t6, u6, rfl, h6a, h6b⟩⟩, rfl⟩, ⟨t7, u7, rfl, h7a, h7b⟩⟩
    have hA := (wordPlus_rmatch_iff (t1 ++ u1)).mp
      ((RegularExpression.mul_rmatch_iff _ _ _).mpr ⟨t1, u1, rfl, h1a, h1b⟩)
    have hB := (wordPlus_rmatch_iff (t6 ++ u6)).mp
      ((RegularExpression.mul_rmatch_iff _ _ _).mpr ⟨t6, u6, rfl, h6a, h6b⟩)
    have hC := (wordPlus_rmatch_iff (t7 ++ u7)).mp
      ((RegularExpression.mul_rmatch_iff _ _ _).mpr ⟨t7, u7, rfl, h7a, h7b⟩)
    generalize t1 ++ u1 = A at h5 hA
    generalize t6 ++ u6 = B at h5 hB
    generalize t7 ++ u7 = C at h5 hC
    rw [List.map_eq_append_iff] at h5
    obtain ⟨l1, c, hs, hl1, hc⟩ := h5
    rw [List.map_eq_append_iff] at hl1
    obtain ⟨l2, dlist, rfl, hl2, hd⟩ := hl1
    rw [List.map_eq_append_iff] at hl2
    obtain ⟨l3, b, rfl, hl3, hb⟩ := hl2
    rw [List.map_eq_append_iff] at hl3
    obtain ⟨a, alist, rfl, ha, hat⟩ := hl3
    rw [List.map_eq_cons_iff] at hat hd
    obtain ⟨ca, ra, rfl, hca, hra⟩ := hat
    obtain ⟨cd, rd, rfl, hcd, hrd⟩ := hd
    rw [List.map_eq_nil_iff] at hra hrd
    subst hra hrd
    rw [classify_eq_atSign] at hca
    rw [classify_eq_dot] at hcd
    subst hca hcd
    refine ⟨a, b, c, by simp [hs], ?_, ?_, ?_⟩
    · exact (wordPlus_map_iff a).mp ((wordPlus_rmatch_iff _).mpr (ha ▸ hA))
    · exact (wordPlus_map_iff b).mp ((wordPlus_rmatch_iff _).mpr (hb ▸ hB))
    · exact (wordPlus_map_iff c).mp ((wordPlus_rmatch_iff _).mpr (hc ▸ hC))
  · rintro ⟨a, b, c, hs, ha, hb, hc⟩
    have hA := (RegularExpression.mul_rmatch_iff _ _ _).mp ((wordPlus_map_iff a).mpr ha)
    have hB := (RegularExpression.mul_rmatch_iff _ _ _).mp ((wordPlus_map_iff b).mpr hb)
    have hC := (RegularExpression.mul_rmatch_iff _ _ _).mp ((wordPlus_map_iff c).mpr hc)
    obtain ⟨t1, u1, e1, h1a, h1b⟩ := hA
    obtain ⟨t6, u6, e6, h6a, h6b⟩ := hB
    obtain ⟨t7, u7, e7, h7a, h7b⟩ := hC
    refine ⟨a.map classify ++ [CharClass.atSign] ++ b.map classify ++ [CharClass.dot],
      c.map classify, ?_, ⟨a.map classify ++ [CharClass.atSign] ++ b.map classify,
        [CharClass.dot], rfl, ⟨a.map classify ++ [CharClass.atSign], b.map classify, rfl,
          ⟨a.map classify, [CharClass.atSign], rfl, ⟨t1, u1, e1, h1a, h1b⟩, rfl⟩,
          ⟨t6, u6, e6, h6a, h6b⟩⟩, rfl⟩, ⟨t7, u7, e7, h7a, h7b⟩⟩
    rw [hs]
    simp [classify]

/-- C17 fails as stated: with a malformed email field before an empty
required field, the focus goes to the required field, which is not the first
invalid field in document order. -/
theorem validateForm_focus_counterexample :
    (validateForm (some [⟨"correo", false, true, "ana@"⟩, ⟨"nombre", true, false, ""⟩])).focused
      = some ⟨"nombre", true, false, ""⟩ ∧
    firstInvalid [⟨"correo", false, true, "ana@"⟩, ⟨"nombre", true, false, ""⟩]
      = some ⟨"correo", false, true, "ana@"⟩ ∧
    (validateForm (some [⟨"correo", false, true, "ana@"⟩, ⟨"nombre", true, false, ""⟩])).focused
      ≠ firstInvalid [⟨"correo", false, true, "ana@"⟩, ⟨"nombre", true, false, ""⟩] := by
  decide

/-- C17 amended: for a form in which exactly one field fails the required
test and exactly one fails the email test, `validateForm` returns false,
attaches exactly two messages, the one of the required field first, and gives
the focus to the required field in either document order; that field or the
email field is the first invalid one in document order. -/
theorem validateForm_required_first (fields : List FormField) (r e : FormField)
    (hr : fields.filter failsRequired = [r]) (he : fields.filter failsEmail = [e]) :
    validateForm (some fields) =
      ⟨false, [(r, "Este campo es obligatorio"), (e, "Por favor ingresa un email válido")],
        some r, some ("Se encontraron 2 errores en el formulario", "error", 4000)⟩ ∧
    (firstInvalid fields = some r ∨ firstInvalid fields = some e) := by
  constructor
  · have hmsg : "Se encontraron " ++ toString 2 ++ " errores en el formulario"
        = "Se encontraron 2 errores en el formulario" := by decide
    simp [validateForm, hr, he, hmsg]
  · unfold firstInvalid
    have hrm : r ∈ fields.filter failsRequired := by rw [hr]; simp
    have hrf := (List.mem_filter.mp hrm)
    cases hfind : fields.find? (fun f => failsRequired f || failsEmail f) with
    | none =>
      rw [List.find?_eq_none] at hfind
      have := hfind r hrf.1
      simp [hrf.2] at this
    | some x =>
      have hx := List.find?_some hfind
      have hxmem := List.mem_of_find?_eq_some hfind
      simp only [Bool.or_eq_true] at hx
      rcases hx with hx | hx
      · left
        have : x ∈ fields.filter failsRequired := List.mem_filter.mpr ⟨hxmem, hx⟩
        rw [hr] at this
        simp at this
        rw [this]
      · right
        have : x ∈ fields.filter failsEmail := List.mem_filter.mpr ⟨hxmem, hx⟩
        rw [he] at this
        simp at this
        rw [this]

/-- C17 amended, at a form with a blank required name before a malformed
email. -/
theorem validateForm_required_first_witness :
    List.filter failsRequired [⟨"nombre", true, false, "  "⟩, ⟨"correo", false, true, "ana@"⟩]
      = [⟨"nombre", true, false, "  "⟩] ∧
    List.filter failsEmail [⟨"nombre", true, false, "  "⟩, ⟨"correo", false, true, "ana@"⟩]
      = [⟨"correo", false, true, "ana@"⟩] ∧
    (validateForm (some [⟨"nombre", true, false, "  "⟩,
      ⟨"correo", false, true, "ana@"⟩])).focused = some ⟨"nombre", true, false, "  "⟩ :=
  ⟨by decide, by decide,
    congrArg ValidationOutcome.focused
      (validateForm_required_first _ ⟨"nombre", true, false, "  "⟩
        ⟨"correo", false, true, "ana@"⟩ (by decide) (by decide)).1⟩

/-- C18: `isValidEmail` accepts a string exactly when it has no white space,
exactly one `@`, at least one character before the `@`, and after the `@` a
`.` with at least one character before it and at least one after it. -/
theorem isValidEmail_iff (s : String) :
    isValidEmail s = true ↔
      (∀ c ∈ s.data, isJsWhitespace c = false) ∧
      s.data.count '@' = 1 ∧
      ∃ a d, s.data = a ++ '@' :: d ∧ a ≠ [] ∧
        ∃ b c, d = b ++ '.' :: c ∧ b ≠ [] ∧ c ≠ [] := by
  rw [isValidEmail_iff_split]
  constructor
  · rintro ⟨a, b, c, hs, ha, hb, hc⟩
    have hna : '@' ∉ a := fun h => (ha.2 _ h).2 rfl
    have hnb : '@' ∉ b := fun h => (hb.2 _ h).2 rfl
    have hnc : '@' ∉ c := fun h => (hc.2 _ h).2 rfl
    refine ⟨?_, ?_, a, b ++ '.' :: c, hs, ha.1, b, c, rfl, hb.1, hc.1⟩
    · intro ch hch
      rw [hs] at hch
      simp only [List.mem_append, List.mem_cons] at hch
      rcases hch with h | rfl | h | rfl | h
      · exact (ha.2 _ h).1
      · decide
      · exact (hb.2 _ h).1
      · decide
      · exact (hc.2 _ h).1
    · rw [hs]
      simp [List.count_cons, List.count_eq_zero.mpr hna, List.count_eq_zero.mpr hnb,
        List.count_eq_zero.mpr hnc]
  · rintro ⟨hws, hcount, a, d, hs, hane, b, c, rfl, hbne, hcne⟩
    rw [hs] at hcount
    simp only [List.count_append, List.count_cons, beq_self_eq_true, ↓reduceIte] at hcount
    have hdot : (('.' : Char) == '@') = false := by decide
    simp only [hdot, Bool.false_eq_true, ↓reduceIte, add_zero] at hcount
    have hna : '@' ∉ a := List.count_eq_zero.mp (by omega)
    have hnb : '@' ∉ b := List.count_eq_zero.mp (by omega)
    have hnc : '@' ∉ c := List.count_eq_zero.mp (by omega)
    refine ⟨a, b, c, hs, ⟨hane, ?_⟩, ⟨hbne, ?_⟩, ⟨hcne, ?_⟩⟩
    · intro ch hch
      exact ⟨hws ch (by rw [hs]; simp [hch]), fun h => hna (h ▸ hch)⟩
    · intro ch hch
      exact ⟨hws ch (by rw [hs]; simp [hch]), fun h => hnb (h ▸ hch)⟩
    · intro ch hch
      exact ⟨hws ch (by rw [hs]; simp [hch]), fun h => hnc (h ▸ hch)⟩

/-- C18, at the address `ana@correo.es`. -/
theorem isValidEmail_iff_witness :
    isValidEmail "ana@correo.es" = true ∧ "ana@correo.es".data.count '@' = 1 :=
  ⟨by decide, ((isValidEmail_iff "ana@correo.es").mp (by decide)).2.1⟩

/-! ## Toast markup -/

theorem dataTextFrom_skip (l rest : List Char) :
    dataTextFrom l.length (l ++ rest) = dataTextFrom 0 rest := by
  induction l with
  | nil => rfl
  | cons c cs ih => simpa [dataTextFrom] using ih

theorem dataText_ref (name : List Char) (ch : Char) (tail : List Char)
    (href : charRef (name ++ tail) = some (ch, name.length)) :
    dataTextFrom 0 ('&' :: (name ++ tail)) =
      (ch :: (dataTextFrom 0 tail).1, (dataTextFrom 0 tail).2) := by
  rw [dataTextFrom]
  simp only [href, dataTextFrom_skip]
  simp

theorem dataText_escape (m rest : List Char) :
    dataText (m.flatMap escapeChar ++ '<' :: rest) = (m, '<' :: rest) := by
  unfold dataText
  induction m with
  | nil => simp [dataTextFrom]
  | cons c cs ih =>
    rw [List.flatMap_cons, List.append_assoc]
    by_cases h1 : c = '&'
    · subst h1
      have he : escapeChar '&' = '&' :: "amp;".data := rfl
      rw [he, List.cons_append, dataText_ref "amp;".data '&' _ (by simp [charRef]), ih]
    · by_cases h2 : c = nbsp
      · subst h2
        have he : escapeChar nbsp = '&' :: "nbsp;".data := rfl
        rw [he, List.cons_append, dataText_ref "nbsp;".data nbsp _ (by simp [charRef]), ih]
      · by_cases h3 : c = '<'
        · subst h3
          have he : escapeChar '<' = '&' :: "lt;".data := rfl
          rw [he, List.cons_append, dataText_ref "lt;".data '<' _ (by simp [charRef]), ih]
        · by_cases h4 : c = '>'
          · subst h4
            have he : escapeChar '>' = '&' :: "gt;".data := rfl
            rw [he, List.cons_append, dataText_ref "gt;".data '>' _ (by simp [charRef]), ih]
          · have he : escapeChar c = [c] := by simp [escapeChar, h1, h2, h3, h4]
            rw [he, List.singleton_append, dataTextFrom]
            simp [h1, h3, ih]

theorem escape_no_markup (m : List Char) :
    ∀ c ∈ m.flatMap escapeChar, c ≠ '<' ∧ c ≠ '>' := by
  intro c hc
  rw [List.mem_flatMap] at hc
  obtain ⟨a, _, hca⟩ := hc
  unfold escapeChar at hca
  split_ifs at hca with h1 h2 h3 h4
  · simp at hca; rcases hca with rfl | rfl | rfl | rfl | rfl <;> decide
  · simp at hca; rcases hca with rfl | rfl | rfl | rfl | rfl | rfl <;> decide
  · simp at hca; rcases hca with rfl | rfl | rfl | rfl <;> decide
  · simp at hca; rcases hca with rfl | rfl | rfl | rfl <;> decide
  · simp at hca
    subst hca
    exact ⟨h3, h4⟩

/-- C19: for a non-empty message the markup `showToast` inserts has
`escapeHtml(message)` inside the `span`; `&`, `<` and `>` are written as
`&amp;`, `&lt;` and `&gt;`; the escaped text has no `<` and no `>`, and the
tokenizer reads it as text equal to the message up to the `</span>` of the
template, so it opens no element. -/
theorem showToast_escapes (now : Nat) (message type : String) (duration : Nat)
    (hne : message ≠ "") :
    showToast now message type duration =
      some (toastOpen ("toast-" ++ toString now) (getToastBackground type) (toString duration)
        (getToastIcon type) ++ "<span>" ++ escapeHtml message ++ "</span>" ++ toastClose) ∧
    (escapeHtml message).data = message.data.flatMap escapeChar ∧
    escapeChar '&' = "&amp;".data ∧ escapeChar '<' = "&lt;".data ∧
    escapeChar '>' = "&gt;".data ∧
    (∀ c ∈ (escapeHtml message).data, c ≠ '<' ∧ c ≠ '>') ∧
    dataText (escapeHtml message ++ "</span>" ++ toastClose).data =
      (message.data, ("</span>" ++ toastClose).data) := by
  refine ⟨by simp [showToast, hne, toastHTML], rfl, rfl, rfl, rfl, ?_, ?_⟩
  · exact escape_no_markup message.data
  · have h : (escapeHtml message ++ "</span>" ++ toastClose).data =
        message.data.flatMap escapeChar ++ '<' :: ("/span>" ++ toastClose).data := by
      simp [escapeHtml, String.data_append]
    have h2 : ("</span>" ++ toastClose).data = '<' :: ("/span>" ++ toastClose).data := by
      simp [String.data_append]
    rw [h, h2, dataText_escape]

/-- C19, at a message with markup and an ampersand. -/
theorem showToast_escapes_witness :
    "<b>Ana</b> & Luis" ≠ "" ∧
    escapeHtml "<b>Ana</b> & Luis" = "&lt;b&gt;Ana&lt;/b&gt; &amp; Luis" ∧
    dataText (escapeHtml "<b>Ana</b> & Luis" ++ "</span>" ++ toastClose).data =
      ("<b>Ana</b> & Luis".data, ("</span>" ++ toastClose).data) :=
  ⟨by decide, by decide,
    (showToast_escapes 0 "<b>Ana</b> & Luis" "info" 4000 (by decide)).2.2.2.2.2.2⟩

/-! ## Theme persistence -/

/-- C20 fails as stated: on a page without the element `toggleContrast`,
`initializeThemeToggle` returns before it reads the storage, and
`isHighContrast` stays false although the storage holds `high-contrast`. -/
theorem theme_not_restored_without_toggle :
    getItem (enableHighContrast ⟨true⟩ (ThemeState.fresh [])).storage "recuerdame-theme"
      = some "high-contrast" ∧
    (initializeThemeToggle ⟨false⟩
      (ThemeState.fresh (enableHighContrast ⟨true⟩ (ThemeState.fresh [])).storage)).isHighContrast
      = false := by
  decide

/-- C20 amended: after `enableHighContrast` the key `recuerdame-theme` holds
`high-contrast`, and `initializeThemeToggle` from a fresh state over that
storage, on a page that has the element `toggleContrast`, sets
`isHighContrast` to true. -/
theorem theme_restored_with_toggle (page reloaded : ThemePage) (st : ThemeState)
    (hbtn : reloaded.hasToggleBtn = true) :
    getItem (enableHighContrast page st).storage "recuerdame-theme" = some "high-contrast" ∧
    (initializeThemeToggle reloaded
      (ThemeState.fresh (enableHighContrast page st).storage)).isHighContrast = true := by
  have hget : getItem (enableHighContrast page st).storage "recuerdame-theme"
      = some "high-contrast" := by
    simp [getItem, enableHighContrast, setItem, List.lookup]
  refine ⟨hget, ?_⟩
  have hfresh : getItem (ThemeState.fresh (enableHighContrast page st).storage).storage
      "recuerdame-theme" = some "high-contrast" := hget
  simp only [initializeThemeToggle, hbtn, Bool.not_true, Bool.false_eq_true, ↓reduceIte, hfresh]
  rfl

/-- C20 amended, at a page with the toggle and an empty storage before. -/
theorem theme_restored_with_toggle_witness :
    (⟨true⟩ : ThemePage).hasToggleBtn = true ∧
    (initializeThemeToggle ⟨true⟩
      (ThemeState.fresh (enableHighContrast ⟨true⟩
        (ThemeState.fresh [])).storage)).isHighContrast = true :=
  ⟨rfl, (theme_restored_with_toggle ⟨true⟩ ⟨true⟩ (ThemeState.fresh []) rfl).2⟩

/-! ## Fetch: cached requests and what is stored -/

theorem cacheMatch_some_get (c : Cache) (req : Request) (r : Response)
    (h : cacheMatch c req = some r) : req.method = "GET" := by
  unfold cacheMatch at h
  by_cases hm : req.method = "GET"
  · exact hm
  · simp [hm] at h

theorem cachesMatch_some_get (s : CacheStorage) (req : Request) (r : Response)
    (h : cachesMatch s req = some r) : req.method = "GET" := by
  induction s with
  | nil => simp [cachesMatch] at h
  | cons e rest ih =>
    obtain ⟨n, c⟩ := e
    unfold cachesMatch at h
    cases hc : cacheMatch c req with
    | some r1 => exact cacheMatch_some_get c req r1 hc
    | none =>
      rw [hc] at h
      exact ih h

theorem openAndPut_lookup (s : CacheStorage) (name : String) (req : Request) (resp : Response)
    (hget : req.method = "GET") :
    ((openAndPut s name req resp).lookup name).bind (fun c => cacheMatch c req) = some resp := by
  induction s with
  | nil => simp [openAndPut, hget, cachePut, cacheMatch, List.lookup]
  | cons e rest ih =>
    obtain ⟨n, c⟩ := e
    unfold openAndPut
    by_cases hn : n = name
    · subst hn
      simp [hget, cachePut, cacheMatch, List.lookup]
    · have hn2 : (name == n) = false := by
        simpa using fun h => hn h.symm
      simp only [beq_iff_eq, hn, ↓reduceIte, List.lookup, hn2]
      exact ih

/-- C22: for an intercepted request found in the cache, a `document` request
goes to the network first: a fetched response with status 200 is stored in
the cache `CACHE_NAME` under the request and returned, and a failed fetch is
answered with the cached copy; a request with any other destination is
answered with the cached copy and no network fetch is made. -/
theorem fetch_cached_document_network_first (s : CacheStorage) (req : Request)
    (cached : Response) (hint : intercepts req = true)
    (hhit : cachesMatch s req = some cached) :
    (req.destination = "document" →
      (∀ resp : Response, resp.status = 200 →
        fetchHandler s req (.ok resp)
          = ⟨.respond (.ok resp), true, openAndPut s CACHE_NAME req resp⟩ ∧
        ((openAndPut s CACHE_NAME req resp).lookup CACHE_NAME).bind
          (fun c => cacheMatch c req) = some resp) ∧
      (∀ e : JSError, fetchHandler s req (.error e) = ⟨.respond (.ok cached), true, s⟩)) ∧
    (req.destination ≠ "document" →
      ∀ network, fetchHandler s req network = ⟨.respond (.ok cached), false, s⟩) := by
  simp only [intercepts, Bool.and_eq_true, Bool.not_eq_true', Bool.or_eq_false_iff] at hint
  obtain ⟨h1, h2, h3⟩ := hint
  have hget := cachesMatch_some_get s req cached hhit
  refine ⟨fun hd => ⟨fun resp hs => ⟨?_, openAndPut_lookup s CACHE_NAME req resp hget⟩,
    fun e => ?_⟩, fun hd network => ?_⟩
  · simp [fetchHandler, h1, h2, h3, hhit, hd, cacheIfOk, hs]
  · simp [fetchHandler, h1, h2, h3, hhit, hd]
  · simp [fetchHandler, h1, h2, h3, hhit, hd]

/-- C22, at a cached navigation whose fetch returns status 200. -/
theorem fetch_cached_document_network_first_witness :
    intercepts ⟨"https://recuerdame.example/dashboard", "GET", "document"⟩ = true ∧
    cachesMatch [(CACHE_NAME, [("https://recuerdame.example/dashboard", ⟨200, [], "old"⟩)])]
      ⟨"https://recuerdame.example/dashboard", "GET", "document"⟩ = some ⟨200, [], "old"⟩ ∧
    fetchHandler [(CACHE_NAME, [("https://recuerdame.example/dashboard", ⟨200, [], "old"⟩)])]
      ⟨"https://recuerdame.example/dashboard", "GET", "document"⟩ (.ok ⟨200, [], "new"⟩)
      = ⟨.respond (.ok ⟨200, [], "new"⟩), true,
          openAndPut [(CACHE_NAME, [("https://recuerdame.example/dashboard", ⟨200, [], "old"⟩)])]
            CACHE_NAME ⟨"https://recuerdame.example/dashboard", "GET", "document"⟩
            ⟨200, [], "new"⟩⟩ :=
  ⟨rfl, rfl,
    (((fetch_cached_document_network_first
      [(CACHE_NAME, [("https://recuerdame.example/dashboard", ⟨200, [], "old"⟩)])]
      ⟨"https://recuerdame.example/dashboard", "GET", "document"⟩ ⟨200, [], "old"⟩
      rfl rfl).1 rfl).1 ⟨200, [], "new"⟩ rfl).1⟩

/-- C23: a request whose URL contains `maps.googleapis.com` or `gstatic.com`,
or does not start with `http`, is left to the browser: the handler does not
respond, makes no fetch, leaves the cache storage as it was, and does so
whatever the cache storage holds. -/
theorem fetch_skips_maps_and_non_http (s : CacheStorage) (req : Request)
    (network : Except JSError Response)
    (h : jsIncludes req.url "maps.googleapis.com" = true ∨
      jsIncludes req.url "gstatic.com" = true ∨ jsStartsWith req.url "http" = false) :
    fetchHandler s req network = ⟨.passthrough, false, s⟩ ∧
    ∀ (s2 : CacheStorage) (network2 : Except JSError Response),
      (fetchHandler s2 req network2).result = .passthrough ∧
      (fetchHandler s2 req network2).networkFetched = false ∧
      (fetchHandler s2 req network2).storage = s2 := by
  have key : ∀ (s2 : CacheStorage) (network2 : Except JSError Response),
      fetchHandler s2 req network2 = ⟨.passthrough, false, s2⟩ := by
    intro s2 network2
    unfold fetchHandler
    cases h1 : jsStartsWith req.url "http"
    · simp
    · rcases h with h | h | h
      · simp [h]
      · simp [h]
      · rw [h1] at h
        simp at h
  refine ⟨key s network, fun s2 network2 => ?_⟩
  rw [key s2 network2]
  exact ⟨rfl, rfl, rfl⟩

/-- C23, at a map tile request, a font request and an extension URL. -/
theorem fetch_skips_maps_and_non_http_witness :
    jsIncludes "https://maps.googleapis.com/maps/api/js" "maps.googleapis.com" = true ∧
    jsIncludes "https://fonts.gstatic.com/s/roboto.woff2" "gstatic.com" = true ∧
    jsStartsWith "chrome-extension://abc/page.js" "http" = false ∧
    fetchHandler [] ⟨"https://maps.googleapis.com/maps/api/js", "GET", "script"⟩
      (.error (.error "Failed to fetch")) = ⟨.passthrough, false, []⟩ ∧
    fetchHandler [] ⟨"https://fonts.gstatic.com/s/roboto.woff2", "GET", "font"⟩
      (.error (.error "Failed to fetch")) = ⟨.passthrough, false, []⟩ ∧
    fetchHandler [] ⟨"chrome-extension://abc/page.js", "GET", "script"⟩
      (.error (.error "Failed to fetch")) = ⟨.passthrough, false, []⟩ :=
  ⟨by decide, by decide, by decide,
    (fetch_skips_maps_and_non_http [] ⟨"https://maps.googleapis.com/maps/api/js", "GET", "script"⟩
      (.error (.error "Failed to fetch")) (Or.inl (by decide))).1,
    (fetch_skips_maps_and_non_http [] ⟨"https://fonts.gstatic.com/s/roboto.woff2", "GET", "font"⟩
      (.error (.error "Failed to fetch")) (Or.inr (Or.inl (by decide)))).1,
    (fetch_skips_maps_and_non_http [] ⟨"chrome-extension://abc/page.js", "GET", "script"⟩
      (.error (.error "Failed to fetch")) (Or.inr (Or.inr (by decide)))).1⟩

/-- C26: for a cached `document` request whose fetch succeeds with a status
other than 200 the handler returns the network response and leaves the cache
storage, hence the cached entry, as it was; and whatever the request, the
handler changes the cache storage only by storing a fetched response whose
status is 200. -/
theorem fetch_stores_only_status_200 (s : CacheStorage) (req : Request)
    (cached resp : Response) (hint : intercepts req = true)
    (hhit : cachesMatch s req = some cached) (hdoc : req.destination = "document")
    (hstatus : resp.status ≠ 200) :
    fetchHandler s req (.ok resp) = ⟨.respond (.ok resp), true, s⟩ ∧
    cachesMatch (fetchHandler s req (.ok resp)).storage req = some cached ∧
    ∀ (s2 : CacheStorage) (req2 : Request) (network : Except JSError Response),
      (fetchHandler s2 req2 network).storage = s2 ∨
      ∃ r : Response, network = .ok r ∧ r.status = 200 ∧
        (fetchHandler s2 req2 network).storage = openAndPut s2 CACHE_NAME req2 r := by
  simp only [intercepts, Bool.and_eq_true, Bool.not_eq_true', Bool.or_eq_false_iff] at hint
  obtain ⟨h1, h2, h3⟩ := hint
  have hfirst : fetchHandler s req (.ok resp) = ⟨.respond (.ok resp), true, s⟩ := by
    simp [fetchHandler, h1, h2, h3, hhit, hdoc, cacheIfOk, hstatus]
  refine ⟨hfirst, ?_, ?_⟩
  · rw [hfirst]
    exact hhit
  · intro s2 req2 network
    rcases network with e | r
    · left
      unfold fetchHandler
      cases cachesMatch s2 req2 <;> simp only [] <;> split_ifs <;> rfl
    · by_cases hs : r.status = 200
      · have hput : cacheIfOk s2 req2 r = openAndPut s2 CACHE_NAME req2 r := by
          simp [cacheIfOk, hs]
        unfold fetchHandler
        cases cachesMatch s2 req2 <;> simp only [] <;> split_ifs <;>
          first
          | exact Or.inl rfl
          | exact Or.inr ⟨r, rfl, hs, hput⟩
      · have hkeep : cacheIfOk s2 req2 r = s2 := by
          simp [cacheIfOk, hs]
        left
        unfold fetchHandler
        cases cachesMatch s2 req2 <;> simp only [] <;> split_ifs <;>
          first
          | rfl
          | exact hkeep

/-- C26, at a cached navigation whose fetch returns status 500. -/
theorem fetch_stores_only_status_200_witness :
    intercepts ⟨"https://recuerdame.example/dashboard", "GET", "document"⟩ = true ∧
    fetchHandler [(CACHE_NAME, [("https://recuerdame.example/dashboard", ⟨200, [], "old"⟩)])]
      ⟨"https://recuerdame.example/dashboard", "GET", "document"⟩ (.ok ⟨500, [], "oops"⟩)
      = ⟨.respond (.ok ⟨500, [], "oops"⟩), true,
          [(CACHE_NAME, [("https://recuerdame.example/dashboard", ⟨200, [], "old"⟩)])]⟩ :=
  ⟨rfl,
    (fetch_stores_only_status_200
      [(CACHE_NAME, [("https://recuerdame.example/dashboard", ⟨200, [], "old"⟩)])]
      ⟨"https://recuerdame.example/dashboard", "GET", "document"⟩ ⟨200, [], "old"⟩
      ⟨500, [], "oops"⟩ rfl rfl rfl (by decide)).1⟩
/-! ## The last known position -/

/-- C27: `handleLocationUpdate` sets `lastKnownPosition` to the sample, with
its unrounded accuracy, when the report is sent and the response is ok; when
the gate suppresses the report nothing happens and `lastKnownPosition` keeps
its value; when the response is not ok or the request fails,
`lastKnownPosition` keeps its value and the report is the only effect, so no
geofence alert is shown.  The handler has no other outcome: it does not
throw. -/
theorem lastKnownPosition_changes_only_on_ok {α : Type} [LinearOrderedField α]
    (M : MathOps α) (env : UpdateEnv) (last : Option (Coords α)) (coords : Coords α)
    (homeLat homeLng radiusMeters : α) (familyId uid : String) :
    (shouldUpdate M last coords.latitude coords.longitude
        (decide (calculateDistance M coords.latitude coords.longitude homeLat homeLng
          > radiusMeters)) = true →
      env.response = .ok true →
      (handleLocationUpdate M env last coords homeLat homeLng radiusMeters familyId uid).1
        = some coords) ∧
    (shouldUpdate M last coords.latitude coords.longitude
        (decide (calculateDistance M coords.latitude coords.longitude homeLat homeLng
          > radiusMeters)) = false →
      handleLocationUpdate M env last coords homeLat homeLng radiusMeters familyId uid
        = (last, [])) ∧
    (shouldUpdate M last coords.latitude coords.longitude
        (decide (calculateDistance M coords.latitude coords.longitude homeLat homeLng
          > radiusMeters)) = true →
      env.response ≠ .ok true →
      ∃ d, handleLocationUpdate M env last coords homeLat homeLng radiusMeters familyId uid
        = (last, [.postLocation d])) := by
  refine ⟨fun hs hr => ?_, fun hs => ?_, fun hs hr => ?_⟩
  · simp only [handleLocationUpdate, hs, hr, ↓reduceIte]
  · simp only [handleLocationUpdate, hs, Bool.false_eq_true, ↓reduceIte]
  · simp only [handleLocationUpdate, hs, ↓reduceIte]
    rcases hresp : env.response with e | b
    · exact ⟨_, rfl⟩
    · cases b
      · exact ⟨_, rfl⟩
      · exact absurd hresp hr

/-- C27, over the rationals with a `Math` whose functions are constant: a
first sample answered with a failure leaves `lastKnownPosition` unset, and
answered with ok sets it to the sample, accuracy 12.5 included. -/
theorem lastKnownPosition_changes_only_on_ok_witness :
    (handleLocationUpdate (⟨3, fun _ => 0, fun _ => 1, fun _ => 0, fun _ _ => 0, fun x => x⟩ :
        MathOps ℚ) ⟨"t", .ok true, false, false⟩ none ⟨40, -3, 25 / 2⟩ 40 (-3) 100
        "fam" "uid").1 = some ⟨40, -3, 25 / 2⟩ ∧
    ∃ d, handleLocationUpdate (⟨3, fun _ => 0, fun _ => 1, fun _ => 0, fun _ _ => 0, fun x => x⟩ :
        MathOps ℚ) ⟨"t", .error (.error "Failed to fetch"), false, false⟩ none
        ⟨40, -3, 25 / 2⟩ 40 (-3) 100 "fam" "uid" = (none, [.postLocation d]) :=
  ⟨(lastKnownPosition_changes_only_on_ok
      (⟨3, fun _ => 0, fun _ => 1, fun _ => 0, fun _ _ => 0, fun x => x⟩ : MathOps ℚ)
      ⟨"t", .ok true, false, false⟩ none ⟨40, -3, 25 / 2⟩ 40 (-3) 100 "fam" "uid").1
      (by simp [shouldUpdate]) rfl,
    (lastKnownPosition_changes_only_on_ok
      (⟨3, fun _ => 0, fun _ => 1, fun _ => 0, fun _ _ => 0, fun x => x⟩ : MathOps ℚ)
      ⟨"t", .error (.error "Failed to fetch"), false, false⟩ none ⟨40, -3, 25 / 2⟩ 40 (-3) 100
      "fam" "uid").2.2 (by simp [shouldUpdate]) (by simp)⟩

/-! ## The accuracy circle -/

/-- C21 fails as stated: with a reported accuracy of 0 the circle gets the
radius 30, on creation and on update, while `max(0, 10)` is 10. -/
theorem accuracyRadius_zero_counterexample :
    ((renderUserLocation true true ⟨none, none⟩ (40 : ℚ) (-3) (some 0)).toOption.bind
      fun objs => objs.accuracyCircle.map fun c => c.radius) = some 30 ∧
    ((renderUserLocation true true ⟨some (40, -3), some ⟨(40, -3), 15⟩⟩ (40 : ℚ) (-3)
      (some 0)).toOption.bind fun objs => objs.accuracyCircle.map fun c => c.radius)
      = some 30 ∧
    max (0 : ℚ) 10 = 10 ∧ (30 : ℚ) ≠ max 0 10 := by
  refine ⟨?_, ?_, by norm_num, by norm_num⟩
  · simp [renderUserLocation, accuracyRadius, Except.toOption, bind, Except.bind, pure,
      Except.pure]
    norm_num
  · simp [renderUserLocation, accuracyRadius, Except.toOption, bind, Except.bind, pure,
      Except.pure]
    norm_num

/-- C21 amended: whenever `renderUserLocation` gets to the accuracy circle,
on creation and on update, the circle is centred on the position and its
radius is `max(accuracy, 10)` for an accuracy other than 0, and 30 when the
accuracy is 0 or absent. -/
theorem accuracyRadius_default_thirty {α : Type} [LinearOrderedField α]
    (hasMarkerClass hasFamilyData : Bool) (objs objs1 : MapObjects α) (lat lng : α)
    (accuracy : Option α)
    (h : renderUserLocation hasMarkerClass hasFamilyData objs lat lng accuracy = .ok objs1) :
    ∃ c, objs1.accuracyCircle = some c ∧ c.center = (lat, lng) ∧
      c.radius = accuracyRadius accuracy ∧
      (∀ a, accuracy = some a → a ≠ 0 → c.radius = max a 10) ∧
      (accuracy = none ∨ accuracy = some 0 → c.radius = 30) := by
  have hr1 : ∀ a, accuracy = some a → a ≠ 0 → accuracyRadius accuracy = max a 10 := by
    intro a ha hne
    simp [accuracyRadius, ha, hne]
  have hr2 : accuracy = none ∨ accuracy = some 0 → accuracyRadius accuracy = 30 := by
    have h30 : max (30 : α) 10 = 30 := max_eq_left (by norm_num)
    rintro (ha | ha) <;> simp [accuracyRadius, ha, h30]
  have hcircle : ∀ m : α × α, ∃ c,
      (⟨some m, some (match objs.accuracyCircle with
        | none => ⟨(lat, lng), accuracyRadius accuracy⟩
        | some c => { c with center := (lat, lng), radius := accuracyRadius accuracy })⟩ :
        MapObjects α).accuracyCircle = some c ∧ c.center = (lat, lng) ∧
      c.radius = accuracyRadius accuracy ∧
      (∀ a, accuracy = some a → a ≠ 0 → c.radius = max a 10) ∧
      (accuracy = none ∨ accuracy = some 0 → c.radius = 30) := by
    intro m
    cases objs.accuracyCircle with
    | none => exact ⟨_, rfl, rfl, rfl, hr1, hr2⟩
    | some c => exact ⟨_, rfl, rfl, rfl, hr1, hr2⟩
  unfold renderUserLocation at h
  cases hu : objs.userMarker with
  | none =>
    cases hasMarkerClass with
    | false =>
      rw [hu] at h
      exact absurd h (by simp [bind, Except.bind, throw, throwThe, MonadExceptOf.throw])
    | true =>
      cases hasFamilyData with
      | false =>
        rw [hu] at h
        exact absurd h (by simp [bind, Except.bind, throw, throwThe, MonadExceptOf.throw])
      | true =>
        rw [hu] at h
        have h2 := h.symm.trans (show _ = Except.ok _ from rfl)
        injection h2 with h2
        subst h2
        exact hcircle (lat, lng)
  | some m =>
    rw [hu] at h
    have h2 := h.symm.trans (show _ = Except.ok _ from rfl)
    injection h2 with h2
    subst h2
    exact hcircle (lat, lng)

/-- C21 amended, at the creation of the circle with accuracy 25. -/
theorem accuracyRadius_default_thirty_witness :
    (∃ c, (⟨some (40, -3), some ⟨(40, -3), 25⟩⟩ : MapObjects ℚ).accuracyCircle = some c ∧
      c.center = (40, -3) ∧ c.radius = accuracyRadius (some 25) ∧
      (∀ a, some (25 : ℚ) = some a → a ≠ 0 → c.radius = max a 10) ∧
      (some (25 : ℚ) = none ∨ some (25 : ℚ) = some 0 → c.radius = 30)) :=
  accuracyRadius_default_thirty true true ⟨none, none⟩ ⟨some (40, -3), some ⟨(40, -3), 25⟩⟩
    (40 : ℚ) (-3) (some 25)
    (by
      simp [renderUserLocation, accuracyRadius, bind, Except.bind, pure, Except.pure]
      norm_num)
/-! ## Notification clicks on the page -/

theorem handleNotificationClick_obj (fields : List (String × JSVal)) :
    handleNotificationClick (.obj fields) =
      .ok (if (field fields "type").strictEqStr "geofence" then "/dashboard"
        else if (field fields "type").strictEqStr "reminder" then "/reminders"
        else "/alerts") := by
  simp only [handleNotificationClick, JSVal.getProp, field, bind, Except.bind, pure,
    Except.pure]
  split_ifs <;> rfl

/-- C24: for every notification data object the page navigates where the
service worker routes the click when the type is `geofence`, `reminder` or
`alert` (to `/dashboard`, `/reminders` and `/alerts`), and it navigates to
`/alerts` for every other type. -/
theorem handleNotificationClick_agrees_with_agent (fields : List (String × JSVal)) :
    (field fields "type" = .str "geofence" →
      handleNotificationClick (.obj fields) = .ok "/dashboard" ∧
      clickTarget (.obj fields) = .ok (.str "/dashboard")) ∧
    (field fields "type" = .str "reminder" →
      handleNotificationClick (.obj fields) = .ok "/reminders" ∧
      clickTarget (.obj fields) = .ok (.str "/reminders")) ∧
    (field fields "type" = .str "alert" →
      handleNotificationClick (.obj fields) = .ok "/alerts" ∧
      clickTarget (.obj fields) = .ok (.str "/alerts")) ∧
    ((field fields "type").strictEqStr "geofence" = false →
      (field fields "type").strictEqStr "reminder" = false →
      handleNotificationClick (.obj fields) = .ok "/alerts") := by
  refine ⟨fun h => ⟨?_, ?_⟩, fun h => ⟨?_, ?_⟩, fun h => ⟨?_, ?_⟩, fun h1 h2 => ?_⟩
  · rw [handleNotificationClick_obj, h]
    rfl
  · unfold field at h
    simp [clickTarget, JSVal.truthy, JSVal.getProp, h, JSVal.strictEqStr, bind, Except.bind,
      pure, Except.pure]
  · rw [handleNotificationClick_obj, h]
    rfl
  · unfold field at h
    simp [clickTarget, JSVal.truthy, JSVal.getProp, h, JSVal.strictEqStr, bind, Except.bind,
      pure, Except.pure]
  · rw [handleNotificationClick_obj, h]
    rfl
  · unfold field at h
    simp [clickTarget, JSVal.truthy, JSVal.getProp, h, JSVal.strictEqStr, bind, Except.bind,
      pure, Except.pure]
  · rw [handleNotificationClick_obj, h1, h2]
    rfl

/-- C24, at the data of an alert and at data whose type is `message`. -/
theorem handleNotificationClick_agrees_with_agent_witness :
    field [("type", JSVal.str "alert")] "type" = .str "alert" ∧
    handleNotificationClick (.obj [("type", .str "alert")]) = .ok "/alerts" ∧
    clickTarget (.obj [("type", .str "alert")]) = .ok (.str "/alerts") ∧
    handleNotificationClick (.obj [("type", .str "message")]) = .ok "/alerts" :=
  ⟨rfl,
    ((handleNotificationClick_agrees_with_agent [("type", .str "alert")]).2.2.1 rfl).1,
    ((handleNotificationClick_agrees_with_agent [("type", .str "alert")]).2.2.1 rfl).2,
    (handleNotificationClick_agrees_with_agent [("type", .str "message")]).2.2.2 rfl rfl⟩

theorem lookup_append_body (fields : List (String × JSVal)) (body : JSVal)
    (h : fields.lookup "data" = none) :
    (fields ++ [("body", body)]).lookup "data" = none := by
  induction fields with
  | nil => rfl
  | cons e rest ih =>
    obtain ⟨k, v⟩ := e
    by_cases hk : "data" = k
    · subst hk
      simp [List.lookup] at h
    · have hk2 : ("data" == k) = false := by simpa using hk
      simp only [List.lookup, hk2, List.cons_append] at h ⊢
      exact ih h

/-- C30: the page handler navigates for every notification data that is an
object and throws for `null`.  A notification shown for a `SHOW_NOTIFICATION`
message whose options carry no `data` has the data `null`; when such a
notification is clicked, other than on its dismiss action, the service worker
posts to every window client a `NOTIFICATION_CLICK` message whose
`notification` is `null`, and the page listener throws on that message. -/
theorem notification_click_null_data (env : ClientsEnv) (action : String)
    (title body options : JSVal) (haction : action ≠ "dismiss")
    (hdata : (spreadFields options).lookup "data" = none) :
    (∀ fields, ∃ href, handleNotificationClick (.obj fields) = .ok href) ∧
    (∃ e, handleNotificationClick .null = .error e) ∧
    (messageHandler (.obj [("type", .str "SHOW_NOTIFICATION"), ("title", title),
        ("body", body), ("options", options)])
      = .ok [.showNotification title (.obj (spreadFields options ++ [("body", body)]))]) ∧
    notificationData (.obj (spreadFields options ++ [("body", body)])) = .null ∧
    (∃ nav, (notificationClick env ⟨action, .null⟩).effects =
      .closeNotification :: (nav ++ (matchAll env .window).map fun c =>
        .postMessage c.id (.obj [("type", .str "NOTIFICATION_CLICK"),
          ("notification", .null)]))) ∧
    (∃ e, onServiceWorkerMessage (.obj [("type", .str "NOTIFICATION_CLICK"),
        ("notification", .null)]) = .error e) := by
  refine ⟨fun fields => ⟨_, handleNotificationClick_obj fields⟩, ⟨_, rfl⟩, rfl, ?_, ?_,
    ⟨_, rfl⟩⟩
  · simp only [notificationData, lookup_append_body _ body hdata]
  · have hd : (action == "dismiss") = false := by simpa using haction
    have ht : clickTarget .null = .ok (.str "/dashboard") := rfl
    simp only [notificationClick, hd, Bool.false_eq_true, ↓reduceIte, ht]
    cases hf : focusOrOpen env (.str "/dashboard") with
    | ok nav => exact ⟨nav, rfl⟩
    | error e => exact ⟨[], rfl⟩

/-- C30, at the notification of `testNotification`, clicked on its body with
one window open. -/
theorem notification_click_null_data_witness :
    "" ≠ "dismiss" ∧
    (spreadFields (defaultOptions testNotificationOptions)).lookup "data" = none ∧
    (∃ e, handleNotificationClick .null = .error e) ∧
    notificationData (.obj (spreadFields (defaultOptions testNotificationOptions) ++
      [("body", .str "Esta es una notificación de prueba. ¡Todo funciona correctamente!")]))
      = .null :=
  ⟨by decide, rfl,
    (notification_click_null_data ⟨[⟨1, "https://recuerdame.example/dashboard", .window⟩], true⟩
      "" (.str "RecuerdaMe - Prueba")
      (.str "Esta es una notificación de prueba. ¡Todo funciona correctamente!")
      (defaultOptions testNotificationOptions) (by decide) rfl).2.1,
    (notification_click_null_data ⟨[⟨1, "https://recuerdame.example/dashboard", .window⟩], true⟩
      "" (.str "RecuerdaMe - Prueba")
      (.str "Esta es una notificación de prueba. ¡Todo funciona correctamente!")
      (defaultOptions testNotificationOptions) (by decide) rfl).2.2.2.1⟩

/-! ## The status badge -/

/-- C29: with the badge and the update line on the page, the badge shows
`Sin ubicación` exactly when `isOutside` is `null`; for every other falsy
value, `undefined` included, it shows the success state `Dentro del área
segura`; for a truthy value it shows the warning state `Fuera del área
segura`.  When the location of the server's payload has no
`isOutsideSafeRadius`, `refreshUserLocation` passes `undefined`, so the badge
shows the success state. -/
theorem updateLocationStatus_null_only (formatTime : JSVal → Except JSError String)
    (page : StatusPage) (isOutside timestamp : JSVal)
    (hbadge : page.hasStatusBadge = true) (hline : page.hasLastUpdate = true) :
    ((updateLocationStatus formatTime page isOutside timestamp).1.innerHTML
        = "<i class=\"bi bi-question-circle me-1\"></i>Sin ubicación" ↔ isOutside = .null) ∧
    (isOutside = .null →
      (updateLocationStatus formatTime page isOutside timestamp).1.className
        = "badge text-bg-secondary") ∧
    (isOutside ≠ .null → isOutside.truthy = false →
      (updateLocationStatus formatTime page isOutside timestamp).1.className
        = "badge text-bg-success" ∧
      (updateLocationStatus formatTime page isOutside timestamp).1.innerHTML
        = "<i class=\"bi bi-shield-check me-1\"></i>Dentro del área segura") ∧
    (isOutside.truthy = true →
      (updateLocationStatus formatTime page isOutside timestamp).1.className
        = "badge text-bg-warning" ∧
      (updateLocationStatus formatTime page isOutside timestamp).1.innerHTML
        = "<i class=\"bi bi-exclamation-triangle me-1\"></i>Fuera del área segura") ∧
    (updateLocationStatus formatTime page .undefined timestamp).1.className
      = "badge text-bg-success" ∧
    (∀ (locFields : List (String × JSVal)) (hasRefreshBtn : Bool),
      locFields.lookup "isOutsideSafeRadius" = none →
      (refreshUserLocation formatTime page true hasRefreshBtn
        (.ok (.obj [("success", .bool true), ("location", .obj locFields)])) none).1
      = (updateLocationStatus formatTime page .undefined (field locFields "timestamp")).1) := by
  have hfalsy : ∀ v ts, v ≠ JSVal.null → v.truthy = false →
      (updateLocationStatus formatTime page v ts).1.className = "badge text-bg-success" ∧
      (updateLocationStatus formatTime page v ts).1.innerHTML
        = "<i class=\"bi bi-shield-check me-1\"></i>Dentro del área segura" := by
    intro v ts hv ht
    cases v with
    | null => exact absurd rfl hv
    | undefined =>
      simp only [updateLocationStatus, hbadge, hline, JSVal.truthy]
      cases formatTime ts <;> exact ⟨rfl, rfl⟩
    | bool b =>
      simp only [updateLocationStatus, hbadge, hline, ht]
      cases formatTime ts <;> exact ⟨rfl, rfl⟩
    | num q =>
      simp only [updateLocationStatus, hbadge, hline, ht]
      cases formatTime ts <;> exact ⟨rfl, rfl⟩
    | str s =>
      simp only [updateLocationStatus, hbadge, hline, ht]
      cases formatTime ts <;> exact ⟨rfl, rfl⟩
    | arr items => simp [JSVal.truthy] at ht
    | obj fields => simp [JSVal.truthy] at ht
  have htruthy : ∀ v ts, v.truthy = true →
      (updateLocationStatus formatTime page v ts).1.className = "badge text-bg-warning" ∧
      (updateLocationStatus formatTime page v ts).1.innerHTML
        = "<i class=\"bi bi-exclamation-triangle me-1\"></i>Fuera del área segura" := by
    intro v ts ht
    cases v with
    | null => simp [JSVal.truthy] at ht
    | undefined => simp [JSVal.truthy] at ht
    | bool b =>
      simp only [updateLocationStatus, hbadge, hline, ht]
      cases formatTime ts <;> exact ⟨rfl, rfl⟩
    | num q =>
      simp only [updateLocationStatus, hbadge, hline, ht]
      cases formatTime ts <;> exact ⟨rfl, rfl⟩
    | str s =>
      simp only [updateLocationStatus, hbadge, hline, ht]
      cases formatTime ts <;> exact ⟨rfl, rfl⟩
    | arr items =>
      simp only [updateLocationStatus, hbadge, hline, ht]
      cases formatTime ts <;> exact ⟨rfl, rfl⟩
    | obj fields =>
      simp only [updateLocationStatus, hbadge, hline, ht]
      cases formatTime ts <;> exact ⟨rfl, rfl⟩
  have hnull : ∀ ts, (updateLocationStatus formatTime page .null ts).1.className
        = "badge text-bg-secondary" ∧
      (updateLocationStatus formatTime page .null ts).1.innerHTML
        = "<i class=\"bi bi-question-circle me-1\"></i>Sin ubicación" := by
    intro ts
    simp [updateLocationStatus, hbadge, hline]
  refine ⟨⟨fun h => ?_, fun h => ?_⟩, fun h => ?_, hfalsy isOutside timestamp,
    htruthy isOutside timestamp, (hfalsy .undefined timestamp (by simp) rfl).1, ?_⟩
  · by_contra hne
    cases ht : isOutside.truthy with
    | true =>
      rw [(htruthy isOutside timestamp ht).2] at h
      exact absurd h (by decide)
    | false =>
      rw [(hfalsy isOutside timestamp hne ht).2] at h
      exact absurd h (by decide)
  · rw [h]
    exact (hnull timestamp).2
  · rw [h]
    exact (hnull timestamp).1
  · intro locFields hasRefreshBtn hmissing
    have h1 : JSVal.getProp (.obj [("success", .bool true), ("location", .obj locFields)])
        "success" = .ok (.bool true) := rfl
    have h2 : JSVal.getProp (.obj [("success", .bool true), ("location", .obj locFields)])
        "location" = .ok (.obj locFields) := rfl
    have hl : ∀ k, JSVal.getProp (.obj locFields) k = .ok (field locFields k) := fun _ => rfl
    have hu : field locFields "isOutsideSafeRadius" = .undefined := by
      simp [field, hmissing]
    simp only [refreshUserLocation, refreshTry, h1, h2, hl, hu, JSVal.truthy,
      Bool.not_true, Bool.false_eq_true, ↓reduceIte]
    rcases hst : updateLocationStatus formatTime page .undefined (field locFields "timestamp")
      with ⟨page1, failure⟩
    cases failure <;> rfl

/-- C29, on a page with both elements: `undefined` gives the success state,
and so does a refresh whose payload has no `isOutsideSafeRadius`. -/
theorem updateLocationStatus_null_only_witness :
    (updateLocationStatus (fun _ => .ok "10:30") ⟨true, true, "", "", false, ""⟩
      .undefined (.str "2024-05-01T10:30:00Z")).1.className = "badge text-bg-success" ∧
    (refreshUserLocation (fun _ => .ok "10:30") ⟨true, true, "", "", false, ""⟩ true true
      (.ok (.obj [("success", .bool true), ("location", .obj [("latitude", .num 40),
        ("longitude", .num (-3)), ("timestamp", .str "2024-05-01T10:30:00Z")])])) none).1
      = (updateLocationStatus (fun _ => .ok "10:30") ⟨true, true, "", "", false, ""⟩ .undefined
          (field [("latitude", .num 40), ("longitude", .num (-3)),
            ("timestamp", .str "2024-05-01T10:30:00Z")] "timestamp")).1 :=
  ⟨(updateLocationStatus_null_only (fun _ => .ok "10:30") ⟨true, true, "", "", false, ""⟩
      .undefined (.str "2024-05-01T10:30:00Z") rfl rfl).2.2.2.2.1,
    (updateLocationStatus_null_only (fun _ => .ok "10:30") ⟨true, true, "", "", false, ""⟩
      .undefined (.str "2024-05-01T10:30:00Z") rfl rfl).2.2.2.2.2
      [("latitude", .num 40), ("longitude", .num (-3)),
        ("timestamp", .str "2024-05-01T10:30:00Z")] true rfl⟩
/-! ## Haversine distance: range and symmetry -/

theorem calculateDistance_haversineTerm {α : Type} [LinearOrderedField α] (M : MathOps α)
    (lat1 lon1 lat2 lon2 : α) :
    calculateDistance M lat1 lon1 lat2 lon2 =
      6371000 * (2 * M.atan2 (M.sqrt (haversineTerm M lat1 lon1 lat2 lon2))
        (M.sqrt (1 - haversineTerm M lat1 lon1 lat2 lon2))) :=
  rfl

theorem haversineTerm_real_eq (lat1 lon1 lat2 lon2 : ℝ) :
    haversineTerm realMath lat1 lon1 lat2 lon2 =
      Real.sin ((lat2 - lat1) * Real.pi / 180 / 2) ^ 2 *
          (1 - Real.sin ((lon2 - lon1) * Real.pi / 180 / 2) ^ 2) +
        Real.sin ((lon2 - lon1) * Real.pi / 180 / 2) ^ 2 *
          ((1 + Real.cos (lat1 * Real.pi / 180 + lat2 * Real.pi / 180)) / 2) := by
  have hsub : Real.cos (lat2 * Real.pi / 180 - lat1 * Real.pi / 180) =
      1 - 2 * Real.sin ((lat2 - lat1) * Real.pi / 180 / 2) ^ 2 := by
    have h2 : lat2 * Real.pi / 180 - lat1 * Real.pi / 180 =
        2 * ((lat2 - lat1) * Real.pi / 180 / 2) := by ring
    rw [h2, Real.cos_two_mul]
    have := Real.sin_sq_add_cos_sq ((lat2 - lat1) * Real.pi / 180 / 2)
    linarith
  have hprod : Real.cos (lat1 * Real.pi / 180) * Real.cos (lat2 * Real.pi / 180) =
      (Real.cos (lat2 * Real.pi / 180 - lat1 * Real.pi / 180) +
        Real.cos (lat1 * Real.pi / 180 + lat2 * Real.pi / 180)) / 2 := by
    rw [Real.cos_sub, Real.cos_add]
    ring
  simp only [haversineTerm, realMath]
  rw [hprod, hsub]
  ring

theorem haversineTerm_real_bounds (lat1 lon1 lat2 lon2 : ℝ) :
    0 ≤ haversineTerm realMath lat1 lon1 lat2 lon2 ∧
    haversineTerm realMath lat1 lon1 lat2 lon2 ≤ 1 := by
  rw [haversineTerm_real_eq]
  have hS0 := sq_nonneg (Real.sin ((lat2 - lat1) * Real.pi / 180 / 2))
  have hS1 := Real.sin_sq_le_one ((lat2 - lat1) * Real.pi / 180 / 2)
  have hs0 := sq_nonneg (Real.sin ((lon2 - lon1) * Real.pi / 180 / 2))
  have hs1 := Real.sin_sq_le_one ((lon2 - lon1) * Real.pi / 180 / 2)
  have hC0 := Real.neg_one_le_cos (lat1 * Real.pi / 180 + lat2 * Real.pi / 180)
  have hC1 := Real.cos_le_one (lat1 * Real.pi / 180 + lat2 * Real.pi / 180)
  constructor
  · have t1 := mul_nonneg hS0 (sub_nonneg.mpr hs1)
    have t2 : 0 ≤ Real.sin ((lon2 - lon1) * Real.pi / 180 / 2) ^ 2 *
        ((1 + Real.cos (lat1 * Real.pi / 180 + lat2 * Real.pi / 180)) / 2) :=
      mul_nonneg hs0 (by linarith)
    linarith
  · have t1 := mul_nonneg (sub_nonneg.mpr hS1) (sub_nonneg.mpr hs1)
    have t2 : 0 ≤ Real.sin ((lon2 - lon1) * Real.pi / 180 / 2) ^ 2 *
        ((1 - Real.cos (lat1 * Real.pi / 180 + lat2 * Real.pi / 180)) / 2) :=
      mul_nonneg hs0 (by linarith)
    nlinarith

theorem haversineTerm_real_symm (lat1 lon1 lat2 lon2 : ℝ) :
    haversineTerm realMath lat2 lon2 lat1 lon1 = haversineTerm realMath lat1 lon1 lat2 lon2 := by
  have h1 : (lat1 - lat2) * Real.pi / 180 / 2 = -((lat2 - lat1) * Real.pi / 180 / 2) := by ring
  have h2 : (lon1 - lon2) * Real.pi / 180 / 2 = -((lon2 - lon1) * Real.pi / 180 / 2) := by ring
  simp only [haversineTerm, realMath]
  rw [h1, h2, Real.sin_neg, Real.sin_neg]
  ring

/-- In exact real arithmetic the haversine term `a` lies between 0 and 1 for
all latitudes and longitudes; the distance is `6371000 * 2 * atan2(√a, √(1 - a))`,
it lies between 0 and `π * 6371000`, and exchanging the two points does not
change it.  The formula is sound; the doubles of the program round it. -/
theorem calculateDistance_real_range_and_symmetry (lat1 lon1 lat2 lon2 : ℝ) :
    0 ≤ haversineTerm realMath lat1 lon1 lat2 lon2 ∧
    haversineTerm realMath lat1 lon1 lat2 lon2 ≤ 1 ∧
    calculateDistance realMath lat1 lon1 lat2 lon2 =
      6371000 * (2 * realMath.atan2 (realMath.sqrt (haversineTerm realMath lat1 lon1 lat2 lon2))
        (realMath.sqrt (1 - haversineTerm realMath lat1 lon1 lat2 lon2))) ∧
    0 ≤ calculateDistance realMath lat1 lon1 lat2 lon2 ∧
    calculateDistance realMath lat1 lon1 lat2 lon2 ≤ Real.pi * 6371000 ∧
    calculateDistance realMath lat1 lon1 lat2 lon2 =
      calculateDistance realMath lat2 lon2 lat1 lon1 := by
  obtain ⟨h0, h1⟩ := haversineTerm_real_bounds lat1 lon1 lat2 lon2
  have harg0 : 0 ≤ Complex.arg
      ⟨Real.sqrt (1 - haversineTerm realMath lat1 lon1 lat2 lon2),
        Real.sqrt (haversineTerm realMath lat1 lon1 lat2 lon2)⟩ :=
    Complex.arg_nonneg_iff.mpr (Real.sqrt_nonneg _)
  have harg1 : Complex.arg
      ⟨Real.sqrt (1 - haversineTerm realMath lat1 lon1 lat2 lon2),
        Real.sqrt (haversineTerm realMath lat1 lon1 lat2 lon2)⟩ ≤ Real.pi / 2 :=
    (abs_le.mp (Complex.abs_arg_le_pi_div_two_iff.mpr (Real.sqrt_nonneg _))).2
  have hd : calculateDistance realMath lat1 lon1 lat2 lon2 =
      6371000 * (2 * Complex.arg
        ⟨Real.sqrt (1 - haversineTerm realMath lat1 lon1 lat2 lon2),
          Real.sqrt (haversineTerm realMath lat1 lon1 lat2 lon2)⟩) := rfl
  refine ⟨h0, h1, rfl, ?_, ?_, ?_⟩
  · rw [hd]
    positivity
  · rw [hd]
    linarith
  · rw [calculateDistance_haversineTerm, calculateDistance_haversineTerm,
      haversineTerm_real_symm]
/-! ## Haversine distance in double arithmetic -/

/-- C28: in the double arithmetic of the program, with `Math.sin` and
`Math.cos` returning the doubles nearest to the exact values, the points
(81.71, 0) and (-81.71, 180) give the haversine term `a = 1 + 2^-52`, above
1, so `1 - a` is negative, `Math.sqrt(1 - a)` is `NaN` and
`calculateDistance` returns `NaN`, not a distance between 0 and
`π * 6371000`. -/
theorem calculateDistance_antipodal_nan (M : MathOps ℚ)
    (hpi : M.pi = doublePi)
    (hsinLat : M.sin (-1605655463106233 / 1125899906842624) =
      -8913082749672161 / 9007199254740992)
    (hsinLon : M.sin (884279719003555 / 562949953421312) = 1)
    (hcos1 : M.cos (1605655463106233 / 1125899906842624) =
      5194757837825723 / 36028797018963968)
    (hcos2 : M.cos (-1605655463106233 / 1125899906842624) =
      5194757837825723 / 36028797018963968) :
    haversineTermDouble M (roundDouble (8171 / 100)) 0 (-roundDouble (8171 / 100)) 180 =
      1 + 1 / 2 ^ 52 ∧
    calculateDistanceDouble M (roundDouble (8171 / 100)) 0 (-roundDouble (8171 / 100)) 180 =
      none := by
  have r81 : roundDouble (8171 / 100) = (5749830086756925 / 70368744177664) :=
    roundDouble_of_bounds _ _ (6) (5749830086756925) (by norm_num) (by norm_num [doublePi, abs_of_pos, abs_of_neg])
      (by norm_num [doublePi, abs_of_pos, abs_of_neg]) (by norm_num [doublePi, abs_lt]) (by norm_num)
  have rdLatDeg : roundDouble (-(5749830086756925 / 70368744177664) - (5749830086756925 / 70368744177664)) = (-5749830086756925 / 35184372088832) :=
    roundDouble_of_bounds _ _ (7) (-5749830086756925) (by norm_num) (by norm_num [doublePi, abs_of_pos, abs_of_neg])
      (by norm_num [doublePi, abs_of_pos, abs_of_neg]) (by norm_num [doublePi, abs_lt]) (by norm_num)
  have rdLatMul : roundDouble ((-5749830086756925 / 35184372088832) * doublePi) = (-564488248748285 / 1099511627776) :=
    roundDouble_of_bounds _ _ (9) (-4515905989986280) (by norm_num) (by norm_num [doublePi, abs_of_pos, abs_of_neg])
      (by norm_num [doublePi, abs_of_pos, abs_of_neg]) (by norm_num [doublePi, abs_lt]) (by norm_num)
  have rdLat : roundDouble ((-564488248748285 / 1099511627776) / 180) = (-1605655463106233 / 562949953421312) :=
    roundDouble_of_bounds _ _ (1) (-6422621852424932) (by norm_num) (by norm_num [doublePi, abs_of_pos, abs_of_neg])
      (by norm_num [doublePi, abs_of_pos, abs_of_neg]) (by norm_num [doublePi, abs_lt]) (by norm_num)
  have rdLonDeg : roundDouble (180 - 0) = 180 :=
    roundDouble_of_bounds _ _ (7) (6333186975989760) (by norm_num) (by norm_num [doublePi, abs_of_pos, abs_of_neg])
      (by norm_num [doublePi, abs_of_pos, abs_of_neg]) (by norm_num [doublePi, abs_lt]) (by norm_num)
  have rdLonMul : roundDouble (180 * doublePi) = (4974073419394997 / 8796093022208) :=
    roundDouble_of_bounds _ _ (9) (4974073419394997) (by norm_num) (by norm_num [doublePi, abs_of_pos, abs_of_neg])
      (by norm_num [doublePi, abs_of_pos, abs_of_neg]) (by norm_num [doublePi, abs_lt]) (by norm_num)
  have rdLon : roundDouble ((4974073419394997 / 8796093022208) / 180) = (884279719003555 / 281474976710656) :=
    roundDouble_of_bounds _ _ (1) (7074237752028440) (by norm_num) (by norm_num [doublePi, abs_of_pos, abs_of_neg])
      (by norm_num [doublePi, abs_of_pos, abs_of_neg]) (by norm_num [doublePi, abs_lt]) (by norm_num)
  have rhLat : roundDouble ((-1605655463106233 / 562949953421312) / 2) = (-1605655463106233 / 1125899906842624) :=
    roundDouble_of_bounds _ _ (0) (-6422621852424932) (by norm_num) (by norm_num [doublePi, abs_of_pos, abs_of_neg])
      (by norm_num [doublePi, abs_of_pos, abs_of_neg]) (by norm_num [doublePi, abs_lt]) (by norm_num)
  have rhLon : roundDouble ((884279719003555 / 281474976710656) / 2) = (884279719003555 / 562949953421312) :=
    roundDouble_of_bounds _ _ (0) (7074237752028440) (by norm_num) (by norm_num [doublePi, abs_of_pos, abs_of_neg])
      (by norm_num [doublePi, abs_of_pos, abs_of_neg]) (by norm_num [doublePi, abs_lt]) (by norm_num)
  have rlat1Mul : roundDouble ((5749830086756925 / 70368744177664) * doublePi) = (564488248748285 / 2199023255552) :=
    roundDouble_of_bounds _ _ (8) (4515905989986280) (by norm_num) (by norm_num [doublePi, abs_of_pos, abs_of_neg])
      (by norm_num [doublePi, abs_of_pos, abs_of_neg]) (by norm_num [doublePi, abs_lt]) (by norm_num)
  have rlat1 : roundDouble ((564488248748285 / 2199023255552) / 180) = (1605655463106233 / 1125899906842624) :=
    roundDouble_of_bounds _ _ (0) (6422621852424932) (by norm_num) (by norm_num [doublePi, abs_of_pos, abs_of_neg])
      (by norm_num [doublePi, abs_of_pos, abs_of_neg]) (by norm_num [doublePi, abs_lt]) (by norm_num)
  have rlat2Mul : roundDouble (-(5749830086756925 / 70368744177664) * doublePi) = (-564488248748285 / 2199023255552) :=
    roundDouble_of_bounds _ _ (8) (-4515905989986280) (by norm_num) (by norm_num [doublePi, abs_of_pos, abs_of_neg])
      (by norm_num [doublePi, abs_of_pos, abs_of_neg]) (by norm_num [doublePi, abs_lt]) (by norm_num)
  have rlat2 : roundDouble ((-564488248748285 / 2199023255552) / 180) = (-1605655463106233 / 1125899906842624) :=
    roundDouble_of_bounds _ _ (0) (-6422621852424932) (by norm_num) (by norm_num [doublePi, abs_of_pos, abs_of_neg])
      (by norm_num [doublePi, abs_of_pos, abs_of_neg]) (by norm_num [doublePi, abs_lt]) (by norm_num)
  have rss : roundDouble ((-8913082749672161 / 9007199254740992) * (-8913082749672161 / 9007199254740992)) = (8819949670891109 / 9007199254740992) :=
    roundDouble_of_bounds _ _ (-1) (8819949670891109) (by norm_num) (by norm_num [doublePi, abs_of_pos, abs_of_neg])
      (by norm_num [doublePi, abs_of_pos, abs_of_neg]) (by norm_num [doublePi, abs_lt]) (by norm_num)
  have rcc : roundDouble ((5194757837825723 / 36028797018963968) * (5194757837825723 / 36028797018963968)) = (5991986683196289 / 288230376151711744) :=
    roundDouble_of_bounds _ _ (-6) (5991986683196289) (by norm_num) (by norm_num [doublePi, abs_of_pos, abs_of_neg])
      (by norm_num [doublePi, abs_of_pos, abs_of_neg]) (by norm_num [doublePi, abs_lt]) (by norm_num)
  have rccs : roundDouble ((5991986683196289 / 288230376151711744) * 1) = (5991986683196289 / 288230376151711744) :=
    roundDouble_of_bounds _ _ (-6) (5991986683196289) (by norm_num) (by norm_num [doublePi, abs_of_pos, abs_of_neg])
      (by norm_num [doublePi, abs_of_pos, abs_of_neg]) (by norm_num [doublePi, abs_lt]) (by norm_num)
  have ra : roundDouble ((8819949670891109 / 9007199254740992) + (5991986683196289 / 288230376151711744)) = (4503599627370497 / 4503599627370496) :=
    roundDouble_of_bounds _ _ (0) (4503599627370497) (by norm_num) (by norm_num [doublePi, abs_of_pos, abs_of_neg])
      (by norm_num [doublePi, abs_of_pos, abs_of_neg]) (by norm_num [doublePi, abs_lt]) (by norm_num)
  have rom : roundDouble (1 - (4503599627370497 / 4503599627370496)) = (-1 / 4503599627370496) :=
    roundDouble_of_bounds _ _ (-52) (-4503599627370496) (by norm_num) (by norm_num [doublePi, abs_of_pos, abs_of_neg])
      (by norm_num [doublePi, abs_of_pos, abs_of_neg]) (by norm_num [doublePi, abs_lt]) (by norm_num)
  have ha : haversineTermDouble M (roundDouble (8171 / 100)) 0 (-roundDouble (8171 / 100)) 180 =
      4503599627370497 / 4503599627370496 := by
    simp only [haversineTermDouble, toRadDouble, hpi]
    rw [r81, rdLatDeg, rdLatMul, rdLat, rdLonDeg, rdLonMul, rdLon, rhLat, rhLon, rlat1Mul, rlat1,
      rlat2Mul, rlat2, hsinLat, hsinLon, hcos1, hcos2, rss, rcc, rccs, rccs, ra]
  refine ⟨by rw [ha]; norm_num, ?_⟩
  have hpos : sqrtDouble M (4503599627370497 / 4503599627370496) =
      some (M.sqrt (4503599627370497 / 4503599627370496)) := by
    unfold sqrtDouble
    rw [if_neg (by norm_num)]
  have hneg : sqrtDouble M (-1 / 4503599627370496) = none := by
    unfold sqrtDouble
    rw [if_pos (by norm_num)]
  unfold calculateDistanceDouble
  simp only [ha, rom, hpos, hneg]

/-- C28, with the table of sines and cosines of the example. -/
theorem calculateDistance_antipodal_nan_witness :
    antipodalMath.pi = doublePi ∧
    antipodalMath.sin (-1605655463106233 / 1125899906842624) =
      -8913082749672161 / 9007199254740992 ∧
    antipodalMath.sin (884279719003555 / 562949953421312) = 1 ∧
    antipodalMath.cos (1605655463106233 / 1125899906842624) =
      5194757837825723 / 36028797018963968 ∧
    antipodalMath.cos (-1605655463106233 / 1125899906842624) =
      5194757837825723 / 36028797018963968 ∧
    haversineTermDouble antipodalMath (roundDouble (8171 / 100)) 0
      (-roundDouble (8171 / 100)) 180 = 1 + 1 / 2 ^ 52 ∧
    calculateDistanceDouble antipodalMath (roundDouble (8171 / 100)) 0
      (-roundDouble (8171 / 100)) 180 = none :=
  ⟨rfl, by norm_num [antipodalMath], by norm_num [antipodalMath],
    by norm_num [antipodalMath], by norm_num [antipodalMath],
    calculateDistance_antipodal_nan antipodalMath rfl (by norm_num [antipodalMath])
      (by norm_num [antipodalMath]) (by norm_num [antipodalMath])
      (by norm_num [antipodalMath])⟩

/-! ## Debounce -/

theorem burstInv_init (A : Type) (wait : Nat) : BurstInv wait (Burst.init A) :=
  ⟨rfl, rfl, rfl⟩

theorem burstInv_step {A : Type} (wait : Nat) (b c : Burst A) (e : DebounceEvent A)
    (hinv : BurstInv wait b) (h : burstStep wait b e = some c) : BurstInv wait c := by
  obtain ⟨s, lastCall⟩ := b
  cases e with
  | call t args =>
    simp only [burstStep, debounceStep] at h
    split_ifs at h with hgap hnow
    · simp only [Option.map_some', Option.some.injEq] at h
      subst h
      cases lastCall with
      | none =>
        obtain ⟨ht, _, _⟩ := hinv
        simp only [BurstInv] at ht ⊢
        refine ⟨le_refl _, Or.inl ⟨s.nextId, ?_, rfl, ?_⟩⟩
        · simp [executedFunction, clearTimeout, ht]
        · simpa [executedFunction] using ‹s.invoked = []›
      | some last =>
        obtain ⟨tc, a⟩ := last
        obtain ⟨hle, hcase⟩ := hinv
        simp only [BurstInv] at hle hcase ⊢
        simp only [decide_eq_true_eq] at hgap
        rcases hcase with ⟨id, htm, hto, hinvk⟩ | ⟨htm, t0, hinvk, hwait, ht0⟩
        · refine ⟨le_refl _, Or.inl ⟨s.nextId, ?_, rfl, ?_⟩⟩
          · simp [executedFunction, clearTimeout, htm, hto]
          · simpa [executedFunction] using hinvk
        · omega
    · simp at h
  | fire t id =>
    simp only [burstStep, debounceStep] at h
    split_ifs at h with hnow
    · cases lastCall with
      | none =>
        obtain ⟨ht, _, _⟩ := hinv
        simp only at ht
        simp [ht] at h
      | some last =>
        obtain ⟨tc, a⟩ := last
        obtain ⟨hle, hcase⟩ := hinv
        simp only [BurstInv] at hle hcase ⊢
        rcases hcase with ⟨id0, htm, hto, hinvk⟩ | ⟨htm, _⟩
        · rw [htm] at h
          by_cases hid : id0 = id
          · subst hid
            simp only [List.find?, beq_self_eq_true] at h
            split_ifs at h with hdue
            · simp only [Option.map_some', Option.some.injEq] at h
              subst h
              refine ⟨by simp only [later]; omega, Or.inr ⟨?_, t, ?_, hdue, ?_⟩⟩
              · simp [later, clearTimeout, htm]
              · simp [later, hinvk]
              · simp [later]
            · simp at h
          · have hne : (id0 == id) = false := by simpa using hid
            simp [List.find?, hne] at h
        · simp [htm] at h
    · simp at h

theorem burstInv_run {A : Type} (wait : Nat) (events : List (DebounceEvent A)) (b c : Burst A)
    (hinv : BurstInv wait b) (h : burstRun wait b events = some c) : BurstInv wait c := by
  induction events generalizing b with
  | nil =>
    simp only [burstRun, Option.some.injEq] at h
    subst h
    exact hinv
  | cons e es ih =>
    unfold burstRun at h
    cases hs : burstStep wait b e with
    | none => simp [hs] at h
    | some d =>
      rw [hs] at h
      exact ih d (burstInv_step wait b d e hinv hs) h

/-- C25: in every run of a debounced function in which each call comes less
than `wait` after the call before it, at most one timer is pending, and
`func` is invoked at most once, with the arguments of the latest call and no
sooner than `wait` after it.  While the timer of the latest call is pending
`func` has not been invoked and the timer may fire at any time from `wait`
after that call, which invokes `func`; once no timer is pending `func` has
been invoked exactly once. -/
theorem debounce_invokes_once_after_wait {A : Type} (wait : Nat)
    (events : List (DebounceEvent A)) (b : Burst A)
    (h : burstRun wait (Burst.init A) events = some b) :
    b.state.timers.length ≤ 1 ∧
    b.state.invoked.length ≤ 1 ∧
    (∀ t a, (t, a) ∈ b.state.invoked → ∃ tc, b.lastCall = some (tc, a) ∧ tc + wait ≤ t) ∧
    (∀ tc a, b.lastCall = some (tc, a) →
      (b.state.timers = [] → ∃ t, b.state.invoked = [(t, a)] ∧ tc + wait ≤ t) ∧
      (b.state.timers ≠ [] →
        b.state.invoked = [] ∧
        ∃ id, ∀ t, b.state.now ≤ t → tc + wait ≤ t →
          ∃ c, burstStep wait b (.fire t id) = some c ∧ c.state.timers = [] ∧
            c.state.invoked = [(t, a)])) := by
  have hinv := burstInv_run wait events (Burst.init A) b (burstInv_init A wait) h
  obtain ⟨s, lastCall⟩ := b
  cases lastCall with
  | none =>
    obtain ⟨htm, hinvk, _⟩ := hinv
    simp only at htm hinvk
    refine ⟨by simp [htm], by simp [hinvk], ?_, ?_⟩
    · intro t a hmem
      simp [hinvk] at hmem
    · intro tc a hl
      simp at hl
  | some last =>
    obtain ⟨tc, a⟩ := last
    obtain ⟨hle, hcase⟩ := hinv
    simp only at hle hcase
    rcases hcase with ⟨id, htm, hto, hinvk⟩ | ⟨htm, t0, hinvk, hwait, ht0⟩
    · refine ⟨by simp [htm], by simp [hinvk], ?_, ?_⟩
      · intro t a1 hmem
        simp [hinvk] at hmem
      · intro tc1 a1 hl
        simp only [Option.some.injEq, Prod.mk.injEq] at hl
        obtain ⟨rfl, rfl⟩ := hl
        refine ⟨fun hnil => ?_, fun _ => ⟨hinvk, id, fun t hnow hdue => ?_⟩⟩
        · simp [htm] at hnil
        · refine ⟨⟨later s t ⟨id, tc + wait, a⟩, some (tc, a)⟩, ?_, ?_, ?_⟩
          · simp [burstStep, debounceStep, hnow, htm, List.find?, hdue]
          · simp [later, clearTimeout, htm]
          · simp [later, hinvk]
    · refine ⟨by simp [htm], by simp [hinvk], ?_, ?_⟩
      · intro t a1 hmem
        simp only [hinvk, List.mem_singleton, Prod.mk.injEq] at hmem
        obtain ⟨rfl, rfl⟩ := hmem
        exact ⟨tc, rfl, hwait⟩
      · intro tc1 a1 hl
        simp only [Option.some.injEq, Prod.mk.injEq] at hl
        obtain ⟨rfl, rfl⟩ := hl
        exact ⟨fun _ => ⟨t0, hinvk, hwait⟩, fun hne => absurd htm hne⟩

/-- C25, at three calls 40 ms apart with a wait of 100 ms, whose timer fires
at 230 ms: `func` is invoked once, with the arguments of the third call. -/
theorem debounce_invokes_once_after_wait_witness :
    burstRun 100 (Burst.init String)
      [.call 0 "a", .call 40 "ab", .call 80 "abc", .fire 230 3]
      = some ⟨⟨230, some 3, [], 4, [(230, "abc")]⟩, some (80, "abc")⟩ ∧
    (∀ t a, (t, a) ∈ [((230 : Nat), "abc")] →
      ∃ tc, some ((80 : Nat), "abc") = some (tc, a) ∧ tc + 100 ≤ t) :=
  ⟨rfl,
    (debounce_invokes_once_after_wait 100
      [.call 0 "a", .call 40 "ab", .call 80 "abc", .fire 230 3]
      ⟨⟨230, some 3, [], 4, [(230, "abc")]⟩, some (80, "abc")⟩ rfl).2.2.1⟩

end Recuerdame
